import Mathlib

/-!
# ShadowMappingGL: the shadow-mapping pipeline of `GLApp` and `Geometry`

A shallow embedding of `src/Geometry.cpp` and `src/GLApp.cpp`.

* Numbers (`GLfloat`, `GLdouble`) are rationals `ℚ`. What the OpenGL and GLU libraries
  compute is exact. The `GLfloat` arithmetic of the source itself, which is the aspect
  `(float)w/h` of `Reshape` and `InitGraphics`, the sums `cameraPos[i] += zoomFactor` of
  `Zoom` and the accumulation `angle += 50.0f * dt` of `Render`, is modelled twice:
  `Reshape`, `InitGraphics`, `Zoom` and `Render` compute it exactly, and the properties
  that do not turn on rounding (the OpenGL state, which matrices an event writes, the sign
  of a zoom) are stated of them; `Reshape32`, `InitGraphics32`, `Zoom32` and `Render32`
  round every such operation by itself to IEEE 754 binary32 (to nearest, ties to even,
  subnormal numbers included), and the properties of the computed numbers are stated of
  them. The two differ in those numbers only (`Reshape32_eq`, `InitGraphics32_eq`,
  `Render32_eq_Render`). Binary32 has no number of magnitude `2 ^ 128` or more: where an
  operation could reach it, the statements assume it did not (`f32finite`).
* The OpenGL context is an explicit state `GLState`; every OpenGL call of the source is a
  function on that state, in the order of the source.
* Library functions that need `sin`, `cos` or `sqrt` (`gluPerspective`, `gluLookAt`,
  `glRotatef`) take those values from a parameter `Numerics`.
* The function-local statics of the source (`Geometry::Draw`'s four list names and
  `GLApp::Render`'s `angle`) are the record `Statics`.
* The window, device-context and rendering-context handles, with the record of the Win32
  calls `GLApp::ShutDown` issues, are the state `WinState`.
-/

namespace ShadowMap

/-! ## Arrays of 16 values and 4x4 matrices -/

/-- A C array of 16 values, `GLdouble M[16]`. -/
abbrev Arr16 (α : Type) := Fin 16 → α

/-- A `GLdouble[16]` matrix over exact numbers, stored column-major as OpenGL does. -/
abbrev Mat16 := Arr16 ℚ

/-- A `GLfloat[3]` position. -/
abbrev Vec3 := Fin 3 → ℚ

/-- Four plane coefficients. -/
abbrev Vec4 := Fin 4 → ℚ

/-- The flat index `4*i + j`. -/
def flat (i j : Fin 4) : Fin 16 := ⟨4 * i.val + j.val, by omega⟩

/-- The macro `Swap(a, b)` of `Transpose4x4Matrix`: `tmp = a; a = b; b = tmp`,
on the array elements `M[a]` and `M[b]`. -/
def Swap {α : Type} (M : Arr16 α) (a b : Fin 16) : Arr16 α :=
  let tmp := M a
  let M1 := Function.update M a (M b)
  Function.update M1 b tmp

/-- `Geometry::Transpose4x4Matrix` (Geometry.cpp 247-258): six swaps, in source order. -/
def Transpose4x4Matrix {α : Type} (M : Arr16 α) : Arr16 α :=
  let M := Swap M 1 4
  let M := Swap M 2 8
  let M := Swap M 3 12
  let M := Swap M 6 9
  let M := Swap M 7 13
  let M := Swap M 11 14
  M

/-- The four consecutive elements `&M[off]`, `M[off]`..`M[off+3]`. -/
def slice4 {α : Type} (M : Arr16 α) (off : Fin 13) : Fin 4 → α :=
  fun j => M ⟨off.val + j.val, by omega⟩

/-- The mathematical matrix a column-major array stands for: entry `(r, c)` is `M[4*c + r]`. -/
def toMatrix (M : Mat16) : Matrix (Fin 4) (Fin 4) ℚ := Matrix.of fun r c => M (flat c r)

/-- The identity matrix, column-major. -/
def identity16 : Mat16 := ![1,0,0,0, 0,1,0,0, 0,0,1,0, 0,0,0,1]

/-- The matrix of `glTranslate(x, y, z)`, column-major. -/
def translation (x y z : ℚ) : Mat16 := ![1,0,0,0, 0,1,0,0, 0,0,1,0, x,y,z,1]

/-- The matrix of `glScale(x, y, z)`, column-major. -/
def scaling (x y z : ℚ) : Mat16 := ![x,0,0,0, 0,y,0,0, 0,0,z,0, 0,0,0,1]

/-- The product `C · M` on column-major arrays: what `glMultMatrix` stores when the current
matrix is `C`. Entry `(r, c)` is the sum over `t` of `C(r,t) * M(t,c)`. -/
def matMul (C M : Mat16) : Mat16 := fun k =>
  let r : Fin 4 := ⟨k.val % 4, Nat.mod_lt _ (by decide)⟩
  let c : Fin 4 := ⟨k.val / 4, by omega⟩
  C (flat 0 r) * M (flat c 0) + C (flat 1 r) * M (flat c 1)
    + C (flat 2 r) * M (flat c 2) + C (flat 3 r) * M (flat c 3)

/-- The values the library functions obtain from `sin`, `cos` and `sqrt`, which have no
exact rational model: a parameter of the embedding. -/
structure Numerics where
  /-- The cotangent of half the angle `fovy` given in degrees, as `gluPerspective` uses it. -/
  cotHalfDeg : ℚ → ℚ
  /-- The matrix `gluLookAt(eye, center, up)` multiplies the current matrix by. -/
  lookAt : Vec3 → Vec3 → Vec3 → Mat16
  /-- The matrix `glRotatef(angle, x, y, z)` multiplies the current matrix by. -/
  rotation : ℚ → ℚ → ℚ → ℚ → Mat16

/-- The matrix of `gluPerspective(fovy, aspect, zNear, zFar)` as the GLU reference gives it,
with `f = cotangent(fovy / 2)`, column-major. -/
def perspective (N : Numerics) (fovy aspect zNear zFar : ℚ) : Mat16 :=
  let f := N.cotHalfDeg fovy
  ![f / aspect, 0, 0, 0,
    0, f, 0, 0,
    0, 0, (zFar + zNear) / (zNear - zFar), -1,
    0, 0, 2 * zFar * zNear / (zNear - zFar), 0]

/-! ## The OpenGL state -/

/-- The argument of `glMatrixMode`. -/
inductive MatrixMode
  | modelview
  | projection
  | texture
  deriving DecidableEq

/-- A matrix stack: never empty, `top` is the current matrix. -/
structure MatrixStack where
  top : Mat16
  below : List Mat16

/-- The number of matrices on the stack. -/
def MatrixStack.depth (s : MatrixStack) : Nat := s.below.length + 1

/-- The step `glPushMatrix` makes: duplicate the top. The program never has more than 4
model-view, 2 projection and 2 texture matrices stacked, within the depths every OpenGL
implementation provides (32, 2, 2), so `GL_STACK_OVERFLOW` is not modelled. -/
def MatrixStack.push (s : MatrixStack) : MatrixStack := ⟨s.top, s.top :: s.below⟩

/-- The step `glPopMatrix` makes: drop the top; a stack of one matrix is left as it is
(OpenGL raises `GL_STACK_UNDERFLOW` and ignores the call). -/
def MatrixStack.pop (s : MatrixStack) : MatrixStack :=
  match s.below with
  | [] => s
  | m :: ms => ⟨m, ms⟩

/-- The capabilities the program passes to `glEnable` and `glDisable`. -/
inductive Cap
  | lighting
  | light0
  | texture2D
  | polygonOffsetFill
  | alphaTest
  | depthTest
  | colorMaterial
  | textureGenS
  | textureGenT
  | textureGenR
  | textureGenQ
  deriving DecidableEq

/-- The comparison functions of OpenGL (`GL_NEVER` .. `GL_ALWAYS`). -/
inductive CmpFunc
  | never
  | less
  | equal
  | lequal
  | greater
  | notequal
  | gequal
  | always
  deriving DecidableEq

/-- The value of `a func b`. -/
def CmpFunc.eval : CmpFunc → ℚ → ℚ → Bool
  | .never, _, _ => false
  | .less, a, b => decide (a < b)
  | .equal, a, b => decide (a = b)
  | .lequal, a, b => decide (a ≤ b)
  | .greater, a, b => decide (a > b)
  | .notequal, a, b => decide (a ≠ b)
  | .gequal, a, b => decide (a ≥ b)
  | .always, _, _ => true

/-- The argument of `glShadeModel`. -/
inductive ShadeModel
  | flat
  | smooth
  deriving DecidableEq

/-- The argument of `glCullFace`. -/
inductive CullFace
  | front
  | back
  | frontAndBack
  deriving DecidableEq

/-- The values of `GL_TEXTURE_COMPARE_MODE_ARB`. -/
inductive CompareMode
  | none
  | compareRToTexture
  deriving DecidableEq

/-- The values of `GL_DEPTH_TEXTURE_MODE_ARB`. -/
inductive DepthTextureMode
  | luminance
  | intensity
  | alpha
  deriving DecidableEq

/-- Texture filters. -/
inductive TexFilter
  | nearest
  | linear
  | nearestMipmapLinear
  deriving DecidableEq

/-- Texture wrap modes. -/
inductive TexWrap
  | wrapRepeat
  | wrapClamp
  deriving DecidableEq

/-- The texture coordinates `GL_S`, `GL_T`, `GL_R`, `GL_Q`. -/
inductive TexCoord
  | S
  | T
  | R
  | Q
  deriving DecidableEq

/-- The values of `GL_TEXTURE_GEN_MODE`. -/
inductive TexGenMode
  | objectLinear
  | eyeLinear
  | sphereMap
  deriving DecidableEq

/-- A texture object: the size of its level-0 image (if one was specified) and its
parameters. -/
structure TexObj where
  image : Option (Int × Int)
  minFilter : TexFilter
  magFilter : TexFilter
  wrapS : TexWrap
  wrapT : TexWrap
  compareMode : CompareMode
  depthTextureMode : DepthTextureMode
  compareFunc : CmpFunc

/-- A texture object as OpenGL creates it. -/
def TexObj.default : TexObj :=
  { image := none, minFilter := .nearestMipmapLinear, magFilter := .linear,
    wrapS := .wrapRepeat, wrapT := .wrapRepeat, compareMode := .none,
    depthTextureMode := .luminance, compareFunc := .lequal }

/-- What `glTexGendv(coord, GL_EYE_PLANE, params)` received: the four coefficients handed
over, and the model-view matrix current at that moment (OpenGL stores the coefficients
multiplied by the inverse of that matrix). -/
structure EyePlane where
  params : Vec4
  modelview : Mat16

/-- The commands the program compiles into display lists. -/
inductive GLCmd
  | color3f (r g b : ℚ)
  | pushMatrix
  | popMatrix
  | scalef (x y z : ℚ)
  | translatef (x y z : ℚ)
  | rotatef (angle x y z : ℚ)
  | solidCube (size : ℚ)
  | solidTorus (innerRadius outerRadius : ℚ) (sides rings : Nat)
  | solidSphere (radius : ℚ) (slices nstacks : Nat)
  | solidCone (base height : ℚ) (slices nstacks : Nat)

/-- The part of the OpenGL context the program reads or writes. The contents of the colour
and depth buffers and of texture images are not modelled. -/
structure GLState where
  matrixMode : MatrixMode
  modelview : MatrixStack
  projection : MatrixStack
  texture : MatrixStack
  viewport : Int × Int × Int × Int
  enabled : Cap → Bool
  colorMask : Bool × Bool × Bool × Bool
  polygonOffset : ℚ × ℚ
  alphaFunc : CmpFunc × ℚ
  shadeModel : ShadeModel
  cullFace : CullFace
  clearColor : ℚ × ℚ × ℚ × ℚ
  color : ℚ × ℚ × ℚ × ℚ
  /-- The `x, y, z` handed to `glLightfv(GL_LIGHT0, GL_POSITION, ..)` and the model-view
  matrix current at that moment, if the call was made. -/
  light0Position : Option (Vec3 × Mat16)
  materialSpecular : ℚ × ℚ × ℚ × ℚ
  materialShininess : ℚ
  /-- How many texture names `glGenTextures` has handed out. -/
  textureNames : Nat
  boundTexture2D : Nat
  textures : Nat → TexObj
  texGenMode : TexCoord → TexGenMode
  eyePlane : TexCoord → EyePlane
  /-- How many display-list names `glGenLists` has handed out. -/
  listNames : Nat
  /-- The compiled display lists; a name that was never compiled holds no command. -/
  lists : Nat → List GLCmd
  /-- The rectangle `(x, y, width, height)` of every `glCopyTexImage2D`, with the name of
  the texture it was copied into, oldest first. -/
  copies : List (Nat × Int × Int × Int × Int)

/-- The state of a fresh rendering context, as the OpenGL specification gives it; the
initial viewport is the size of the window the context is attached to. -/
def GLState.initial (width height : Int) : GLState :=
  { matrixMode := .modelview
    modelview := ⟨identity16, []⟩
    projection := ⟨identity16, []⟩
    texture := ⟨identity16, []⟩
    viewport := (0, 0, width, height)
    enabled := fun _ => false
    colorMask := (true, true, true, true)
    polygonOffset := (0, 0)
    alphaFunc := (.always, 0)
    shadeModel := .smooth
    cullFace := .back
    clearColor := (0, 0, 0, 0)
    color := (1, 1, 1, 1)
    light0Position := none
    materialSpecular := (0, 0, 0, 1)
    materialShininess := 0
    textureNames := 0
    boundTexture2D := 0
    textures := fun _ => TexObj.default
    texGenMode := fun _ => .eyeLinear
    eyePlane := fun c =>
      match c with
      | .S => ⟨![1, 0, 0, 0], identity16⟩
      | .T => ⟨![0, 1, 0, 0], identity16⟩
      | .R => ⟨![0, 0, 0, 0], identity16⟩
      | .Q => ⟨![0, 0, 0, 0], identity16⟩
    listNames := 0
    lists := fun _ => []
    copies := [] }

/-- The stack `glMatrixMode` selected. -/
def GLState.current (g : GLState) : MatrixStack :=
  match g.matrixMode with
  | .modelview => g.modelview
  | .projection => g.projection
  | .texture => g.texture

/-- Replace the stack `glMatrixMode` selected. -/
def GLState.setCurrent (g : GLState) (s : MatrixStack) : GLState :=
  match g.matrixMode with
  | .modelview => { g with modelview := s }
  | .projection => { g with projection := s }
  | .texture => { g with texture := s }

/-- Model of `glMatrixMode`. -/
def glMatrixMode (g : GLState) (m : MatrixMode) : GLState := { g with matrixMode := m }

/-- Model of `glPushMatrix`. -/
def glPushMatrix (g : GLState) : GLState := g.setCurrent g.current.push

/-- Model of `glPopMatrix`. -/
def glPopMatrix (g : GLState) : GLState := g.setCurrent g.current.pop

/-- Model of `glLoadMatrixd`. -/
def glLoadMatrixd (g : GLState) (m : Mat16) : GLState :=
  g.setCurrent { g.current with top := m }

/-- Model of `glLoadIdentity`. -/
def glLoadIdentity (g : GLState) : GLState := glLoadMatrixd g identity16

/-- Model of `glMultMatrixd`: the current matrix `C` becomes `C · m`. -/
def glMultMatrixd (g : GLState) (m : Mat16) : GLState :=
  g.setCurrent { g.current with top := matMul g.current.top m }

/-- Model of `glTranslated` and `glTranslatef`. -/
def glTranslated (g : GLState) (x y z : ℚ) : GLState := glMultMatrixd g (translation x y z)

/-- Model of `glScaled` and `glScalef`. -/
def glScaled (g : GLState) (x y z : ℚ) : GLState := glMultMatrixd g (scaling x y z)

/-- Model of `glRotatef`. -/
def glRotatef (N : Numerics) (g : GLState) (angle x y z : ℚ) : GLState :=
  glMultMatrixd g (N.rotation angle x y z)

/-- Model of `gluPerspective`: multiplies the current matrix by the perspective matrix. -/
def gluPerspective (N : Numerics) (g : GLState) (fovy aspect zNear zFar : ℚ) : GLState :=
  glMultMatrixd g (perspective N fovy aspect zNear zFar)

/-- Model of `gluLookAt`: multiplies the current matrix by the viewing matrix. -/
def gluLookAt (N : Numerics) (g : GLState)
    (eyeX eyeY eyeZ centerX centerY centerZ upX upY upZ : ℚ) : GLState :=
  glMultMatrixd g (N.lookAt ![eyeX, eyeY, eyeZ] ![centerX, centerY, centerZ] ![upX, upY, upZ])

/-- The matrices `glGetDoublev` is asked for. -/
inductive MatrixName
  | modelviewMatrix
  | projectionMatrix
  | textureMatrix
  deriving DecidableEq

/-- Model of `glGetDoublev(GL_*_MATRIX, out)`: the top of the named stack, whatever the
matrix mode is. -/
def glGetDoublev (g : GLState) : MatrixName → Mat16
  | .modelviewMatrix => g.modelview.top
  | .projectionMatrix => g.projection.top
  | .textureMatrix => g.texture.top

/-- Model of `glViewport`. -/
def glViewport (g : GLState) (x y w h : Int) : GLState := { g with viewport := (x, y, w, h) }

/-- Model of `glEnable`. -/
def glEnable (g : GLState) (c : Cap) : GLState :=
  { g with enabled := Function.update g.enabled c true }

/-- Model of `glDisable`. -/
def glDisable (g : GLState) (c : Cap) : GLState :=
  { g with enabled := Function.update g.enabled c false }

/-- Model of `glClear(GL_COLOR_BUFFER_BIT | GL_DEPTH_BUFFER_BIT)`: buffer contents are not
part of the state. -/
def glClear (g : GLState) : GLState := g

/-- Model of `glClearColor`. -/
def glClearColor (g : GLState) (r gr b a : ℚ) : GLState := { g with clearColor := (r, gr, b, a) }

/-- Model of `glShadeModel`. -/
def glShadeModel (g : GLState) (m : ShadeModel) : GLState := { g with shadeModel := m }

/-- Model of `glCullFace`. -/
def glCullFace (g : GLState) (f : CullFace) : GLState := { g with cullFace := f }

/-- Model of `glColorMask`. -/
def glColorMask (g : GLState) (r gr b a : Bool) : GLState := { g with colorMask := (r, gr, b, a) }

/-- Model of `glPolygonOffset`. -/
def glPolygonOffset (g : GLState) (factor units : ℚ) : GLState :=
  { g with polygonOffset := (factor, units) }

/-- Model of `glAlphaFunc`. -/
def glAlphaFunc (g : GLState) (f : CmpFunc) (ref : ℚ) : GLState := { g with alphaFunc := (f, ref) }

/-- Model of `glColor3f`: alpha becomes 1. -/
def glColor3f (g : GLState) (r gr b : ℚ) : GLState := { g with color := (r, gr, b, 1) }

/-- Model of `glLightfv(GL_LIGHT0, GL_POSITION, pos)`. -/
def glLightfv_position (g : GLState) (pos : Vec3) : GLState :=
  { g with light0Position := some (pos, g.modelview.top) }

/-- Model of `glMaterialfv(GL_FRONT, GL_SPECULAR, v)`. -/
def glMaterialfv_specular (g : GLState) (v : ℚ × ℚ × ℚ × ℚ) : GLState :=
  { g with materialSpecular := v }

/-- Model of `glMaterialf(GL_FRONT, GL_SHININESS, s)`. -/
def glMaterialf_shininess (g : GLState) (s : ℚ) : GLState := { g with materialShininess := s }

/-- Model of `glColorMaterial(GL_FRONT, GL_AMBIENT_AND_DIFFUSE)`: which material colours
track the current colour is not part of the state. -/
def glColorMaterial (g : GLState) : GLState := g

/-- Model of `glGenTextures(1, &name)`: a fresh, non-zero name. -/
def glGenTextures (g : GLState) : Nat × GLState :=
  (g.textureNames + 1, { g with textureNames := g.textureNames + 1 })

/-- Model of `glBindTexture(GL_TEXTURE_2D, name)`. -/
def glBindTexture (g : GLState) (name : Nat) : GLState := { g with boundTexture2D := name }

/-- Change the texture object bound to `GL_TEXTURE_2D`. -/
def GLState.modifyBound (g : GLState) (f : TexObj → TexObj) : GLState :=
  let t := f (g.textures g.boundTexture2D)
  { g with textures := Function.update g.textures g.boundTexture2D t }

/-- Model of `glTexImage2D(GL_TEXTURE_2D, 0, .., width, height, 0, .., NULL)`. -/
def glTexImage2D (g : GLState) (width height : Int) : GLState :=
  g.modifyBound fun t => { t with image := some (width, height) }

/-- Model of `glCopyTexImage2D(GL_TEXTURE_2D, 0, GL_DEPTH_COMPONENT, x, y, width, height, 0)`:
the level-0 image of the bound texture is redefined from the rectangle
`(x, y, width, height)` of the framebuffer. -/
def glCopyTexImage2D (g : GLState) (x y width height : Int) : GLState :=
  let g := g.modifyBound fun t => { t with image := some (width, height) }
  { g with copies := g.copies ++ [(g.boundTexture2D, x, y, width, height)] }

/-- Model of `glTexParameteri(GL_TEXTURE_2D, GL_TEXTURE_MIN_FILTER, f)`. -/
def glTexParameteri_minFilter (g : GLState) (f : TexFilter) : GLState :=
  g.modifyBound fun t => { t with minFilter := f }

/-- Model of `glTexParameteri(GL_TEXTURE_2D, GL_TEXTURE_MAG_FILTER, f)`. -/
def glTexParameteri_magFilter (g : GLState) (f : TexFilter) : GLState :=
  g.modifyBound fun t => { t with magFilter := f }

/-- Model of `glTexParameteri(GL_TEXTURE_2D, GL_TEXTURE_WRAP_S, w)`. -/
def glTexParameteri_wrapS (g : GLState) (w : TexWrap) : GLState :=
  g.modifyBound fun t => { t with wrapS := w }

/-- Model of `glTexParameteri(GL_TEXTURE_2D, GL_TEXTURE_WRAP_T, w)`. -/
def glTexParameteri_wrapT (g : GLState) (w : TexWrap) : GLState :=
  g.modifyBound fun t => { t with wrapT := w }

/-- Model of `glTexParameteri(GL_TEXTURE_2D, GL_TEXTURE_COMPARE_MODE_ARB, m)`. -/
def glTexParameteri_compareMode (g : GLState) (m : CompareMode) : GLState :=
  g.modifyBound fun t => { t with compareMode := m }

/-- Model of `glTexParameteri(GL_TEXTURE_2D, GL_DEPTH_TEXTURE_MODE_ARB, m)`. -/
def glTexParameteri_depthTextureMode (g : GLState) (m : DepthTextureMode) : GLState :=
  g.modifyBound fun t => { t with depthTextureMode := m }

/-- Model of `glTexParameteri(GL_TEXTURE_2D, GL_TEXTURE_COMPARE_FUNC_ARB, f)`. -/
def glTexParameteri_compareFunc (g : GLState) (f : CmpFunc) : GLState :=
  g.modifyBound fun t => { t with compareFunc := f }

/-- Model of `glTexGeni(coord, GL_TEXTURE_GEN_MODE, mode)`. -/
def glTexGeni (g : GLState) (c : TexCoord) (m : TexGenMode) : GLState :=
  { g with texGenMode := Function.update g.texGenMode c m }

/-- Model of `glTexGendv(coord, GL_EYE_PLANE, params)`. -/
def glTexGendv (g : GLState) (c : TexCoord) (params : Vec4) : GLState :=
  { g with eyePlane := Function.update g.eyePlane c ⟨params, g.modelview.top⟩ }

/-- Model of `glGenLists(1)`: a fresh, non-zero name. -/
def glGenLists (g : GLState) : Nat × GLState :=
  (g.listNames + 1, { g with listNames := g.listNames + 1 })

/-- Model of `glNewList(name, GL_COMPILE); cmds; glEndList()`: the commands are stored, not
executed; the name 0 is refused. -/
def glNewList (g : GLState) (name : Nat) (cmds : List GLCmd) : GLState :=
  if name = 0 then g else { g with lists := Function.update g.lists name cmds }

/-- Execute one compiled command. The GLUT solids only emit geometry: they leave the
modelled state as it is. -/
def execCmd (N : Numerics) (g : GLState) : GLCmd → GLState
  | .color3f r gr b => glColor3f g r gr b
  | .pushMatrix => glPushMatrix g
  | .popMatrix => glPopMatrix g
  | .scalef x y z => glScaled g x y z
  | .translatef x y z => glTranslated g x y z
  | .rotatef a x y z => glRotatef N g a x y z
  | .solidCube _ => g
  | .solidTorus _ _ _ _ => g
  | .solidSphere _ _ _ => g
  | .solidCone _ _ _ _ => g

/-- Model of `glCallList(name)`: execute the commands of the list, in order. -/
def glCallList (N : Numerics) (g : GLState) (name : Nat) : GLState :=
  (g.lists name).foldl (execCmd N) g

/-! ## Geometry (Geometry.h, Geometry.cpp) -/

/-- The function-local statics of the source: the four display-list names of
`Geometry::Draw` (all initialised to 0) and `angle` of `GLApp::Render` (initialised to 0.0). -/
structure Statics where
  BaseList : Nat
  SphereList : Nat
  ConeList : Nat
  TorusList : Nat
  angle : ℚ

/-- The statics at program start. -/
def Statics.initial : Statics :=
  { BaseList := 0, SphereList := 0, ConeList := 0, TorusList := 0, angle := 0 }

/-- The data members of class `Geometry` (Geometry.h 50-52). -/
structure Geometry where
  m_DepthMap : Nat
  m_Light : Vec3
  m_Camera : Vec3

/-- `Geometry::DEPTH_MAP_WIDTH`. -/
def DEPTH_MAP_WIDTH : Int := 512

/-- `Geometry::DEPTH_MAP_HEIGHT`. -/
def DEPTH_MAP_HEIGHT : Int := 512

/-- `Geometry::Geometry()`: only `m_DepthMap` is initialised; `m_Light` and `m_Camera` hold
indeterminate values, given here as arguments. -/
def Geometry.new (light camera : Vec3) : Geometry :=
  { m_DepthMap := 0, m_Light := light, m_Camera := camera }

/-- The body of the display list `BaseList` (Geometry.cpp 33-39). -/
def baseListBody : List GLCmd :=
  [ .color3f 0 0 1, .pushMatrix, .scalef 7 (3/10) 7, .solidCube 1, .popMatrix ]

/-- The body of the display list `TorusList` (Geometry.cpp 50-57). -/
def torusListBody : List GLCmd :=
  [ .color3f 1 0 0, .pushMatrix, .translatef 0 1 0, .rotatef 90 1 0 0,
    .solidTorus (3/10) 1 24 48, .popMatrix ]

/-- The body of the display list `SphereList` (Geometry.cpp 68-83). -/
def sphereListBody : List GLCmd :=
  [ .color3f 0 1 0, .pushMatrix,
    .translatef (1/2) 2 (1/2), .solidSphere (1/5) 24 24,
    .translatef (-1) 0 0, .solidSphere (1/5) 24 24,
    .translatef 0 0 (-1), .solidSphere (1/5) 24 24,
    .translatef 1 0 0, .solidSphere (1/5) 24 24,
    .popMatrix ]

/-- The body of the display list `ConeList` (Geometry.cpp 94-111). -/
def coneListBody : List GLCmd :=
  [ .color3f 1 1 0, .pushMatrix,
    .translatef 2 0 2, .rotatef (-90) 1 0 0, .solidCone (3/10) 2 25 25,
    .translatef (-4) 0 0, .solidCone (3/10) 2 25 25,
    .translatef 0 4 0, .solidCone (3/10) 2 25 25,
    .translatef 4 0 0, .scalef 1 1 (3/2), .solidCone (3/10) 2 25 25,
    .popMatrix ]

/-- The step `if(!List) { List = glGenLists(1); glNewList(List, GL_COMPILE); body;
glEndList(); }` of `Geometry::Draw`, for one list name. -/
def createListIfNeeded (name : Nat) (g : GLState) (body : List GLCmd) : Nat × GLState :=
  if name = 0 then
    let r := glGenLists g
    (r.1, glNewList r.2 r.1 body)
  else (name, g)

/-- `Geometry::Draw` (Geometry.cpp 22-127). -/
def Geometry.Draw (N : Numerics) (st : Statics) (g : GLState) (angle : ℚ) :
    Statics × GLState :=
  let r := createListIfNeeded st.BaseList g baseListBody
  let st := { st with BaseList := r.1 }
  let g := r.2
  let r := createListIfNeeded st.TorusList g torusListBody
  let st := { st with TorusList := r.1 }
  let g := r.2
  let r := createListIfNeeded st.SphereList g sphereListBody
  let st := { st with SphereList := r.1 }
  let g := r.2
  let r := createListIfNeeded st.ConeList g coneListBody
  let st := { st with ConeList := r.1 }
  let g := r.2
  let g := glCallList N g st.BaseList
  let g := glCallList N g st.TorusList
  let g := glCallList N g st.ConeList
  let g := glPushMatrix g
  let g := glRotatef N g angle 0 1 0
  let g := glCallList N g st.SphereList
  let g := glPopMatrix g
  (st, g)

/-- `Geometry::SetLights` (Geometry.cpp 132-140): hands the position to OpenGL and enables
lighting; no data member is written. -/
def Geometry.SetLights (geo : Geometry) (g : GLState) (pos : Vec3) : Geometry × GLState :=
  let g := glLightfv_position g pos
  let g := glEnable g .lighting
  let g := glEnable g .light0
  (geo, g)

/-- `Geometry::SetMaterials` (Geometry.cpp 145-158); `white` is `{1.0, 1.0, 1.0}` in an
array of four, so its fourth element is 0. -/
def Geometry.SetMaterials (geo : Geometry) (g : GLState) : Geometry × GLState :=
  let white : ℚ × ℚ × ℚ × ℚ := (1, 1, 1, 0)
  let g := glColorMaterial g
  let g := glEnable g .colorMaterial
  let g := glMaterialfv_specular g white
  let g := glMaterialf_shininess g 20
  (geo, g)

/-- `Geometry::SetCameraPosition` (Geometry.cpp 164-169). -/
def Geometry.SetCameraPosition (geo : Geometry) (pos : Vec3) : Geometry :=
  { geo with m_Camera := ![pos 0, pos 1, pos 2] }

/-- `Geometry::GetCameraPosition` (Geometry.cpp 175-180). -/
def Geometry.GetCameraPosition (geo : Geometry) : Vec3 :=
  ![geo.m_Camera 0, geo.m_Camera 1, geo.m_Camera 2]

/-- `Geometry::GetLightPosition` (Geometry.cpp 186-191). -/
def Geometry.GetLightPosition (geo : Geometry) : Vec3 :=
  ![geo.m_Light 0, geo.m_Light 1, geo.m_Light 2]

/-- `Geometry::SetShadowTexture` (Geometry.cpp 196-232). -/
def Geometry.SetShadowTexture (geo : Geometry) (g : GLState) : Geometry × GLState :=
  let r := glGenTextures g
  let geo := { geo with m_DepthMap := r.1 }
  let g := r.2
  let g := glBindTexture g geo.m_DepthMap
  let g := glTexImage2D g DEPTH_MAP_WIDTH DEPTH_MAP_HEIGHT
  let g := glTexParameteri_minFilter g .linear
  let g := glTexParameteri_magFilter g .linear
  let g := glTexParameteri_wrapS g .wrapClamp
  let g := glTexParameteri_wrapT g .wrapClamp
  let g := glEnable g .textureGenS
  let g := glEnable g .textureGenT
  let g := glEnable g .textureGenR
  let g := glEnable g .textureGenQ
  let g := glTexGeni g .S .eyeLinear
  let g := glTexGeni g .T .eyeLinear
  let g := glTexGeni g .R .eyeLinear
  let g := glTexGeni g .Q .eyeLinear
  (geo, g)

/-- `Geometry::GetShadowTexObj` (Geometry.cpp 238-241). -/
def Geometry.GetShadowTexObj (geo : Geometry) : Nat := geo.m_DepthMap

/-! ## GLApp (GLApp.h, GLApp.cpp) -/

/-- One call `m_Geometry.Draw(angle)`: the argument and the OpenGL state the call found. -/
structure DrawCall where
  angle : ℚ
  gl : GLState

/-- The state of the program: the data members of `GLApp` (with `m_Width` and `m_Height` of
its base class), the statics, the current rendering context, and a record of what the
program has issued: the calls of `Geometry::Draw` (oldest first) and the number of
`SwapBuffers`. -/
structure GLApp where
  m_Width : Nat
  m_Height : Nat
  m_Geometry : Geometry
  m_CameraProjectionMatrix : Mat16
  m_CameraViewMatrix : Mat16
  m_LightProjectionMatrix : Mat16
  m_LightViewMatrix : Mat16
  statics : Statics
  gl : GLState
  draws : List DrawCall
  swaps : Nat

/-- The call `m_Geometry.Draw(angle)` made from `GLApp`. -/
def GLApp.Draw (N : Numerics) (a : GLApp) (angle : ℚ) : GLApp :=
  let r := Geometry.Draw N a.statics a.gl angle
  { a with statics := r.1, gl := r.2, draws := a.draws ++ [⟨angle, a.gl⟩] }

/-- `GLApp::Reshape` (GLApp.cpp 386-400). -/
def Reshape (N : Numerics) (a : GLApp) (w h : Int) : GLApp :=
  let g := a.gl
  let g := glViewport g 0 0 w h
  let g := glMatrixMode g .modelview
  let g := glPushMatrix g
  let g := glLoadIdentity g
  let g := gluPerspective N g 45 ((w : ℚ) / (h : ℚ)) 1 100
  let m := glGetDoublev g .modelviewMatrix
  let g := glPopMatrix g
  { a with gl := g, m_CameraProjectionMatrix := m }

/-- `GLApp::InitGraphics` from the point where the rendering context is current
(GLApp.cpp 93-135); before that point the function creates the context and exits the
process if it cannot be made current. -/
def InitGraphics (N : Numerics) (a : GLApp) : GLApp :=
  let a := Reshape N a a.m_Width a.m_Height
  let lightPos : Vec3 := ![-5, 10, 6]
  let r := a.m_Geometry.SetLights a.gl lightPos
  let r := r.1.SetMaterials r.2
  let r := r.1.SetShadowTexture r.2
  let cameraPos : Vec3 := ![5, 5, 5]
  let geo := r.1.SetCameraPosition cameraPos
  let g := r.2
  let g := glMatrixMode g .modelview
  let g := glPushMatrix g
  let g := glLoadIdentity g
  let g := gluPerspective N g 45 ((a.m_Width : ℚ) / (a.m_Height : ℚ)) 1 100
  let cameraProjection := glGetDoublev g .modelviewMatrix
  let g := glLoadIdentity g
  let g := gluLookAt N g (cameraPos 0) (cameraPos 1) (cameraPos 2) 0 0 0 0 1 0
  let cameraView := glGetDoublev g .modelviewMatrix
  let g := glLoadIdentity g
  let g := gluPerspective N g 45 1 1 100
  let lightProjection := glGetDoublev g .modelviewMatrix
  let g := glLoadIdentity g
  let g := gluLookAt N g (lightPos 0) (lightPos 1) (lightPos 2) 0 0 0 0 1 0
  let lightView := glGetDoublev g .modelviewMatrix
  let g := glPopMatrix g
  let g := glEnable g .depthTest
  let g := glClearColor g 0 0 0 0
  { a with
    m_Geometry := geo
    gl := g
    m_CameraProjectionMatrix := cameraProjection
    m_CameraViewMatrix := cameraView
    m_LightProjectionMatrix := lightProjection
    m_LightViewMatrix := lightView }

/-- `GLApp::CreateShadowMap` (GLApp.cpp 228-285). -/
def CreateShadowMap (N : Numerics) (a : GLApp) (angle : ℚ) : GLApp :=
  let g := a.gl
  let g := glClear g
  let g := glShadeModel g .flat
  let g := glDisable g .lighting
  let g := glDisable g .texture2D
  let g := glMatrixMode g .projection
  let g := glPushMatrix g
  let g := glLoadMatrixd g a.m_LightProjectionMatrix
  let g := glMatrixMode g .modelview
  let g := glPushMatrix g
  let g := glColorMask g false false false false
  let g := glEnable g .polygonOffsetFill
  let g := glPolygonOffset g 1 4
  let g := glLoadMatrixd g a.m_LightViewMatrix
  let a := GLApp.Draw N { a with gl := g } angle
  let g := a.gl
  let g := glDisable g .polygonOffsetFill
  let g := glColorMask g true true true true
  let g := glPopMatrix g
  let g := glMatrixMode g .projection
  let g := glPopMatrix g
  let g := glBindTexture g a.m_Geometry.GetShadowTexObj
  let g := glCopyTexImage2D g 0 0 a.m_Width a.m_Height
  let g := glCullFace g .back
  let g := glShadeModel g .smooth
  let g := glEnable g .lighting
  let g := glEnable g .texture2D
  { a with gl := g }

/-- `GLApp::CreateTextureMatrix` (GLApp.cpp 298-323). -/
def CreateTextureMatrix (a : GLApp) : GLApp :=
  let g := a.gl
  let g := glMatrixMode g .texture
  let g := glPushMatrix g
  let g := glLoadIdentity g
  let g := glTranslated g (1/2) (1/2) (1/2)
  let g := glScaled g (1/2) (1/2) (1/2)
  let g := glMultMatrixd g a.m_LightProjectionMatrix
  let g := glMultMatrixd g a.m_LightViewMatrix
  let tmpMatrix := glGetDoublev g .textureMatrix
  let g := glPopMatrix g
  let tmpMatrix := Transpose4x4Matrix tmpMatrix
  let g := glTexGendv g .S (slice4 tmpMatrix 0)
  let g := glTexGendv g .T (slice4 tmpMatrix 4)
  let g := glTexGendv g .R (slice4 tmpMatrix 8)
  let g := glTexGendv g .Q (slice4 tmpMatrix 12)
  { a with gl := g }

/-- `GLApp::Render` (GLApp.cpp 328-379); `dt` is what `m_Timer.GetTimeElapsed()` returns
after `m_Timer.Tick(60.0f)`. -/
def Render (N : Numerics) (a : GLApp) (dt : ℚ) : GLApp :=
  let a := { a with statics := { a.statics with angle := a.statics.angle + 50 * dt } }
  let angle := a.statics.angle
  let a := CreateShadowMap N a angle
  let a := CreateTextureMatrix a
  let g := a.gl
  let g := glClear g
  let g := glViewport g 0 0 a.m_Width a.m_Height
  let g := glMatrixMode g .projection
  let g := glLoadMatrixd g a.m_CameraProjectionMatrix
  let g := glMatrixMode g .modelview
  let g := glLoadMatrixd g a.m_CameraViewMatrix
  let g := glEnable g .alphaTest
  let g := glAlphaFunc g .greater 0
  let g := glBindTexture g a.m_Geometry.GetShadowTexObj
  let g := glTexParameteri_compareMode g .compareRToTexture
  let g := glTexParameteri_depthTextureMode g .alpha
  let g := glTexParameteri_compareFunc g .less
  let g := glEnable g .light0
  let a := GLApp.Draw N { a with gl := g } angle
  let g := a.gl
  let g := glTexParameteri_compareFunc g .gequal
  let g := glDisable g .light0
  let a := GLApp.Draw N { a with gl := g } angle
  { a with swaps := a.swaps + 1 }

/-- `GLApp::Zoom` (GLApp.cpp 408-423). -/
def Zoom (N : Numerics) (a : GLApp) (zoomFactor : ℚ) : GLApp :=
  let cameraPos := a.m_Geometry.GetCameraPosition
  let cameraPos : Vec3 :=
    ![cameraPos 0 + zoomFactor, cameraPos 1 + zoomFactor, cameraPos 2 + zoomFactor]
  let geo := a.m_Geometry.SetCameraPosition cameraPos
  let g := a.gl
  let g := glLoadIdentity g
  let g := gluLookAt N g (cameraPos 0) (cameraPos 1) (cameraPos 2) 0 0 0 0 1 0
  let m := glGetDoublev g .modelviewMatrix
  { a with m_Geometry := geo, gl := g, m_CameraViewMatrix := m }

/-- The window messages `GLApp::DisplayWndProc` handles itself (GLApp.cpp 177-213);
`WM_SIZE` carries `LOWORD(lParam)` and `HIWORD(lParam)`, `WM_CHAR` carries `wParam`. -/
inductive Msg
  | WM_CREATE
  | WM_CLOSE
  | WM_DESTROY
  | WM_SIZE (lo hi : Nat)
  | WM_CHAR (wParam : Char)

/-- `GLApp::DisplayWndProc` (GLApp.cpp 173-216), its effect on the program state;
`PostQuitMessage` only queues a message. -/
def DisplayWndProc (N : Numerics) (a : GLApp) : Msg → GLApp
  | .WM_CREATE => a
  | .WM_CLOSE => a
  | .WM_DESTROY => a
  | .WM_SIZE lo hi => Reshape N { a with m_Width := lo, m_Height := hi } lo hi
  | .WM_CHAR c =>
    if c = '+' then Zoom N a (-(1/10))
    else if c = '-' then Zoom N a (1/10)
    else a

/-- What happens to a running program: a frame is rendered (`Render`, with the elapsed
time the timer returns), the window is resized (`WM_SIZE`), or the camera is zoomed
(`Zoom`, by any amount). -/
inductive Event
  | render (dt : ℚ)
  | resize (w h : Nat)
  | zoom (d : ℚ)

/-- The effect of one event. -/
def step (N : Numerics) (a : GLApp) : Event → GLApp
  | .render dt => Render N a dt
  | .resize w h => DisplayWndProc N a (.WM_SIZE w h)
  | .zoom d => Zoom N a d

/-- The effect of a sequence of events, oldest first. -/
def run (N : Numerics) (a : GLApp) (evs : List Event) : GLApp := evs.foldl (step N) a

/-- The program state when `InitGraphics` has made a fresh rendering context current:
`GLApp(windowTitle, width, height)` has stored the size, the statics hold their
initialisers, nothing was drawn, and the members the constructors leave uninitialised
(the four matrices, `m_Light`, `m_Camera`) hold any value. -/
def GLApp.fresh (width height : Nat) (light camera : Vec3) (m1 m2 m3 m4 : Mat16)
    (vw vh : Int) : GLApp :=
  { m_Width := width
    m_Height := height
    m_Geometry := Geometry.new light camera
    m_CameraProjectionMatrix := m1
    m_CameraViewMatrix := m2
    m_LightProjectionMatrix := m3
    m_LightViewMatrix := m4
    statics := Statics.initial
    gl := GLState.initial vw vh
    draws := []
    swaps := 0 }

/-- A state is started when it is what `InitGraphics` leaves from a fresh program state. -/
def Started (N : Numerics) (s : GLApp) : Prop :=
  ∃ width height light camera m1 m2 m3 m4 vw vh,
    s = InitGraphics N (GLApp.fresh width height light camera m1 m2 m3 m4 vw vh)

/-- The states reachable from `InitGraphics` by Render, resize and zoom events. -/
def Reachable (N : Numerics) (s : GLApp) : Prop :=
  ∃ s0 evs, Started N s0 ∧ s = run N s0 evs

/-! ## Sampling the shadow map (OpenGL semantics of the colour pass) -/

/-- The alpha a depth texture delivers for a fragment whose texture coordinate `r` is
compared with the stored depth `d`: with `GL_COMPARE_R_TO_TEXTURE` the result of the
comparison is 1 or 0, and `GL_DEPTH_TEXTURE_MODE` decides whether it arrives as alpha. -/
def textureAlpha (t : TexObj) (r d : ℚ) : ℚ :=
  let c : ℚ :=
    match t.compareMode with
    | .none => d
    | .compareRToTexture => if t.compareFunc.eval r d then 1 else 0
  match t.depthTextureMode with
  | .luminance => 1
  | .intensity => c
  | .alpha => c

/-- The alpha of a textured fragment whose incoming alpha is `af`, under the default
texture environment `GL_MODULATE`. -/
def fragmentAlpha (g : GLState) (af r d : ℚ) : ℚ :=
  if g.enabled .texture2D then af * textureAlpha (g.textures g.boundTexture2D) r d else af

/-- The alpha test: a fragment passes if the test is disabled or `alpha func ref` holds. -/
def passesAlphaTest (g : GLState) (alpha : ℚ) : Bool :=
  if g.enabled .alphaTest then g.alphaFunc.1.eval alpha g.alphaFunc.2 else true

/-- Whether a draw issued in state `g` keeps the fragment with incoming alpha `af`,
light-space depth `r` and stored shadow-map depth `d`. -/
def fragmentKept (g : GLState) (af r d : ℚ) : Bool :=
  passesAlphaTest g (fragmentAlpha g af r d)

/-! ## Definitions used to state the properties -/

/-- The matrix `Translate(0.5, 0.5, 0.5) * Scale(0.5, 0.5, 0.5)`. -/
def Bias : Matrix (Fin 4) (Fin 4) ℚ :=
  toMatrix (translation (1/2) (1/2) (1/2)) * toMatrix (scaling (1/2) (1/2) (1/2))

/-- The texture coordinate whose eye plane is row `k`: S, T, R, Q for 0, 1, 2, 3. -/
def planeCoord : Fin 4 → TexCoord
  | 0 => .S
  | 1 => .T
  | 2 => .R
  | 3 => .Q

/-- Sample numerics: 12/5 for every cotangent (the cotangent of 22.5 degrees is about 2.414),
the identity for every viewing matrix and rotation. -/
def sampleNumerics : Numerics :=
  { cotHalfDeg := fun _ => 12/5
    lookAt := fun _ _ _ => identity16
    rotation := fun _ _ _ _ => identity16 }

/-- A sample fresh program state: the 800 x 600 window of `main.cpp`, zeros in the
uninitialised members. -/
def sampleFresh : GLApp :=
  GLApp.fresh 800 600 (fun _ => 0) (fun _ => 0) (fun _ => 0) (fun _ => 0) (fun _ => 0)
    (fun _ => 0) 800 600

/-- The sample program state after `InitGraphics`. -/
def sampleStarted : GLApp := InitGraphics sampleNumerics sampleFresh

/-- The second state agrees with the first on everything but the matrix stacks, the
current colour and the display lists: what drawing the scene leaves alone. -/
structure KeepsRaster (g g' : GLState) : Prop where
  matrixMode : g'.matrixMode = g.matrixMode
  viewport : g'.viewport = g.viewport
  enabled : g'.enabled = g.enabled
  colorMask : g'.colorMask = g.colorMask
  polygonOffset : g'.polygonOffset = g.polygonOffset
  alphaFunc : g'.alphaFunc = g.alphaFunc
  shadeModel : g'.shadeModel = g.shadeModel
  cullFace : g'.cullFace = g.cullFace
  clearColor : g'.clearColor = g.clearColor
  light0Position : g'.light0Position = g.light0Position
  materialSpecular : g'.materialSpecular = g.materialSpecular
  materialShininess : g'.materialShininess = g.materialShininess
  textureNames : g'.textureNames = g.textureNames
  boundTexture2D : g'.boundTexture2D = g.boundTexture2D
  textures : g'.textures = g.textures
  texGenMode : g'.texGenMode = g.texGenMode
  eyePlane : g'.eyePlane = g.eyePlane
  copies : g'.copies = g.copies

/-- The elapsed times of the frames in a sequence of events, oldest first. -/
def renderTimes : List Event → List ℚ
  | [] => []
  | .render dt :: evs => dt :: renderTimes evs
  | .resize _ _ :: evs => renderTimes evs
  | .zoom _ :: evs => renderTimes evs

/-- The calls of `Geometry::Draw` that one `Render` adds to the record, in order. -/
def frameDraws (N : Numerics) (a : GLApp) (dt : ℚ) : List DrawCall :=
  (Render N a dt).draws.drop a.draws.length

/-- What holds between events: the matrix mode is model-view, polygon offset is disabled and
all colour channels are writable. -/
def Settled (s : GLApp) : Prop :=
  s.gl.matrixMode = .modelview ∧ s.gl.enabled .polygonOffsetFill = false
    ∧ s.gl.colorMask = (true, true, true, true)

/-! ## Teardown (GLApp.cpp 42-46 and 141-164) -/

/-- A Win32 handle (`HWND`, `HDC`, `HGLRC`); 0 is `NULL`. -/
abbrev Handle := Nat

/-- The Win32 calls `GLApp::ShutDown` issues. -/
inductive Win32Call
  | wglMakeCurrent (hdc hrc : Handle)
  | wglDeleteContext (hrc : Handle)
  | ReleaseDC (hwnd hdc : Handle)
  | DestroyWindow (hwnd : Handle)
  deriving DecidableEq

/-- The window-system side of the program: the handles `m_hWnd` and `m_hDC` (members of the
base class) and `m_hRC` (GLApp.h), and the record of the Win32 calls issued, oldest first. -/
structure WinState where
  m_hWnd : Handle
  m_hDC : Handle
  m_hRC : Handle
  calls : List Win32Call

/-- Issue one Win32 call. -/
def WinState.call (w : WinState) (c : Win32Call) : WinState :=
  { w with calls := w.calls ++ [c] }

/-- `GLApp::ShutDown` (GLApp.cpp 141-164): the value returned and the state left. -/
def ShutDown (w : WinState) : Bool × WinState :=
  let w :=
    if w.m_hRC ≠ 0 then
      let w := w.call (.wglMakeCurrent 0 0)
      w.call (.wglDeleteContext w.m_hRC)
    else w
  let w := if w.m_hWnd ≠ 0 ∧ w.m_hDC ≠ 0 then w.call (.ReleaseDC w.m_hWnd w.m_hDC) else w
  let w := if w.m_hWnd ≠ 0 then w.call (.DestroyWindow w.m_hWnd) else w
  let w := { w with m_hDC := 0 }
  let w := { w with m_hRC := 0 }
  let w := { w with m_hWnd := 0 }
  (true, w)

/-- `GLApp::~GLApp` (GLApp.cpp 42-46): calls `ShutDown` and drops its result. -/
def GLApp_destructor (w : WinState) : WinState := (ShutDown w).2

/-- The state after `n` calls of `ShutDown`. -/
def shutDownTimes : Nat → WinState → WinState
  | 0, w => w
  | n + 1, w => shutDownTimes n (ShutDown w).2

/-- Whether a call deletes a rendering context. -/
def Win32Call.deletesContext : Win32Call → Bool
  | .wglDeleteContext _ => true
  | _ => false

/-- Whether a call releases a device context. -/
def Win32Call.releasesDC : Win32Call → Bool
  | .ReleaseDC _ _ => true
  | _ => false

/-- Whether a call destroys a window. -/
def Win32Call.destroysWindow : Win32Call → Bool
  | .DestroyWindow _ => true
  | _ => false

/-- The calls issued after the first `k` of the record. -/
def WinState.callsAfter (w : WinState) (k : Nat) : List Win32Call := w.calls.drop k

/-! ## Sizes, distances and stack depths -/

/-- The window size after a sequence of events: that of the latest resize, or the given
size if there was none. -/
def lastSize : Nat × Nat → List Event → Nat × Nat
  | sz, [] => sz
  | _, .resize w h :: evs => lastSize (w, h) evs
  | sz, .render _ :: evs => lastSize sz evs
  | sz, .zoom _ :: evs => lastSize sz evs

/-- The square of the distance from a position to the origin (the look-at target); the
distance itself grows and shrinks with its square. -/
def distSq (p : Vec3) : ℚ := p 0 ^ 2 + p 1 ^ 2 + p 2 ^ 2

/-- The depths of the projection, model-view and texture matrix stacks. -/
def GLState.depths (g : GLState) : Nat × Nat × Nat :=
  (g.projection.depth, g.modelview.depth, g.texture.depth)

/-- The numbers of matrices saved below the top of the projection, model-view and texture
stacks: each depth minus one. -/
def GLState.saved (g : GLState) : Nat × Nat × Nat :=
  (g.projection.below.length, g.modelview.below.length, g.texture.below.length)

/-- One more matrix saved on the stack of the given mode. -/
def bump : MatrixMode → Nat × Nat × Nat → Nat × Nat × Nat
  | .projection, (p, m, t) => (p + 1, m, t)
  | .modelview, (p, m, t) => (p, m + 1, t)
  | .texture, (p, m, t) => (p, m, t + 1)

/-- The display-list name is one of the `names` handed out by `glGenLists` and holds the
given commands. -/
def Compiled (name : Nat) (body : List GLCmd) (names : Nat) (lists : Nat → List GLCmd) :
    Prop :=
  name ≤ names ∧ lists name = body

/-- Each of the four list names of `Geometry::Draw` is still 0 or names the display list
`Draw` compiled for it. -/
def ListsReady (st : Statics) (names : Nat) (lists : Nat → List GLCmd) : Prop :=
  (st.BaseList = 0 ∨ Compiled st.BaseList baseListBody names lists)
    ∧ (st.TorusList = 0 ∨ Compiled st.TorusList torusListBody names lists)
    ∧ (st.SphereList = 0 ∨ Compiled st.SphereList sphereListBody names lists)
    ∧ (st.ConeList = 0 ∨ Compiled st.ConeList coneListBody names lists)

/-- All four display lists of `Geometry::Draw` are compiled under the names of `st`. -/
def AllCompiled (st : Statics) (names : Nat) (lists : Nat → List GLCmd) : Prop :=
  Compiled st.BaseList baseListBody names lists
    ∧ Compiled st.TorusList torusListBody names lists
    ∧ Compiled st.SphereList sphereListBody names lists
    ∧ Compiled st.ConeList coneListBody names lists

/-- The display lists satisfy `P`, the matrix mode is `m` and the stacks hold `L` saved
matrices. -/
def Shape (P : Nat → (Nat → List GLCmd) → Prop) (m : MatrixMode) (L : Nat × Nat × Nat)
    (g : GLState) : Prop :=
  P g.listNames g.lists ∧ g.matrixMode = m ∧ g.saved = L

/-! ## GLfloat arithmetic (IEEE 754 binary32) and the functions of `GLApp` that compute in it -/

/-- The nearest integer, ties to the even one. -/
def roundHalfEven (s : ℚ) : ℤ :=
  let f : ℤ := ⌊s⌋
  if s - f < 1 / 2 then f
  else if 1 / 2 < s - f then f + 1
  else if f % 2 = 0 then f
  else f + 1

/-- The binary32 value nearest to a non-negative `x`, ties to even: a multiple of `2 ^ e`
with a multiplier of at most 24 bits, where `e` is 23 below the binary exponent of `x` and
at least -149 (the spacing of the subnormal numbers). -/
def f32roundAbs (x : ℚ) : ℚ :=
  let e : ℤ := max (Int.log 2 x - 23) (-149)
  (roundHalfEven (x / 2 ^ e) : ℚ) * 2 ^ e

/-- Rounding a number to `GLfloat`: to the nearest binary32 value, ties to even. The exponent
is not bounded above: a result of magnitude `2 ^ 128` or more stands for an overflow, which
binary32 replaces by an infinity (see `f32finite`). -/
def f32round (x : ℚ) : ℚ :=
  if 0 ≤ x then f32roundAbs x else -f32roundAbs (-x)

/-- The rounded result is a finite binary32 number: the operation did not overflow. -/
def f32finite (x : ℚ) : Prop := |x| < 2 ^ 128

/-- The `GLfloat` sum `x + y`. -/
def f32add (x y : ℚ) : ℚ := f32round (x + y)

/-- The `GLfloat` product `x * y`. -/
def f32mul (x y : ℚ) : ℚ := f32round (x * y)

/-- The `GLfloat` quotient `x / y` for a divisor other than 0. -/
def f32div (x y : ℚ) : ℚ := f32round (x / y)

/-- The conversion `(float)n` of an integer. -/
def f32ofInt (n : Int) : ℚ := f32round n

/-- `GLApp::Reshape` (GLApp.cpp 386-400) with the aspect `(float)w/h` computed in `GLfloat`:
`h` is converted to `float` for the division, and the quotient is widened to the `GLdouble`
parameter of `gluPerspective` without change. -/
def Reshape32 (N : Numerics) (a : GLApp) (w h : Int) : GLApp :=
  let g := a.gl
  let g := glViewport g 0 0 w h
  let g := glMatrixMode g .modelview
  let g := glPushMatrix g
  let g := glLoadIdentity g
  let g := gluPerspective N g 45 (f32div (f32ofInt w) (f32ofInt h)) 1 100
  let m := glGetDoublev g .modelviewMatrix
  let g := glPopMatrix g
  { a with gl := g, m_CameraProjectionMatrix := m }

/-- `GLApp::InitGraphics` from the point where the rendering context is current
(GLApp.cpp 93-135), with the aspect `(float)m_Width/m_Height` computed in `GLfloat`. The
positions (-5, 10, 6) and (5, 5, 5) and the other constants are binary32 values. -/
def InitGraphics32 (N : Numerics) (a : GLApp) : GLApp :=
  let a := Reshape32 N a a.m_Width a.m_Height
  let lightPos : Vec3 := ![-5, 10, 6]
  let r := a.m_Geometry.SetLights a.gl lightPos
  let r := r.1.SetMaterials r.2
  let r := r.1.SetShadowTexture r.2
  let cameraPos : Vec3 := ![5, 5, 5]
  let geo := r.1.SetCameraPosition cameraPos
  let g := r.2
  let g := glMatrixMode g .modelview
  let g := glPushMatrix g
  let g := glLoadIdentity g
  let g := gluPerspective N g 45 (f32div (f32ofInt a.m_Width) (f32ofInt a.m_Height)) 1 100
  let cameraProjection := glGetDoublev g .modelviewMatrix
  let g := glLoadIdentity g
  let g := gluLookAt N g (cameraPos 0) (cameraPos 1) (cameraPos 2) 0 0 0 0 1 0
  let cameraView := glGetDoublev g .modelviewMatrix
  let g := glLoadIdentity g
  let g := gluPerspective N g 45 1 1 100
  let lightProjection := glGetDoublev g .modelviewMatrix
  let g := glLoadIdentity g
  let g := gluLookAt N g (lightPos 0) (lightPos 1) (lightPos 2) 0 0 0 0 1 0
  let lightView := glGetDoublev g .modelviewMatrix
  let g := glPopMatrix g
  let g := glEnable g .depthTest
  let g := glClearColor g 0 0 0 0
  { a with
    m_Geometry := geo
    gl := g
    m_CameraProjectionMatrix := cameraProjection
    m_CameraViewMatrix := cameraView
    m_LightProjectionMatrix := lightProjection
    m_LightViewMatrix := lightView }

/-- `GLApp::Render` (GLApp.cpp 328-379) with `angle += 50.0f * m_Timer.GetTimeElapsed()`
computed in `GLfloat`, each operation rounded by itself (as SSE arithmetic does): the
product is rounded, then the sum. `dt` is the `float` that `m_Timer.GetTimeElapsed()` returns
after `m_Timer.Tick(60.0f)`. -/
def Render32 (N : Numerics) (a : GLApp) (dt : ℚ) : GLApp :=
  let a := { a with statics := { a.statics with angle := f32add a.statics.angle (f32mul 50 dt) } }
  let angle := a.statics.angle
  let a := CreateShadowMap N a angle
  let a := CreateTextureMatrix a
  let g := a.gl
  let g := glClear g
  let g := glViewport g 0 0 a.m_Width a.m_Height
  let g := glMatrixMode g .projection
  let g := glLoadMatrixd g a.m_CameraProjectionMatrix
  let g := glMatrixMode g .modelview
  let g := glLoadMatrixd g a.m_CameraViewMatrix
  let g := glEnable g .alphaTest
  let g := glAlphaFunc g .greater 0
  let g := glBindTexture g a.m_Geometry.GetShadowTexObj
  let g := glTexParameteri_compareMode g .compareRToTexture
  let g := glTexParameteri_depthTextureMode g .alpha
  let g := glTexParameteri_compareFunc g .less
  let g := glEnable g .light0
  let a := GLApp.Draw N { a with gl := g } angle
  let g := a.gl
  let g := glTexParameteri_compareFunc g .gequal
  let g := glDisable g .light0
  let a := GLApp.Draw N { a with gl := g } angle
  { a with swaps := a.swaps + 1 }

/-- `GLApp::Zoom` (GLApp.cpp 408-423) with `cameraPos[i] += zoomFactor` computed in
`GLfloat`; the three sums are widened to the `GLdouble` parameters of `gluLookAt` without
change. -/
def Zoom32 (N : Numerics) (a : GLApp) (zoomFactor : ℚ) : GLApp :=
  let cameraPos := a.m_Geometry.GetCameraPosition
  let cameraPos : Vec3 :=
    ![f32add (cameraPos 0) zoomFactor, f32add (cameraPos 1) zoomFactor,
      f32add (cameraPos 2) zoomFactor]
  let geo := a.m_Geometry.SetCameraPosition cameraPos
  let g := a.gl
  let g := glLoadIdentity g
  let g := gluLookAt N g (cameraPos 0) (cameraPos 1) (cameraPos 2) 0 0 0 0 1 0
  let m := glGetDoublev g .modelviewMatrix
  { a with m_Geometry := geo, gl := g, m_CameraViewMatrix := m }

/-- `GLApp::DisplayWndProc` (GLApp.cpp 173-216) in `GLfloat` arithmetic: the arguments `-0.1`
and `0.1` of `Zoom` are `double` constants converted to its `GLfloat` parameter (0.1 and the
`double` nearest to it round to the same `GLfloat`, 13421773/134217728). -/
def DisplayWndProc32 (N : Numerics) (a : GLApp) : Msg → GLApp
  | .WM_CREATE => a
  | .WM_CLOSE => a
  | .WM_DESTROY => a
  | .WM_SIZE lo hi => Reshape32 N { a with m_Width := lo, m_Height := hi } lo hi
  | .WM_CHAR c =>
    if c = '+' then Zoom32 N a (f32round (-(1/10)))
    else if c = '-' then Zoom32 N a (f32round (1/10))
    else a

/-- The effect of one event in `GLfloat` arithmetic. -/
def step32 (N : Numerics) (a : GLApp) : Event → GLApp
  | .render dt => Render32 N a dt
  | .resize w h => DisplayWndProc32 N a (.WM_SIZE w h)
  | .zoom d => Zoom32 N a d

/-- The effect of a sequence of events, oldest first, in `GLfloat` arithmetic. -/
def run32 (N : Numerics) (a : GLApp) (evs : List Event) : GLApp := evs.foldl (step32 N) a

/-- A state is started when it is what `InitGraphics32` leaves from a fresh program state. -/
def Started32 (N : Numerics) (s : GLApp) : Prop :=
  ∃ width height light camera m1 m2 m3 m4 vw vh,
    s = InitGraphics32 N (GLApp.fresh width height light camera m1 m2 m3 m4 vw vh)

/-- The states reachable from `InitGraphics32` by Render, resize and zoom events. -/
def Reachable32 (N : Numerics) (s : GLApp) : Prop :=
  ∃ s0 evs, Started32 N s0 ∧ s = run32 N s0 evs

/-- The sample program state after `InitGraphics32`. -/
def sampleStarted32 : GLApp := InitGraphics32 sampleNumerics sampleFresh

/-- The calls of `Geometry::Draw` that one `Render32` adds to the record, in order. -/
def frameDraws32 (N : Numerics) (a : GLApp) (dt : ℚ) : List DrawCall :=
  (Render32 N a dt).draws.drop a.draws.length

/-- The angle accumulated in `GLfloat` from `angle` over frames with the elapsed times
`dts`: each frame adds the rounded product `50 * dt`, and the sum is rounded. -/
def accum32 (angle : ℚ) : List ℚ → ℚ
  | [] => angle
  | dt :: dts => accum32 (f32add angle (f32mul 50 dt)) dts

/-- No product and no sum of the accumulation from `angle` over `dts` overflows. -/
def accumFinite32 (angle : ℚ) : List ℚ → Prop
  | [] => True
  | dt :: dts =>
    f32finite (f32mul 50 dt) ∧ f32finite (f32add angle (f32mul 50 dt))
      ∧ accumFinite32 (f32add angle (f32mul 50 dt)) dts

/-! ## Matrix lemmas -/

theorem toMatrix_injective {A B : Mat16} (h : toMatrix A = toMatrix B) : A = B := by
  funext k
  have key : ∀ r c : Fin 4, A (flat c r) = B (flat c r) := fun r c => congrFun (congrFun h r) c
  fin_cases k
  · exact key 0 0
  · exact key 1 0
  · exact key 2 0
  · exact key 3 0
  · exact key 0 1
  · exact key 1 1
  · exact key 2 1
  · exact key 3 1
  · exact key 0 2
  · exact key 1 2
  · exact key 2 2
  · exact key 3 2
  · exact key 0 3
  · exact key 1 3
  · exact key 2 3
  · exact key 3 3

theorem toMatrix_identity16 : toMatrix identity16 = 1 := by
  ext i j
  fin_cases i <;> fin_cases j <;> rfl

theorem toMatrix_translation (x y z : ℚ) :
    toMatrix (translation x y z) = !![1,0,0,x; 0,1,0,y; 0,0,1,z; 0,0,0,1] := by
  ext i j
  fin_cases i <;> fin_cases j <;> rfl

theorem toMatrix_scaling (x y z : ℚ) :
    toMatrix (scaling x y z) = !![x,0,0,0; 0,y,0,0; 0,0,z,0; 0,0,0,1] := by
  ext i j
  fin_cases i <;> fin_cases j <;> rfl

theorem toMatrix_matMul (A B : Mat16) : toMatrix (matMul A B) = toMatrix A * toMatrix B := by
  ext i j
  fin_cases i <;> fin_cases j <;>
    (simp only [Matrix.mul_apply, Fin.sum_univ_four]; rfl)

theorem matMul_identity16_left (M : Mat16) : matMul identity16 M = M := by
  apply toMatrix_injective
  rw [toMatrix_matMul, toMatrix_identity16, one_mul]

theorem Bias_mulVec (x y z : ℚ) :
    Bias.mulVec ![x, y, z, 1] = ![1/2 * x + 1/2, 1/2 * y + 1/2, 1/2 * z + 1/2, 1] := by
  rw [Bias, toMatrix_translation, toMatrix_scaling]
  ext i
  fin_cases i <;>
    simp [Matrix.mulVec, Matrix.dotProduct, Fin.sum_univ_four, Matrix.mul_apply]

theorem slice4_transpose (M : Mat16) (k j : Fin 4) :
    slice4 (Transpose4x4Matrix M) ⟨4 * k.val, by omega⟩ j = toMatrix M k j := by
  fin_cases k <;> fin_cases j <;> rfl

/-- The coefficients `CreateTextureMatrix` hands to `glTexGendv` for plane `k`: elements
`4*k .. 4*k+3` of the transposed array read back with `glGetDoublev(GL_TEXTURE_MATRIX, ..)`. -/
theorem CreateTextureMatrix_eyePlane_params (a : GLApp) (k : Fin 4) :
    ((CreateTextureMatrix a).gl.eyePlane (planeCoord k)).params
      = slice4 (Transpose4x4Matrix
          (matMul (matMul (matMul (matMul identity16 (translation (1/2) (1/2) (1/2)))
            (scaling (1/2) (1/2) (1/2))) a.m_LightProjectionMatrix) a.m_LightViewMatrix))
          ⟨4 * k.val, by omega⟩ := by
  fin_cases k <;> rfl

/-! ## What drawing the scene leaves alone -/

theorem KeepsRaster.refl (g : GLState) : KeepsRaster g g := by
  constructor <;> rfl

theorem KeepsRaster.trans {g1 g2 g3 : GLState} (h12 : KeepsRaster g1 g2)
    (h23 : KeepsRaster g2 g3) : KeepsRaster g1 g3 := by
  constructor
  · exact h23.matrixMode.trans h12.matrixMode
  · exact h23.viewport.trans h12.viewport
  · exact h23.enabled.trans h12.enabled
  · exact h23.colorMask.trans h12.colorMask
  · exact h23.polygonOffset.trans h12.polygonOffset
  · exact h23.alphaFunc.trans h12.alphaFunc
  · exact h23.shadeModel.trans h12.shadeModel
  · exact h23.cullFace.trans h12.cullFace
  · exact h23.clearColor.trans h12.clearColor
  · exact h23.light0Position.trans h12.light0Position
  · exact h23.materialSpecular.trans h12.materialSpecular
  · exact h23.materialShininess.trans h12.materialShininess
  · exact h23.textureNames.trans h12.textureNames
  · exact h23.boundTexture2D.trans h12.boundTexture2D
  · exact h23.textures.trans h12.textures
  · exact h23.texGenMode.trans h12.texGenMode
  · exact h23.eyePlane.trans h12.eyePlane
  · exact h23.copies.trans h12.copies

theorem setCurrent_keepsRaster (g : GLState) (s : MatrixStack) :
    KeepsRaster g (g.setCurrent s) := by
  unfold GLState.setCurrent
  split <;> constructor <;> rfl

theorem execCmd_keepsRaster (N : Numerics) (g : GLState) (c : GLCmd) :
    KeepsRaster g (execCmd N g c) := by
  cases c
  case color3f r gr b => constructor <;> rfl
  case pushMatrix => exact setCurrent_keepsRaster _ _
  case popMatrix => exact setCurrent_keepsRaster _ _
  case scalef x y z => exact setCurrent_keepsRaster _ _
  case translatef x y z => exact setCurrent_keepsRaster _ _
  case rotatef a x y z => exact setCurrent_keepsRaster _ _
  case solidCube s => exact KeepsRaster.refl _
  case solidTorus i o sd r => exact KeepsRaster.refl _
  case solidSphere r sl st => exact KeepsRaster.refl _
  case solidCone b h sl st => exact KeepsRaster.refl _

theorem foldl_execCmd_keepsRaster (N : Numerics) (cmds : List GLCmd) (g : GLState) :
    KeepsRaster g (cmds.foldl (execCmd N) g) := by
  induction cmds generalizing g with
  | nil => exact KeepsRaster.refl _
  | cons c cs ih => exact (execCmd_keepsRaster N g c).trans (ih _)

theorem glCallList_keepsRaster (N : Numerics) (g : GLState) (name : Nat) :
    KeepsRaster g (glCallList N g name) :=
  foldl_execCmd_keepsRaster N _ g

theorem createListIfNeeded_keepsRaster (name : Nat) (g : GLState) (body : List GLCmd) :
    KeepsRaster g (createListIfNeeded name g body).2 := by
  unfold createListIfNeeded
  split
  · simp only [glNewList, glGenLists]
    split <;> constructor <;> rfl
  · exact KeepsRaster.refl _

theorem KeepsRaster.step {g g1 g2 : GLState} (h : KeepsRaster g1 g2)
    (h0 : KeepsRaster g g1) : KeepsRaster g g2 :=
  h0.trans h

theorem Geometry_Draw_keepsRaster (N : Numerics) (st : Statics) (g : GLState) (angle : ℚ) :
    KeepsRaster g (Geometry.Draw N st g angle).2 := by
  dsimp only [Geometry.Draw]
  apply KeepsRaster.step (setCurrent_keepsRaster _ _)
  apply KeepsRaster.step (glCallList_keepsRaster N _ _)
  apply KeepsRaster.step (setCurrent_keepsRaster _ _)
  apply KeepsRaster.step (setCurrent_keepsRaster _ _)
  apply KeepsRaster.step (glCallList_keepsRaster N _ _)
  apply KeepsRaster.step (glCallList_keepsRaster N _ _)
  apply KeepsRaster.step (glCallList_keepsRaster N _ _)
  apply KeepsRaster.step (createListIfNeeded_keepsRaster _ _ _)
  apply KeepsRaster.step (createListIfNeeded_keepsRaster _ _ _)
  apply KeepsRaster.step (createListIfNeeded_keepsRaster _ _ _)
  exact createListIfNeeded_keepsRaster _ _ _

theorem Draw_keepsRaster (N : Numerics) (a : GLApp) (angle : ℚ) :
    KeepsRaster a.gl (GLApp.Draw N a angle).gl :=
  Geometry_Draw_keepsRaster N a.statics a.gl angle

@[simp] theorem Draw_m_Width (N : Numerics) (a : GLApp) (angle : ℚ) :
    (GLApp.Draw N a angle).m_Width = a.m_Width := rfl

@[simp] theorem Draw_m_Height (N : Numerics) (a : GLApp) (angle : ℚ) :
    (GLApp.Draw N a angle).m_Height = a.m_Height := rfl

@[simp] theorem Draw_m_Geometry (N : Numerics) (a : GLApp) (angle : ℚ) :
    (GLApp.Draw N a angle).m_Geometry = a.m_Geometry := rfl

@[simp] theorem Draw_m_CameraProjectionMatrix (N : Numerics) (a : GLApp) (angle : ℚ) :
    (GLApp.Draw N a angle).m_CameraProjectionMatrix = a.m_CameraProjectionMatrix := rfl

@[simp] theorem Draw_m_CameraViewMatrix (N : Numerics) (a : GLApp) (angle : ℚ) :
    (GLApp.Draw N a angle).m_CameraViewMatrix = a.m_CameraViewMatrix := rfl

@[simp] theorem Draw_m_LightProjectionMatrix (N : Numerics) (a : GLApp) (angle : ℚ) :
    (GLApp.Draw N a angle).m_LightProjectionMatrix = a.m_LightProjectionMatrix := rfl

@[simp] theorem Draw_m_LightViewMatrix (N : Numerics) (a : GLApp) (angle : ℚ) :
    (GLApp.Draw N a angle).m_LightViewMatrix = a.m_LightViewMatrix := rfl

@[simp] theorem Draw_swaps (N : Numerics) (a : GLApp) (angle : ℚ) :
    (GLApp.Draw N a angle).swaps = a.swaps := rfl

@[simp] theorem Draw_draws (N : Numerics) (a : GLApp) (angle : ℚ) :
    (GLApp.Draw N a angle).draws = a.draws ++ [⟨angle, a.gl⟩] := rfl

@[simp] theorem Draw_angle (N : Numerics) (a : GLApp) (angle : ℚ) :
    (GLApp.Draw N a angle).statics.angle = a.statics.angle := rfl

@[simp] theorem Draw_matrixMode (N : Numerics) (a : GLApp) (angle : ℚ) :
    (GLApp.Draw N a angle).gl.matrixMode = a.gl.matrixMode :=
  (Draw_keepsRaster N a angle).matrixMode

@[simp] theorem Draw_viewport (N : Numerics) (a : GLApp) (angle : ℚ) :
    (GLApp.Draw N a angle).gl.viewport = a.gl.viewport :=
  (Draw_keepsRaster N a angle).viewport

@[simp] theorem Draw_enabled (N : Numerics) (a : GLApp) (angle : ℚ) :
    (GLApp.Draw N a angle).gl.enabled = a.gl.enabled :=
  (Draw_keepsRaster N a angle).enabled

@[simp] theorem Draw_colorMask (N : Numerics) (a : GLApp) (angle : ℚ) :
    (GLApp.Draw N a angle).gl.colorMask = a.gl.colorMask :=
  (Draw_keepsRaster N a angle).colorMask

@[simp] theorem Draw_polygonOffset (N : Numerics) (a : GLApp) (angle : ℚ) :
    (GLApp.Draw N a angle).gl.polygonOffset = a.gl.polygonOffset :=
  (Draw_keepsRaster N a angle).polygonOffset

@[simp] theorem Draw_alphaFunc (N : Numerics) (a : GLApp) (angle : ℚ) :
    (GLApp.Draw N a angle).gl.alphaFunc = a.gl.alphaFunc :=
  (Draw_keepsRaster N a angle).alphaFunc

@[simp] theorem Draw_boundTexture2D (N : Numerics) (a : GLApp) (angle : ℚ) :
    (GLApp.Draw N a angle).gl.boundTexture2D = a.gl.boundTexture2D :=
  (Draw_keepsRaster N a angle).boundTexture2D

@[simp] theorem Draw_textures (N : Numerics) (a : GLApp) (angle : ℚ) :
    (GLApp.Draw N a angle).gl.textures = a.gl.textures :=
  (Draw_keepsRaster N a angle).textures

@[simp] theorem Draw_eyePlane (N : Numerics) (a : GLApp) (angle : ℚ) :
    (GLApp.Draw N a angle).gl.eyePlane = a.gl.eyePlane :=
  (Draw_keepsRaster N a angle).eyePlane

@[simp] theorem Draw_copies (N : Numerics) (a : GLApp) (angle : ℚ) :
    (GLApp.Draw N a angle).gl.copies = a.gl.copies :=
  (Draw_keepsRaster N a angle).copies

/-! ## The events, one by one -/

theorem Render_draws (N : Numerics) (a : GLApp) (dt : ℚ) :
    (Render N a dt).draws = a.draws ++ frameDraws N a dt := by
  simp [frameDraws, Render, CreateShadowMap, CreateTextureMatrix]

theorem frameDraws_angle (N : Numerics) (a : GLApp) (dt : ℚ) :
    (frameDraws N a dt).map DrawCall.angle
      = [a.statics.angle + 50 * dt, a.statics.angle + 50 * dt, a.statics.angle + 50 * dt] := by
  simp [frameDraws, Render, CreateShadowMap, CreateTextureMatrix]

theorem frameDraws_raster (N : Numerics) (a : GLApp) (dt : ℚ) :
    (frameDraws N a dt).map
        (fun d => (d.gl.enabled .polygonOffsetFill, d.gl.polygonOffset, d.gl.colorMask))
      = [(true, (1, 4), (false, false, false, false)),
         (false, (1, 4), (true, true, true, true)),
         (false, (1, 4), (true, true, true, true))] := by
  simp [frameDraws, Render, CreateShadowMap, CreateTextureMatrix, glEnable, glDisable,
    glShadeModel, glCullFace, glCopyTexImage2D, glBindTexture, glPopMatrix, glPushMatrix,
    glMatrixMode, GLState.setCurrent, GLState.modifyBound, glColorMask, glLoadMatrixd,
    glPolygonOffset, glClear, glTexParameteri_compareFunc, glTexParameteri_compareMode,
    glTexParameteri_depthTextureMode, glAlphaFunc, glViewport, glTexGendv, glLoadIdentity,
    glTranslated, glScaled, glMultMatrixd]

theorem CreateShadowMap_raster (N : Numerics) (a : GLApp) (angle : ℚ) :
    (CreateShadowMap N a angle).gl.enabled .polygonOffsetFill = false
      ∧ (CreateShadowMap N a angle).gl.colorMask = (true, true, true, true) := by
  simp [CreateShadowMap, glEnable, glDisable, glShadeModel, glCullFace, glCopyTexImage2D,
    glBindTexture, glPopMatrix, glPushMatrix, glMatrixMode, GLState.setCurrent,
    GLState.modifyBound, glColorMask, glLoadMatrixd, glPolygonOffset, glClear]

theorem Render_settled (N : Numerics) (a : GLApp) (dt : ℚ) : Settled (Render N a dt) := by
  simp [Settled, Render, CreateShadowMap, CreateTextureMatrix, glEnable, glDisable,
    glShadeModel, glCullFace, glCopyTexImage2D, glBindTexture, glPopMatrix, glPushMatrix,
    glMatrixMode, GLState.setCurrent, GLState.modifyBound, glColorMask, glLoadMatrixd,
    glPolygonOffset, glClear, glTexParameteri_compareFunc, glTexParameteri_compareMode,
    glTexParameteri_depthTextureMode, glAlphaFunc, glViewport, glTexGendv, glLoadIdentity,
    glTranslated, glScaled, glMultMatrixd]

theorem Render_angle (N : Numerics) (a : GLApp) (dt : ℚ) :
    (Render N a dt).statics.angle = a.statics.angle + 50 * dt := by
  simp [Render, CreateShadowMap, CreateTextureMatrix]

theorem Render_cached (N : Numerics) (a : GLApp) (dt : ℚ) :
    (Render N a dt).m_CameraProjectionMatrix = a.m_CameraProjectionMatrix
      ∧ (Render N a dt).m_CameraViewMatrix = a.m_CameraViewMatrix
      ∧ (Render N a dt).m_LightProjectionMatrix = a.m_LightProjectionMatrix
      ∧ (Render N a dt).m_LightViewMatrix = a.m_LightViewMatrix
      ∧ (Render N a dt).m_Geometry = a.m_Geometry := by
  simp [Render, CreateShadowMap, CreateTextureMatrix]

theorem CreateShadowMap_cached (N : Numerics) (a : GLApp) (angle : ℚ) :
    (CreateShadowMap N a angle).m_CameraProjectionMatrix = a.m_CameraProjectionMatrix
      ∧ (CreateShadowMap N a angle).m_CameraViewMatrix = a.m_CameraViewMatrix
      ∧ (CreateShadowMap N a angle).m_LightProjectionMatrix = a.m_LightProjectionMatrix
      ∧ (CreateShadowMap N a angle).m_LightViewMatrix = a.m_LightViewMatrix := by
  simp [CreateShadowMap]

theorem Reshape_settled (N : Numerics) (a : GLApp) (w h : Int) (ha : Settled a) :
    Settled (Reshape N a w h) := by
  obtain ⟨_, h2, h3⟩ := ha
  exact ⟨rfl, h2, h3⟩

theorem Zoom_keepsRaster (N : Numerics) (a : GLApp) (d : ℚ) :
    KeepsRaster a.gl (Zoom N a d).gl := by
  dsimp only [Zoom]
  apply KeepsRaster.step (setCurrent_keepsRaster _ _)
  exact setCurrent_keepsRaster _ _

theorem Zoom_settled (N : Numerics) (a : GLApp) (d : ℚ) (ha : Settled a) :
    Settled (Zoom N a d) := by
  obtain ⟨h1, h2, h3⟩ := ha
  have hk := Zoom_keepsRaster N a d
  exact ⟨hk.matrixMode.trans h1, by rw [hk.enabled]; exact h2, hk.colorMask.trans h3⟩

theorem step_settled (N : Numerics) (a : GLApp) (e : Event) (ha : Settled a) :
    Settled (step N a e) := by
  cases e with
  | render dt => exact Render_settled N a dt
  | resize w h => exact Reshape_settled N _ _ _ ha
  | zoom d => exact Zoom_settled N a d ha

theorem run_settled (N : Numerics) (evs : List Event) (a : GLApp) (ha : Settled a) :
    Settled (run N a evs) := by
  induction evs generalizing a with
  | nil => exact ha
  | cons e es ih => exact ih _ (step_settled N a e ha)

theorem Started_settled (N : Numerics) (s : GLApp) (hs : Started N s) : Settled s := by
  obtain ⟨width, height, light, camera, m1, m2, m3, m4, vw, vh, rfl⟩ := hs
  exact ⟨rfl, rfl, rfl⟩

theorem Reachable_settled (N : Numerics) (s : GLApp) (hs : Reachable N s) : Settled s := by
  obtain ⟨s0, evs, h0, rfl⟩ := hs
  exact run_settled N evs s0 (Started_settled N s0 h0)

theorem step_light (N : Numerics) (a : GLApp) (e : Event) :
    (step N a e).m_LightProjectionMatrix = a.m_LightProjectionMatrix
      ∧ (step N a e).m_LightViewMatrix = a.m_LightViewMatrix := by
  cases e with
  | render dt => exact ⟨(Render_cached N a dt).2.2.1, (Render_cached N a dt).2.2.2.1⟩
  | resize w h => exact ⟨rfl, rfl⟩
  | zoom d => exact ⟨rfl, rfl⟩

theorem run_light (N : Numerics) (evs : List Event) (a : GLApp) :
    (run N a evs).m_LightProjectionMatrix = a.m_LightProjectionMatrix
      ∧ (run N a evs).m_LightViewMatrix = a.m_LightViewMatrix := by
  induction evs generalizing a with
  | nil => exact ⟨rfl, rfl⟩
  | cons e es ih =>
    obtain ⟨h1, h2⟩ := ih (step N a e)
    obtain ⟨h3, h4⟩ := step_light N a e
    exact ⟨h1.trans h3, h2.trans h4⟩

theorem run_angle (N : Numerics) (evs : List Event) (a : GLApp) :
    (run N a evs).statics.angle = a.statics.angle + 50 * (renderTimes evs).sum := by
  induction evs generalizing a with
  | nil => simp [run, renderTimes]
  | cons e es ih =>
    have h := ih (step N a e)
    simp only [run, List.foldl_cons] at h ⊢
    rw [h]
    cases e with
    | render dt =>
      simp only [step, renderTimes, List.sum_cons, Render_angle]
      ring
    | resize w h => rfl
    | zoom d => rfl

theorem renderTimes_map_render (dts : List ℚ) : renderTimes (dts.map Event.render) = dts := by
  induction dts with
  | nil => rfl
  | cons d ds ih => simp [renderTimes, ih]

theorem Started_angle (N : Numerics) (s : GLApp) (hs : Started N s) : s.statics.angle = 0 := by
  obtain ⟨width, height, light, camera, m1, m2, m3, m4, vw, vh, rfl⟩ := hs
  rfl

theorem frameDraws_length (N : Numerics) (a : GLApp) (dt : ℚ) :
    (frameDraws N a dt).length = 3 := by
  have h := congrArg List.length (frameDraws_angle N a dt)
  simpa using h

theorem frameDraws_compare (N : Numerics) (a : GLApp) (dt : ℚ) :
    ((frameDraws N a dt).drop 1).map
        (fun c => (c.gl.enabled .texture2D, c.gl.enabled .alphaTest, c.gl.alphaFunc,
          (c.gl.textures c.gl.boundTexture2D).compareMode,
          (c.gl.textures c.gl.boundTexture2D).depthTextureMode,
          (c.gl.textures c.gl.boundTexture2D).compareFunc))
      = [(true, true, (.greater, 0), .compareRToTexture, .alpha, .less),
         (true, true, (.greater, 0), .compareRToTexture, .alpha, .gequal)] := by
  simp [frameDraws, Render, CreateShadowMap, CreateTextureMatrix, glEnable, glDisable,
    glShadeModel, glCullFace, glCopyTexImage2D, glBindTexture, glPopMatrix, glPushMatrix,
    glMatrixMode, GLState.setCurrent, GLState.modifyBound, glColorMask, glLoadMatrixd,
    glPolygonOffset, glClear, glTexParameteri_compareFunc, glTexParameteri_compareMode,
    glTexParameteri_depthTextureMode, glAlphaFunc, glViewport, glTexGendv, glLoadIdentity,
    glTranslated, glScaled, glMultMatrixd]

theorem frameDraws_kept (N : Numerics) (a : GLApp) (dt : ℚ) (af r d : ℚ) (haf : 0 < af) :
    ((frameDraws N a dt).drop 1).map (fun c => fragmentKept c.gl af r d)
      = [decide (r < d), decide (d ≤ r)] := by
  have h := frameDraws_compare N a dt
  obtain ⟨c1, c2, c3, hf⟩ := List.length_eq_three.mp (frameDraws_length N a dt)
  · rw [hf] at h
    rw [hf]
    simp only [List.drop_succ_cons, List.drop_zero, List.map_cons, List.map_nil,
      List.cons.injEq, Prod.mk.injEq, and_true] at h
    obtain ⟨⟨a1, a2, a3, a4, a5, a6⟩, ⟨b1, b2, b3, b4, b5, b6⟩⟩ := h
    simp only [List.drop_succ_cons, List.drop_zero, List.map_cons, List.map_nil,
      fragmentKept, passesAlphaTest, fragmentAlpha, textureAlpha, a1, a2, a3, a4, a5, a6,
      b1, b2, b3, b4, b5, b6, CmpFunc.eval]
    by_cases h1 : r < d
    · have h2 : ¬ d ≤ r := not_le.mpr h1
      simp [h1, h2, haf]
    · have h2 : d ≤ r := not_lt.mp h1
      simp [h1, h2, haf]

/-! ## Teardown lemmas -/

theorem ShutDown_idle (w : WinState) (h1 : w.m_hWnd = 0) (h2 : w.m_hDC = 0) (h3 : w.m_hRC = 0) :
    ShutDown w = (true, w) := by
  cases w with
  | mk a b c l =>
    simp only at h1 h2 h3
    subst h1 h2 h3
    rfl

theorem ShutDown_handles (w : WinState) :
    (ShutDown w).1 = true ∧ (ShutDown w).2.m_hWnd = 0 ∧ (ShutDown w).2.m_hDC = 0
      ∧ (ShutDown w).2.m_hRC = 0 :=
  ⟨rfl, rfl, rfl, rfl⟩

theorem shutDownTimes_idle (n : Nat) (w : WinState) (h1 : w.m_hWnd = 0) (h2 : w.m_hDC = 0)
    (h3 : w.m_hRC = 0) : shutDownTimes n w = w := by
  induction n with
  | zero => rfl
  | succ n ih => rw [shutDownTimes, ShutDown_idle w h1 h2 h3]; exact ih

theorem shutDownTimes_succ (n : Nat) (w : WinState) :
    shutDownTimes (n + 1) w = (ShutDown w).2 := by
  rw [shutDownTimes]
  exact shutDownTimes_idle n _ rfl rfl rfl

theorem ShutDown_calls (w : WinState) :
    (ShutDown w).2.calls = w.calls
      ++ (if w.m_hRC ≠ 0 then [.wglMakeCurrent 0 0, .wglDeleteContext w.m_hRC] else [])
      ++ (if w.m_hWnd ≠ 0 ∧ w.m_hDC ≠ 0 then [.ReleaseDC w.m_hWnd w.m_hDC] else [])
      ++ (if w.m_hWnd ≠ 0 then [.DestroyWindow w.m_hWnd] else []) := by
  by_cases h1 : w.m_hRC = 0 <;> by_cases h2 : w.m_hWnd = 0 <;> by_cases h3 : w.m_hDC = 0 <;>
    simp [ShutDown, WinState.call, h1, h2, h3]

/-! ## The stored size, the viewport and the depth copy -/

theorem Render_size (N : Numerics) (a : GLApp) (dt : ℚ) :
    (Render N a dt).m_Width = a.m_Width ∧ (Render N a dt).m_Height = a.m_Height := by
  simp [Render, CreateShadowMap, CreateTextureMatrix]

theorem Render_viewport (N : Numerics) (a : GLApp) (dt : ℚ) :
    (Render N a dt).gl.viewport = (0, 0, (a.m_Width : Int), (a.m_Height : Int)) := by
  simp [Render, CreateShadowMap, CreateTextureMatrix, glEnable, glDisable,
    glShadeModel, glCullFace, glCopyTexImage2D, glBindTexture, glPopMatrix, glPushMatrix,
    glMatrixMode, GLState.setCurrent, GLState.modifyBound, glColorMask, glLoadMatrixd,
    glPolygonOffset, glClear, glTexParameteri_compareFunc, glTexParameteri_compareMode,
    glTexParameteri_depthTextureMode, glAlphaFunc, glViewport, glTexGendv, glLoadIdentity,
    glTranslated, glScaled, glMultMatrixd, Geometry.GetShadowTexObj]

theorem CreateShadowMap_copies (N : Numerics) (a : GLApp) (angle : ℚ) :
    (CreateShadowMap N a angle).gl.copies
      = a.gl.copies
        ++ [(a.m_Geometry.GetShadowTexObj, 0, 0, (a.m_Width : Int), (a.m_Height : Int))] := by
  simp [CreateShadowMap, glEnable, glDisable, glShadeModel, glCullFace, glCopyTexImage2D,
    glBindTexture, glPopMatrix, glPushMatrix, glMatrixMode, GLState.setCurrent,
    GLState.modifyBound, glColorMask, glLoadMatrixd, glPolygonOffset, glClear,
    Geometry.GetShadowTexObj]

theorem Render_copies (N : Numerics) (a : GLApp) (dt : ℚ) :
    (Render N a dt).gl.copies
      = a.gl.copies
        ++ [(a.m_Geometry.GetShadowTexObj, 0, 0, (a.m_Width : Int), (a.m_Height : Int))] := by
  simp [Render, CreateShadowMap, CreateTextureMatrix, glEnable, glDisable,
    glShadeModel, glCullFace, glCopyTexImage2D, glBindTexture, glPopMatrix, glPushMatrix,
    glMatrixMode, GLState.setCurrent, GLState.modifyBound, glColorMask, glLoadMatrixd,
    glPolygonOffset, glClear, glTexParameteri_compareFunc, glTexParameteri_compareMode,
    glTexParameteri_depthTextureMode, glAlphaFunc, glViewport, glTexGendv, glLoadIdentity,
    glTranslated, glScaled, glMultMatrixd, Geometry.GetShadowTexObj]

theorem step_viewport (N : Numerics) (a : GLApp) (e : Event)
    (ha : a.gl.viewport = (0, 0, (a.m_Width : Int), (a.m_Height : Int))) :
    (step N a e).gl.viewport
      = (0, 0, ((step N a e).m_Width : Int), ((step N a e).m_Height : Int)) := by
  cases e with
  | render dt =>
    show (Render N a dt).gl.viewport
      = (0, 0, ((Render N a dt).m_Width : Int), ((Render N a dt).m_Height : Int))
    rw [Render_viewport, (Render_size N a dt).1, (Render_size N a dt).2]
  | resize w h => rfl
  | zoom d =>
    show (Zoom N a d).gl.viewport = _
    rw [(Zoom_keepsRaster N a d).viewport]
    exact ha

theorem step_size (N : Numerics) (a : GLApp) (e : Event) :
    ((step N a e).m_Width, (step N a e).m_Height)
      = lastSize (a.m_Width, a.m_Height) [e] := by
  cases e with
  | render dt =>
    show ((Render N a dt).m_Width, (Render N a dt).m_Height) = _
    rw [(Render_size N a dt).1, (Render_size N a dt).2]
    rfl
  | resize w h => rfl
  | zoom d => rfl

theorem step_depthMap (N : Numerics) (a : GLApp) (e : Event) :
    (step N a e).m_Geometry.m_DepthMap = a.m_Geometry.m_DepthMap := by
  cases e with
  | render dt =>
    show (Render N a dt).m_Geometry.m_DepthMap = _
    rw [(Render_cached N a dt).2.2.2.2]
  | resize w h => rfl
  | zoom d => rfl

theorem run_size (N : Numerics) (evs : List Event) (a : GLApp)
    (ha : a.gl.viewport = (0, 0, (a.m_Width : Int), (a.m_Height : Int))) :
    ((run N a evs).m_Width, (run N a evs).m_Height) = lastSize (a.m_Width, a.m_Height) evs
    ∧ (run N a evs).gl.viewport
        = (0, 0, ((run N a evs).m_Width : Int), ((run N a evs).m_Height : Int))
    ∧ (run N a evs).m_Geometry.m_DepthMap = a.m_Geometry.m_DepthMap := by
  induction evs generalizing a with
  | nil => exact ⟨rfl, ha, rfl⟩
  | cons e es ih =>
    obtain ⟨h1, h2, h3⟩ := ih (step N a e) (step_viewport N a e ha)
    refine ⟨?_, h2, h3.trans (step_depthMap N a e)⟩
    show ((run N (step N a e) es).m_Width, (run N (step N a e) es).m_Height) = _
    rw [h1]
    have hs := step_size N a e
    cases e with
    | render dt =>
      have h4 := Render_size N a dt
      show lastSize ((Render N a dt).m_Width, (Render N a dt).m_Height) es = _
      rw [h4.1, h4.2]
      rfl
    | resize w h => rfl
    | zoom d => rfl

theorem InitGraphics_shadow_texture (N : Numerics) (a : GLApp) :
    ((InitGraphics N a).gl.textures (InitGraphics N a).m_Geometry.GetShadowTexObj).image
      = some (DEPTH_MAP_WIDTH, DEPTH_MAP_HEIGHT) := by
  simp [InitGraphics, Reshape, Geometry.SetLights, Geometry.SetMaterials,
    Geometry.SetShadowTexture, Geometry.SetCameraPosition, Geometry.GetShadowTexObj,
    glGenTextures, glBindTexture, glTexImage2D, glTexParameteri_minFilter,
    glTexParameteri_magFilter, glTexParameteri_wrapS, glTexParameteri_wrapT, glEnable,
    glTexGeni, glMatrixMode, glPushMatrix, glPopMatrix, glLoadIdentity, glLoadMatrixd,
    gluPerspective, gluLookAt, glMultMatrixd, glClearColor, glViewport, glLightfv_position,
    glColorMaterial, glMaterialfv_specular, glMaterialf_shininess, GLState.setCurrent,
    GLState.modifyBound]

theorem InitGraphics_viewport (N : Numerics) (a : GLApp) :
    (InitGraphics N a).gl.viewport
      = (0, 0, ((InitGraphics N a).m_Width : Int), ((InitGraphics N a).m_Height : Int)) :=
  rfl

/-! ## Zooming along the diagonal -/

theorem Zoom_GetCameraPosition (N : Numerics) (a : GLApp) (d : ℚ) (i : Fin 3) :
    (Zoom N a d).m_Geometry.GetCameraPosition i = a.m_Geometry.GetCameraPosition i + d := by
  fin_cases i <;> rfl

theorem Zoom_distSq (N : Numerics) (a : GLApp) (c d : ℚ)
    (hc : a.m_Geometry.GetCameraPosition = ![c, c, c]) :
    distSq a.m_Geometry.GetCameraPosition = 3 * c ^ 2
      ∧ distSq (Zoom N a d).m_Geometry.GetCameraPosition = 3 * (c + d) ^ 2 := by
  have h0 : a.m_Geometry.GetCameraPosition 0 = c := by rw [hc]; rfl
  have h1 : a.m_Geometry.GetCameraPosition 1 = c := by rw [hc]; rfl
  have h2 : a.m_Geometry.GetCameraPosition 2 = c := by rw [hc]; rfl
  constructor
  · simp only [distSq, h0, h1, h2]
    ring
  · simp only [distSq, Zoom_GetCameraPosition, h0, h1, h2]
    ring

theorem InitGraphics_camera (N : Numerics) (a : GLApp) :
    (InitGraphics N a).m_Geometry.GetCameraPosition = ![5, 5, 5] := by
  funext i
  fin_cases i <;> rfl

/-! ## Matrix-stack balance -/

theorem saved_setCurrent_top (g : GLState) (M : Mat16) :
    (g.setCurrent { g.current with top := M }).saved = g.saved := by
  unfold GLState.setCurrent GLState.current
  split <;> rename_i hm <;> simp [GLState.saved, hm]

theorem saved_push (g : GLState) : (glPushMatrix g).saved = bump g.matrixMode g.saved := by
  unfold glPushMatrix GLState.setCurrent GLState.current
  split <;> rename_i hm <;> simp [GLState.saved, hm, bump, MatrixStack.push]

theorem saved_pop (g : GLState) (L : Nat × Nat × Nat) (h : g.saved = bump g.matrixMode L) :
    (glPopMatrix g).saved = L := by
  obtain ⟨p, q, t⟩ := L
  unfold glPopMatrix GLState.setCurrent GLState.current
  split <;> rename_i hm <;> rw [hm] at h <;>
    simp only [GLState.saved, bump, Prod.mk.injEq] at h ⊢ <;>
    obtain ⟨h1, h2, h3⟩ := h
  · cases hb : g.modelview.below with
    | nil => rw [hb] at h2; simp at h2
    | cons x xs => rw [hb] at h2; simp [MatrixStack.pop, hb, h1, h3] at h2 ⊢; omega
  · cases hb : g.projection.below with
    | nil => rw [hb] at h1; simp at h1
    | cons x xs => rw [hb] at h1; simp [MatrixStack.pop, hb, h2, h3] at h1 ⊢; omega
  · cases hb : g.texture.below with
    | nil => rw [hb] at h3; simp at h3
    | cons x xs => rw [hb] at h3; simp [MatrixStack.pop, hb, h1, h2] at h3 ⊢; omega

theorem Shape.glClear {P : Nat → (Nat → List GLCmd) → Prop} {m : MatrixMode}
    {L : Nat × Nat × Nat} {g : GLState}
    (hs : Shape P m L g) : Shape P m L (glClear g) :=
  hs

theorem Shape.glShadeModel {P : Nat → (Nat → List GLCmd) → Prop} {m : MatrixMode}
    {L : Nat × Nat × Nat} {g : GLState} (x : ShadeModel)
    (hs : Shape P m L g) : Shape P m L (glShadeModel g x) :=
  hs

theorem Shape.glDisable {P : Nat → (Nat → List GLCmd) → Prop} {m : MatrixMode}
    {L : Nat × Nat × Nat} {g : GLState} (c : Cap)
    (hs : Shape P m L g) : Shape P m L (glDisable g c) :=
  hs

theorem Shape.glEnable {P : Nat → (Nat → List GLCmd) → Prop} {m : MatrixMode}
    {L : Nat × Nat × Nat} {g : GLState} (c : Cap)
    (hs : Shape P m L g) : Shape P m L (glEnable g c) :=
  hs

theorem Shape.glColorMask {P : Nat → (Nat → List GLCmd) → Prop} {m : MatrixMode}
    {L : Nat × Nat × Nat} {g : GLState} (r gr b a : Bool)
    (hs : Shape P m L g) : Shape P m L (glColorMask g r gr b a) :=
  hs

theorem Shape.glPolygonOffset {P : Nat → (Nat → List GLCmd) → Prop} {m : MatrixMode}
    {L : Nat × Nat × Nat} {g : GLState} (factor units : ℚ)
    (hs : Shape P m L g) : Shape P m L (glPolygonOffset g factor units) :=
  hs

theorem Shape.glBindTexture {P : Nat → (Nat → List GLCmd) → Prop} {m : MatrixMode}
    {L : Nat × Nat × Nat} {g : GLState} (name : Nat)
    (hs : Shape P m L g) : Shape P m L (glBindTexture g name) :=
  hs

theorem Shape.glCopyTexImage2D {P : Nat → (Nat → List GLCmd) → Prop} {m : MatrixMode}
    {L : Nat × Nat × Nat} {g : GLState} (x y width height : Int)
    (hs : Shape P m L g) : Shape P m L (glCopyTexImage2D g x y width height) :=
  hs

theorem Shape.glCullFace {P : Nat → (Nat → List GLCmd) → Prop} {m : MatrixMode}
    {L : Nat × Nat × Nat} {g : GLState} (f : CullFace)
    (hs : Shape P m L g) : Shape P m L (glCullFace g f) :=
  hs

theorem Shape.glViewport {P : Nat → (Nat → List GLCmd) → Prop} {m : MatrixMode}
    {L : Nat × Nat × Nat} {g : GLState} (x y w h : Int)
    (hs : Shape P m L g) : Shape P m L (glViewport g x y w h) :=
  hs

theorem Shape.glAlphaFunc {P : Nat → (Nat → List GLCmd) → Prop} {m : MatrixMode}
    {L : Nat × Nat × Nat} {g : GLState} (f : CmpFunc) (ref : ℚ)
    (hs : Shape P m L g) : Shape P m L (glAlphaFunc g f ref) :=
  hs

theorem Shape.glTexParameteri_compareMode {P : Nat → (Nat → List GLCmd) → Prop} {m : MatrixMode}
    {L : Nat × Nat × Nat} {g : GLState} (x : CompareMode)
    (hs : Shape P m L g) : Shape P m L (glTexParameteri_compareMode g x) :=
  hs

theorem Shape.glTexParameteri_depthTextureMode {P : Nat → (Nat → List GLCmd) → Prop} {m : MatrixMode}
    {L : Nat × Nat × Nat} {g : GLState} (x : DepthTextureMode)
    (hs : Shape P m L g) : Shape P m L (glTexParameteri_depthTextureMode g x) :=
  hs

theorem Shape.glTexParameteri_compareFunc {P : Nat → (Nat → List GLCmd) → Prop} {m : MatrixMode}
    {L : Nat × Nat × Nat} {g : GLState} (f : CmpFunc)
    (hs : Shape P m L g) : Shape P m L (glTexParameteri_compareFunc g f) :=
  hs

theorem Shape.glTexParameteri_minFilter {P : Nat → (Nat → List GLCmd) → Prop} {m : MatrixMode}
    {L : Nat × Nat × Nat} {g : GLState} (f : TexFilter)
    (hs : Shape P m L g) : Shape P m L (glTexParameteri_minFilter g f) :=
  hs

theorem Shape.glTexParameteri_magFilter {P : Nat → (Nat → List GLCmd) → Prop} {m : MatrixMode}
    {L : Nat × Nat × Nat} {g : GLState} (f : TexFilter)
    (hs : Shape P m L g) : Shape P m L (glTexParameteri_magFilter g f) :=
  hs

theorem Shape.glTexParameteri_wrapS {P : Nat → (Nat → List GLCmd) → Prop} {m : MatrixMode}
    {L : Nat × Nat × Nat} {g : GLState} (x : TexWrap)
    (hs : Shape P m L g) : Shape P m L (glTexParameteri_wrapS g x) :=
  hs

theorem Shape.glTexParameteri_wrapT {P : Nat → (Nat → List GLCmd) → Prop} {m : MatrixMode}
    {L : Nat × Nat × Nat} {g : GLState} (x : TexWrap)
    (hs : Shape P m L g) : Shape P m L (glTexParameteri_wrapT g x) :=
  hs

theorem Shape.glTexGendv {P : Nat → (Nat → List GLCmd) → Prop} {m : MatrixMode}
    {L : Nat × Nat × Nat} {g : GLState} (c : TexCoord) (params : Vec4)
    (hs : Shape P m L g) : Shape P m L (glTexGendv g c params) :=
  hs

theorem Shape.glTexGeni {P : Nat → (Nat → List GLCmd) → Prop} {m : MatrixMode}
    {L : Nat × Nat × Nat} {g : GLState} (c : TexCoord) (x : TexGenMode)
    (hs : Shape P m L g) : Shape P m L (glTexGeni g c x) :=
  hs

theorem Shape.glTexImage2D {P : Nat → (Nat → List GLCmd) → Prop} {m : MatrixMode}
    {L : Nat × Nat × Nat} {g : GLState} (width height : Int)
    (hs : Shape P m L g) : Shape P m L (glTexImage2D g width height) :=
  hs

theorem Shape.glClearColor {P : Nat → (Nat → List GLCmd) → Prop} {m : MatrixMode}
    {L : Nat × Nat × Nat} {g : GLState} (r gr b a : ℚ)
    (hs : Shape P m L g) : Shape P m L (glClearColor g r gr b a) :=
  hs

theorem Shape.glLightfv_position {P : Nat → (Nat → List GLCmd) → Prop} {m : MatrixMode}
    {L : Nat × Nat × Nat} {g : GLState} (pos : Vec3)
    (hs : Shape P m L g) : Shape P m L (glLightfv_position g pos) :=
  hs

theorem Shape.glColorMaterial {P : Nat → (Nat → List GLCmd) → Prop} {m : MatrixMode}
    {L : Nat × Nat × Nat} {g : GLState}
    (hs : Shape P m L g) : Shape P m L (glColorMaterial g) :=
  hs

theorem Shape.glMaterialfv_specular {P : Nat → (Nat → List GLCmd) → Prop} {m : MatrixMode}
    {L : Nat × Nat × Nat} {g : GLState} (v : ℚ × ℚ × ℚ × ℚ)
    (hs : Shape P m L g) : Shape P m L (glMaterialfv_specular g v) :=
  hs

theorem Shape.glMaterialf_shininess {P : Nat → (Nat → List GLCmd) → Prop} {m : MatrixMode}
    {L : Nat × Nat × Nat} {g : GLState} (x : ℚ)
    (hs : Shape P m L g) : Shape P m L (glMaterialf_shininess g x) :=
  hs

theorem Shape.glColor3f {P : Nat → (Nat → List GLCmd) → Prop} {m : MatrixMode}
    {L : Nat × Nat × Nat} {g : GLState} (r gr b : ℚ)
    (hs : Shape P m L g) : Shape P m L (glColor3f g r gr b) :=
  hs
theorem fixed_setCurrent (g : GLState) (s : MatrixStack) :
    (g.setCurrent s).listNames = g.listNames ∧ (g.setCurrent s).lists = g.lists
      ∧ (g.setCurrent s).matrixMode = g.matrixMode := by
  unfold GLState.setCurrent
  split <;> exact ⟨rfl, rfl, rfl⟩

theorem Shape.setTop {P : Nat → (Nat → List GLCmd) → Prop} {m : MatrixMode}
    {L : Nat × Nat × Nat} {g : GLState} (M : Mat16) (h : Shape P m L g) :
    Shape P m L (g.setCurrent { g.current with top := M }) := by
  obtain ⟨h1, h2, h3⟩ := h
  obtain ⟨e1, e2, e3⟩ := fixed_setCurrent g { g.current with top := M }
  refine ⟨?_, e3.trans h2, (saved_setCurrent_top g M).trans h3⟩
  rw [e1, e2]
  exact h1

theorem Shape.glLoadMatrixd {P : Nat → (Nat → List GLCmd) → Prop} {m : MatrixMode}
    {L : Nat × Nat × Nat} {g : GLState} (M : Mat16) (h : Shape P m L g) :
    Shape P m L (glLoadMatrixd g M) :=
  Shape.setTop M h

theorem Shape.glLoadIdentity {P : Nat → (Nat → List GLCmd) → Prop} {m : MatrixMode}
    {L : Nat × Nat × Nat} {g : GLState} (h : Shape P m L g) :
    Shape P m L (glLoadIdentity g) :=
  Shape.setTop identity16 h

theorem Shape.glMultMatrixd {P : Nat → (Nat → List GLCmd) → Prop} {m : MatrixMode}
    {L : Nat × Nat × Nat} {g : GLState} (M : Mat16) (h : Shape P m L g) :
    Shape P m L (glMultMatrixd g M) :=
  Shape.setTop (matMul g.current.top M) h

theorem Shape.glTranslated {P : Nat → (Nat → List GLCmd) → Prop} {m : MatrixMode}
    {L : Nat × Nat × Nat} {g : GLState} (x y z : ℚ) (h : Shape P m L g) :
    Shape P m L (glTranslated g x y z) :=
  Shape.glMultMatrixd _ h

theorem Shape.glScaled {P : Nat → (Nat → List GLCmd) → Prop} {m : MatrixMode}
    {L : Nat × Nat × Nat} {g : GLState} (x y z : ℚ) (h : Shape P m L g) :
    Shape P m L (glScaled g x y z) :=
  Shape.glMultMatrixd _ h

theorem Shape.glRotatef {P : Nat → (Nat → List GLCmd) → Prop} {m : MatrixMode}
    {L : Nat × Nat × Nat} {g : GLState} (N : Numerics) (a x y z : ℚ) (h : Shape P m L g) :
    Shape P m L (glRotatef N g a x y z) :=
  Shape.glMultMatrixd _ h

theorem Shape.gluPerspective {P : Nat → (Nat → List GLCmd) → Prop} {m : MatrixMode}
    {L : Nat × Nat × Nat} {g : GLState} (N : Numerics) (fovy aspect zNear zFar : ℚ)
    (h : Shape P m L g) : Shape P m L (gluPerspective N g fovy aspect zNear zFar) :=
  Shape.glMultMatrixd _ h

theorem Shape.gluLookAt {P : Nat → (Nat → List GLCmd) → Prop} {m : MatrixMode}
    {L : Nat × Nat × Nat} {g : GLState} (N : Numerics) (ex ey ez cx cy cz ux uy uz : ℚ)
    (h : Shape P m L g) : Shape P m L (gluLookAt N g ex ey ez cx cy cz ux uy uz) :=
  Shape.glMultMatrixd _ h

theorem Shape.glMatrixMode {P : Nat → (Nat → List GLCmd) → Prop} {m : MatrixMode}
    {L : Nat × Nat × Nat} {g : GLState} (m' : MatrixMode) (h : Shape P m L g) :
    Shape P m' L (glMatrixMode g m') :=
  ⟨h.1, rfl, h.2.2⟩

theorem Shape.glPushMatrix {P : Nat → (Nat → List GLCmd) → Prop} {m : MatrixMode}
    {L : Nat × Nat × Nat} {g : GLState} (h : Shape P m L g) :
    Shape P m (bump m L) (glPushMatrix g) := by
  obtain ⟨h1, h2, h3⟩ := h
  obtain ⟨e1, e2, e3⟩ := fixed_setCurrent g g.current.push
  refine ⟨?_, e3.trans h2, ?_⟩
  · show P (g.setCurrent g.current.push).listNames (g.setCurrent g.current.push).lists
    rw [e1, e2]
    exact h1
  · rw [saved_push, h2, h3]

theorem Shape.glPopMatrix {P : Nat → (Nat → List GLCmd) → Prop} {m : MatrixMode}
    {L : Nat × Nat × Nat} {g : GLState} (h : Shape P m (bump m L) g) :
    Shape P m L (glPopMatrix g) := by
  obtain ⟨h1, h2, h3⟩ := h
  obtain ⟨e1, e2, e3⟩ := fixed_setCurrent g g.current.pop
  refine ⟨?_, e3.trans h2, ?_⟩
  · show P (g.setCurrent g.current.pop).listNames (g.setCurrent g.current.pop).lists
    rw [e1, e2]
    exact h1
  · apply saved_pop
    rw [h2, h3]

theorem Shape.baseList {P : Nat → (Nat → List GLCmd) → Prop} {m : MatrixMode}
    {L : Nat × Nat × Nat} {g : GLState} (N : Numerics) (hs : Shape P m L g) :
    Shape P m L (baseListBody.foldl (execCmd N) g) := by
  dsimp only [baseListBody, List.foldl, execCmd]
  apply Shape.glPopMatrix
  apply Shape.glScaled
  apply Shape.glPushMatrix
  apply Shape.glColor3f
  exact hs

theorem Shape.torusList {P : Nat → (Nat → List GLCmd) → Prop} {m : MatrixMode}
    {L : Nat × Nat × Nat} {g : GLState} (N : Numerics) (hs : Shape P m L g) :
    Shape P m L (torusListBody.foldl (execCmd N) g) := by
  dsimp only [torusListBody, List.foldl, execCmd]
  apply Shape.glPopMatrix
  apply Shape.glRotatef
  apply Shape.glTranslated
  apply Shape.glPushMatrix
  apply Shape.glColor3f
  exact hs

theorem Shape.sphereList {P : Nat → (Nat → List GLCmd) → Prop} {m : MatrixMode}
    {L : Nat × Nat × Nat} {g : GLState} (N : Numerics) (hs : Shape P m L g) :
    Shape P m L (sphereListBody.foldl (execCmd N) g) := by
  dsimp only [sphereListBody, List.foldl, execCmd]
  apply Shape.glPopMatrix
  apply Shape.glTranslated
  apply Shape.glTranslated
  apply Shape.glTranslated
  apply Shape.glTranslated
  apply Shape.glPushMatrix
  apply Shape.glColor3f
  exact hs

theorem Shape.coneList {P : Nat → (Nat → List GLCmd) → Prop} {m : MatrixMode}
    {L : Nat × Nat × Nat} {g : GLState} (N : Numerics) (hs : Shape P m L g) :
    Shape P m L (coneListBody.foldl (execCmd N) g) := by
  dsimp only [coneListBody, List.foldl, execCmd]
  apply Shape.glPopMatrix
  apply Shape.glScaled
  apply Shape.glTranslated
  apply Shape.glTranslated
  apply Shape.glTranslated
  apply Shape.glRotatef
  apply Shape.glTranslated
  apply Shape.glPushMatrix
  apply Shape.glColor3f
  exact hs

theorem Shape.callBase {st : Statics} {m : MatrixMode} {L : Nat × Nat × Nat} {g : GLState}
    (N : Numerics) (hs : Shape (AllCompiled st) m L g) :
    Shape (AllCompiled st) m L (glCallList N g st.BaseList) := by
  unfold glCallList
  rw [hs.1.1.2]
  exact Shape.baseList N hs

theorem Shape.callTorus {st : Statics} {m : MatrixMode} {L : Nat × Nat × Nat} {g : GLState}
    (N : Numerics) (hs : Shape (AllCompiled st) m L g) :
    Shape (AllCompiled st) m L (glCallList N g st.TorusList) := by
  unfold glCallList
  rw [hs.1.2.1.2]
  exact Shape.torusList N hs

theorem Shape.callSphere {st : Statics} {m : MatrixMode} {L : Nat × Nat × Nat} {g : GLState}
    (N : Numerics) (hs : Shape (AllCompiled st) m L g) :
    Shape (AllCompiled st) m L (glCallList N g st.SphereList) := by
  unfold glCallList
  rw [hs.1.2.2.1.2]
  exact Shape.sphereList N hs

theorem Shape.callCone {st : Statics} {m : MatrixMode} {L : Nat × Nat × Nat} {g : GLState}
    (N : Numerics) (hs : Shape (AllCompiled st) m L g) :
    Shape (AllCompiled st) m L (glCallList N g st.ConeList) := by
  unfold glCallList
  rw [hs.1.2.2.2.2]
  exact Shape.coneList N hs

theorem glNewList_fresh (g : GLState) (body : List GLCmd) :
    glNewList (glGenLists g).2 (glGenLists g).1 body
      = { g with listNames := g.listNames + 1
                 lists := Function.update g.lists (g.listNames + 1) body } := by
  simp [glNewList, glGenLists]

theorem createListIfNeeded_spec (name : Nat) (g : GLState) (body : List GLCmd) :
    (createListIfNeeded name g body).2.matrixMode = g.matrixMode
    ∧ (createListIfNeeded name g body).2.saved = g.saved
    ∧ g.listNames ≤ (createListIfNeeded name g body).2.listNames
    ∧ (∀ k, k ≤ g.listNames → (createListIfNeeded name g body).2.lists k = g.lists k)
    ∧ ((name = 0 ∨ Compiled name body g.listNames g.lists) →
        Compiled (createListIfNeeded name g body).1 body
          (createListIfNeeded name g body).2.listNames
          (createListIfNeeded name g body).2.lists) := by
  unfold createListIfNeeded
  by_cases h : name = 0
  · rw [if_pos h]
    dsimp only
    rw [glNewList_fresh]
    refine ⟨rfl, rfl, Nat.le_succ _, ?_, ?_⟩
    · intro k hk
      have hne : k ≠ g.listNames + 1 := by omega
      exact Function.update_noteq hne _ _
    · intro _
      exact ⟨le_refl _, Function.update_same _ _ _⟩
  · rw [if_neg h]
    refine ⟨rfl, rfl, le_refl _, fun k _ => rfl, ?_⟩
    intro hc
    rcases hc with hc | hc
    · exact absurd hc h
    · exact hc

theorem Compiled_after_create {k : Nat} {b : List GLCmd} (name : Nat) (g : GLState)
    (body : List GLCmd) (h : Compiled k b g.listNames g.lists) :
    Compiled k b (createListIfNeeded name g body).2.listNames
      (createListIfNeeded name g body).2.lists := by
  obtain ⟨_, _, h3, h4, _⟩ := createListIfNeeded_spec name g body
  exact ⟨le_trans h.1 h3, (h4 k h.1).trans h.2⟩

theorem Entry_after_create {k : Nat} {b : List GLCmd} (name : Nat) (g : GLState)
    (body : List GLCmd) (h : k = 0 ∨ Compiled k b g.listNames g.lists) :
    k = 0 ∨ Compiled k b (createListIfNeeded name g body).2.listNames
      (createListIfNeeded name g body).2.lists := by
  rcases h with h | h
  · exact Or.inl h
  · exact Or.inr (Compiled_after_create name g body h)

theorem Shape.allCompiled {st : Statics} {m : MatrixMode} {L : Nat × Nat × Nat}
    {g : GLState} (hs : Shape (AllCompiled st) m L g) : Shape (ListsReady st) m L g :=
  ⟨⟨Or.inr hs.1.1, Or.inr hs.1.2.1, Or.inr hs.1.2.2.1, Or.inr hs.1.2.2.2⟩, hs.2⟩

theorem Shape.Draw {st : Statics} {m : MatrixMode} {L : Nat × Nat × Nat} {g : GLState}
    (N : Numerics) (angle : ℚ) (hs : Shape (ListsReady st) m L g) :
    Shape (ListsReady (Geometry.Draw N st g angle).1) m L (Geometry.Draw N st g angle).2 := by
  obtain ⟨⟨hb, ht, hsp, hc⟩, hm, hL⟩ := hs
  dsimp only [Geometry.Draw]
  -- the base list
  obtain ⟨m1, l1, -, -, b1⟩ := createListIfNeeded_spec st.BaseList g baseListBody
  have t1 := Entry_after_create st.BaseList g baseListBody ht
  have s1 := Entry_after_create st.BaseList g baseListBody hsp
  have c1 := Entry_after_create st.BaseList g baseListBody hc
  replace b1 := b1 hb
  generalize createListIfNeeded st.BaseList g baseListBody = r1 at m1 l1 b1 t1 s1 c1 ⊢
  -- the torus list
  obtain ⟨m2, l2, -, -, t2⟩ := createListIfNeeded_spec st.TorusList r1.2 torusListBody
  have b2 := Compiled_after_create st.TorusList r1.2 torusListBody b1
  have s2 := Entry_after_create st.TorusList r1.2 torusListBody s1
  have c2 := Entry_after_create st.TorusList r1.2 torusListBody c1
  replace t2 := t2 t1
  generalize createListIfNeeded st.TorusList r1.2 torusListBody = r2 at m2 l2 b2 t2 s2 c2 ⊢
  -- the sphere list
  obtain ⟨m3, l3, -, -, s3⟩ := createListIfNeeded_spec st.SphereList r2.2 sphereListBody
  have b3 := Compiled_after_create st.SphereList r2.2 sphereListBody b2
  have t3 := Compiled_after_create st.SphereList r2.2 sphereListBody t2
  have c3 := Entry_after_create st.SphereList r2.2 sphereListBody c2
  replace s3 := s3 s2
  generalize createListIfNeeded st.SphereList r2.2 sphereListBody = r3 at m3 l3 b3 t3 s3 c3 ⊢
  -- the cone list
  obtain ⟨m4, l4, -, -, c4⟩ := createListIfNeeded_spec st.ConeList r3.2 coneListBody
  have b4 := Compiled_after_create st.ConeList r3.2 coneListBody b3
  have t4 := Compiled_after_create st.ConeList r3.2 coneListBody t3
  have s4 := Compiled_after_create st.ConeList r3.2 coneListBody s3
  replace c4 := c4 c3
  generalize createListIfNeeded st.ConeList r3.2 coneListBody = r4 at m4 l4 b4 t4 s4 c4 ⊢
  -- all four lists are compiled; mode and stacks are those of the start
  have start : Shape (AllCompiled ⟨r1.1, r3.1, r4.1, r2.1, st.angle⟩) m L r4.2 :=
    ⟨⟨b4, t4, s4, c4⟩, by rw [m4, m3, m2, m1, hm], by rw [l4, l3, l2, l1, hL]⟩
  apply Shape.allCompiled
  apply Shape.glPopMatrix
  apply Shape.callSphere
  apply Shape.glRotatef
  apply Shape.glPushMatrix
  apply Shape.callCone
  apply Shape.callTorus
  apply Shape.callBase
  exact start

theorem Shape.glGenTextures {P : Nat → (Nat → List GLCmd) → Prop} {m : MatrixMode}
    {L : Nat × Nat × Nat} {g : GLState} (hs : Shape P m L g) :
    Shape P m L (glGenTextures g).2 :=
  hs

theorem Shape.ready_initial (g : GLState) :
    ListsReady Statics.initial g.listNames g.lists :=
  ⟨Or.inl rfl, Or.inl rfl, Or.inl rfl, Or.inl rfl⟩

theorem GLApp_Draw_shape (N : Numerics) (a : GLApp) (angle : ℚ) {m : MatrixMode} {L : Nat × Nat × Nat}
    (hs : Shape (ListsReady a.statics) m L a.gl) :
    Shape (ListsReady (GLApp.Draw N a angle).statics) m L (GLApp.Draw N a angle).gl :=
  Shape.Draw N angle hs

theorem CreateShadowMap_shape (N : Numerics) (a : GLApp) (angle : ℚ) {m : MatrixMode} {L : Nat × Nat × Nat}
    (hs : Shape (ListsReady a.statics) m L a.gl) :
    Shape (ListsReady (CreateShadowMap N a angle).statics) .projection L
      (CreateShadowMap N a angle).gl := by
  dsimp only [CreateShadowMap, GLApp.Draw, Geometry.GetShadowTexObj]
  apply Shape.glEnable
  apply Shape.glEnable
  apply Shape.glShadeModel
  apply Shape.glCullFace
  apply Shape.glCopyTexImage2D
  apply Shape.glBindTexture
  apply Shape.glPopMatrix
  apply Shape.glMatrixMode
  apply Shape.glPopMatrix
  apply Shape.glColorMask
  apply Shape.glDisable
  apply Shape.Draw
  apply Shape.glLoadMatrixd
  apply Shape.glPolygonOffset
  apply Shape.glEnable
  apply Shape.glColorMask
  apply Shape.glPushMatrix
  apply Shape.glMatrixMode
  apply Shape.glLoadMatrixd
  apply Shape.glPushMatrix
  apply Shape.glMatrixMode
  apply Shape.glDisable
  apply Shape.glDisable
  apply Shape.glShadeModel
  apply Shape.glClear
  exact hs

theorem CreateTextureMatrix_shape (a : GLApp) {P : Nat → (Nat → List GLCmd) → Prop} {m : MatrixMode} {L : Nat × Nat × Nat}
    (hs : Shape P m L a.gl) : Shape P .texture L (CreateTextureMatrix a).gl := by
  dsimp only [CreateTextureMatrix]
  apply Shape.glTexGendv
  apply Shape.glTexGendv
  apply Shape.glTexGendv
  apply Shape.glTexGendv
  apply Shape.glPopMatrix
  apply Shape.glMultMatrixd
  apply Shape.glMultMatrixd
  apply Shape.glScaled
  apply Shape.glTranslated
  apply Shape.glLoadIdentity
  apply Shape.glPushMatrix
  apply Shape.glMatrixMode
  exact hs

theorem Reshape_shape (N : Numerics) (a : GLApp) (w h : Int)
    {P : Nat → (Nat → List GLCmd) → Prop} {m : MatrixMode} {L : Nat × Nat × Nat}
    (hs : Shape P m L a.gl) : Shape P .modelview L (Reshape N a w h).gl := by
  dsimp only [Reshape]
  apply Shape.glPopMatrix
  apply Shape.gluPerspective
  apply Shape.glLoadIdentity
  apply Shape.glPushMatrix
  apply Shape.glMatrixMode
  apply Shape.glViewport
  exact hs

theorem InitGraphics_shape (N : Numerics) (a : GLApp)
    {P : Nat → (Nat → List GLCmd) → Prop} {m : MatrixMode} {L : Nat × Nat × Nat}
    (hs : Shape P m L a.gl) : Shape P .modelview L (InitGraphics N a).gl := by
  dsimp only [InitGraphics, Reshape, Geometry.SetLights, Geometry.SetMaterials,
    Geometry.SetShadowTexture, Geometry.SetCameraPosition]
  apply Shape.glClearColor
  apply Shape.glEnable
  apply Shape.glPopMatrix
  apply Shape.gluLookAt
  apply Shape.glLoadIdentity
  apply Shape.gluPerspective
  apply Shape.glLoadIdentity
  apply Shape.gluLookAt
  apply Shape.glLoadIdentity
  apply Shape.gluPerspective
  apply Shape.glLoadIdentity
  apply Shape.glPushMatrix
  apply Shape.glMatrixMode
  apply Shape.glTexGeni
  apply Shape.glTexGeni
  apply Shape.glTexGeni
  apply Shape.glTexGeni
  apply Shape.glEnable
  apply Shape.glEnable
  apply Shape.glEnable
  apply Shape.glEnable
  apply Shape.glTexParameteri_wrapT
  apply Shape.glTexParameteri_wrapS
  apply Shape.glTexParameteri_magFilter
  apply Shape.glTexParameteri_minFilter
  apply Shape.glTexImage2D
  apply Shape.glBindTexture
  apply Shape.glGenTextures
  apply Shape.glMaterialf_shininess
  apply Shape.glMaterialfv_specular
  apply Shape.glEnable
  apply Shape.glColorMaterial
  apply Shape.glEnable
  apply Shape.glEnable
  apply Shape.glLightfv_position
  apply Shape.glPopMatrix
  apply Shape.gluPerspective
  apply Shape.glLoadIdentity
  apply Shape.glPushMatrix
  apply Shape.glMatrixMode
  apply Shape.glViewport
  exact hs

theorem Zoom_shape (N : Numerics) (a : GLApp) (d : ℚ)
    {P : Nat → (Nat → List GLCmd) → Prop} {m : MatrixMode} {L : Nat × Nat × Nat}
    (hs : Shape P m L a.gl) : Shape P m L (Zoom N a d).gl := by
  dsimp only [Zoom]
  apply Shape.gluLookAt
  apply Shape.glLoadIdentity
  exact hs

theorem Render_shape (N : Numerics) (a : GLApp) (dt : ℚ) {m : MatrixMode} {L : Nat × Nat × Nat}
    (hs : Shape (ListsReady a.statics) m L a.gl) :
    Shape (ListsReady (Render N a dt).statics) .modelview L (Render N a dt).gl := by
  have h0 : Shape (ListsReady { a.statics with angle := a.statics.angle + 50 * dt }) m L
      a.gl := hs
  have h1 := CreateShadowMap_shape N
    { a with statics := { a.statics with angle := a.statics.angle + 50 * dt } }
    (a.statics.angle + 50 * dt) h0
  have h2 := CreateTextureMatrix_shape _ h1
  dsimp only [Render, GLApp.Draw, Geometry.GetShadowTexObj]
  apply Shape.Draw
  apply Shape.glDisable
  apply Shape.glTexParameteri_compareFunc
  apply Shape.Draw
  apply Shape.glEnable
  apply Shape.glTexParameteri_compareFunc
  apply Shape.glTexParameteri_depthTextureMode
  apply Shape.glTexParameteri_compareMode
  apply Shape.glBindTexture
  apply Shape.glAlphaFunc
  apply Shape.glEnable
  apply Shape.glLoadMatrixd
  apply Shape.glMatrixMode
  apply Shape.glLoadMatrixd
  apply Shape.glMatrixMode
  apply Shape.glViewport
  apply Shape.glClear
  exact h2

theorem depths_of_saved {g g' : GLState} (h : g'.saved = g.saved) : g'.depths = g.depths := by
  simp only [GLState.saved, Prod.mk.injEq] at h
  simp only [GLState.depths, MatrixStack.depth, h.1, h.2.1, h.2.2]

theorem depths_of_shape {P Q : Nat → (Nat → List GLCmd) → Prop} {m m' : MatrixMode}
    {L : Nat × Nat × Nat} {g g' : GLState} (h : Shape P m L g) (h' : Shape Q m' L g') :
    g'.depths = g.depths :=
  depths_of_saved (h'.2.2.trans h.2.2.symm)

theorem Shape.any (g : GLState) : Shape (fun _ _ => True) g.matrixMode g.saved g :=
  ⟨trivial, rfl, rfl⟩

theorem step_shape (N : Numerics) (a : GLApp) (e : Event) {L : Nat × Nat × Nat}
    (hs : Shape (ListsReady a.statics) .modelview L a.gl) :
    Shape (ListsReady (step N a e).statics) .modelview L (step N a e).gl := by
  cases e with
  | render dt => exact Render_shape N a dt hs
  | resize w h =>
    exact Reshape_shape N { a with m_Width := w, m_Height := h } w h hs
  | zoom d => exact Zoom_shape N a d hs

theorem run_shape (N : Numerics) (evs : List Event) (a : GLApp) {L : Nat × Nat × Nat}
    (hs : Shape (ListsReady a.statics) .modelview L a.gl) :
    Shape (ListsReady (run N a evs).statics) .modelview L (run N a evs).gl := by
  induction evs generalizing a with
  | nil => exact hs
  | cons e es ih => exact ih _ (step_shape N a e hs)

theorem Started_shape (N : Numerics) (s : GLApp) (hs : Started N s) :
    Shape (ListsReady s.statics) .modelview (0, 0, 0) s.gl := by
  obtain ⟨width, height, light, camera, m1, m2, m3, m4, vw, vh, rfl⟩ := hs
  have h0 : Shape (ListsReady Statics.initial) .modelview (0, 0, 0) (GLState.initial vw vh) :=
    ⟨Shape.ready_initial _, rfl, rfl⟩
  exact InitGraphics_shape N (GLApp.fresh width height light camera m1 m2 m3 m4 vw vh) h0

theorem Reachable_shape (N : Numerics) (s : GLApp) (hs : Reachable N s) :
    Shape (ListsReady s.statics) .modelview (0, 0, 0) s.gl := by
  obtain ⟨s0, evs, h0, rfl⟩ := hs
  exact run_shape N evs s0 (Started_shape N s0 h0)

theorem step_shape_any (N : Numerics) (a : GLApp) (e : Event) {m : MatrixMode}
    {L : Nat × Nat × Nat} (hs : Shape (ListsReady a.statics) m L a.gl) :
    ∃ m2, Shape (ListsReady (step N a e).statics) m2 L (step N a e).gl := by
  cases e with
  | render dt => exact ⟨_, Render_shape N a dt hs⟩
  | resize w h =>
    exact ⟨_, Reshape_shape N { a with m_Width := w, m_Height := h } w h hs⟩
  | zoom d => exact ⟨_, Zoom_shape N a d hs⟩

theorem run_shape_any (N : Numerics) (evs : List Event) (a : GLApp) {m : MatrixMode}
    {L : Nat × Nat × Nat} (hs : Shape (ListsReady a.statics) m L a.gl) :
    ∃ m2, Shape (ListsReady (run N a evs).statics) m2 L (run N a evs).gl := by
  induction evs generalizing a m with
  | nil => exact ⟨m, hs⟩
  | cons e es ih =>
    obtain ⟨m1, h1⟩ := step_shape_any N a e hs
    exact ih _ h1

/-! ## GLfloat arithmetic: how a number is rounded -/

theorem roundHalfEven_eq (s : ℚ) (m : ℤ) (h : |s - m| < 1 / 2) : roundHalfEven s = m := by
  rw [abs_lt] at h
  obtain ⟨h1, h2⟩ := h
  unfold roundHalfEven
  by_cases hs : (m : ℚ) ≤ s
  · have hf : ⌊s⌋ = m := by
      rw [Int.floor_eq_iff]
      constructor
      · exact hs
      · linarith
    simp only [hf]
    rw [if_pos h2]
  · have hs' : s < m := not_le.mp hs
    have hf : ⌊s⌋ = m - 1 := by
      rw [Int.floor_eq_iff]
      push_cast
      constructor <;> linarith
    simp only [hf]
    push_cast
    rw [if_neg (by linarith), if_pos (by linarith)]
    ring

theorem roundHalfEven_err (s : ℚ) : |(roundHalfEven s : ℚ) - s| ≤ 1 / 2 := by
  have h1 : (⌊s⌋ : ℚ) ≤ s := Int.floor_le s
  have h2 : s < (⌊s⌋ : ℚ) + 1 := Int.lt_floor_add_one s
  unfold roundHalfEven
  rw [abs_le]
  dsimp only
  split_ifs with a b c
  · constructor <;> linarith
  · push_cast
    constructor <;> linarith
  · constructor <;> linarith
  · push_cast
    constructor <;> linarith

theorem log_two_eq {x : ℚ} (k : ℤ) (h1 : (2 : ℚ) ^ k ≤ x) (h2 : x < (2 : ℚ) ^ (k + 1)) :
    Int.log 2 x = k := by
  have hx : 0 < x := lt_of_lt_of_le (zpow_pos (by norm_num) k) h1
  have a1 : k ≤ Int.log 2 x := by
    rw [← Int.zpow_le_iff_le_log (by norm_num) hx]
    exact_mod_cast h1
  have a2 : Int.log 2 x < k + 1 := by
    rw [← Int.lt_zpow_iff_log_lt (by norm_num) hx]
    exact_mod_cast h2
  omega

/-- How a positive number in the normal range rounds: if `2 ^ k ≤ x < 2 ^ (k + 1)` and the
integer `m` is within 1/2 of `x / 2 ^ (k - 23)`, the `GLfloat` is `m * 2 ^ (k - 23)`. -/
theorem f32round_eq {x : ℚ} (k m : ℤ) (hk : -126 ≤ k) (h1 : (2 : ℚ) ^ k ≤ x)
    (h2 : x < (2 : ℚ) ^ (k + 1)) (hm : |x / 2 ^ (k - 23) - m| < 1 / 2) :
    f32round x = m * 2 ^ (k - 23) := by
  have hx : 0 < x := lt_of_lt_of_le (zpow_pos (by norm_num) k) h1
  unfold f32round
  rw [if_pos hx.le]
  unfold f32roundAbs
  rw [log_two_eq k h1 h2]
  have he : max (k - 23) (-149) = k - 23 := max_eq_left (by omega)
  simp only [he]
  rw [roundHalfEven_eq _ m hm]

theorem f32round_zero : f32round 0 = 0 := by
  simp [f32round, f32roundAbs, roundHalfEven]

theorem f32round_neg (x : ℚ) : f32round (-x) = -f32round x := by
  rcases lt_trichotomy x 0 with h | h | h
  · simp only [f32round, if_pos (neg_nonneg.mpr h.le), if_neg (not_le.mpr h), neg_neg]
  · subst h
    simp [f32round_zero]
  · have h1 : ¬ (0 ≤ -x) := by
      rw [not_le]
      linarith
    simp only [f32round, if_neg h1, if_pos h.le, neg_neg]

theorem f32roundAbs_err {x : ℚ} (hx : 0 < x) :
    |f32roundAbs x - x| ≤ max (x / 2 ^ 24) (1 / 2 ^ 150) := by
  have h1 : (2 : ℚ) ^ (Int.log 2 x) ≤ x := by
    have := Int.zpow_log_le_self (b := 2) (by norm_num) hx
    exact_mod_cast this
  unfold f32roundAbs
  dsimp only
  set k := Int.log 2 x with hk
  set e : ℤ := max (k - 23) (-149) with he
  have hpos : (0 : ℚ) < 2 ^ e := zpow_pos (by norm_num) e
  have hr := roundHalfEven_err (x / 2 ^ e)
  have key : |(roundHalfEven (x / 2 ^ e) : ℚ) * 2 ^ e - x| ≤ 2 ^ e / 2 := by
    have : (roundHalfEven (x / 2 ^ e) : ℚ) * 2 ^ e - x
        = ((roundHalfEven (x / 2 ^ e) : ℚ) - x / 2 ^ e) * 2 ^ e := by
      field_simp
    rw [this, abs_mul, abs_of_pos hpos]
    calc |(roundHalfEven (x / 2 ^ e) : ℚ) - x / 2 ^ e| * 2 ^ e ≤ 1 / 2 * 2 ^ e :=
          mul_le_mul_of_nonneg_right hr hpos.le
      _ = 2 ^ e / 2 := by ring
  refine key.trans ?_
  rcases le_total (k - 23) (-149) with hc | hc
  · have : e = -149 := by rw [he]; exact max_eq_right hc
    rw [this]
    refine le_trans ?_ (le_max_right _ _)
    norm_num
  · have : e = k - 23 := by rw [he]; exact max_eq_left hc
    rw [this]
    refine le_trans ?_ (le_max_left _ _)
    have h2 : (2 : ℚ) ^ (k - 23) / 2 = 2 ^ k / 2 ^ 24 := by
      rw [zpow_sub₀ (by norm_num)]
      norm_num
      ring
    rw [h2]
    exact div_le_div_of_nonneg_right h1 (by positivity)

/-- The error of rounding to `GLfloat`: at most the fraction `2 ^ -24` of the number, or
`2 ^ -150` for a number in the subnormal range. -/
theorem f32round_err (x : ℚ) : |f32round x - x| ≤ max (|x| / 2 ^ 24) (1 / 2 ^ 150) := by
  rcases lt_trichotomy x 0 with h | h | h
  · have h1 : ¬ (0 ≤ x) := not_le.mpr h
    have h2 := f32roundAbs_err (neg_pos.mpr h)
    simp only [f32round, if_neg h1, abs_of_neg h]
    have : -f32roundAbs (-x) - x = -(f32roundAbs (-x) - -x) := by ring
    rw [this, abs_neg]
    exact h2
  · subst h
    rw [f32round_zero]
    simp
  · have h2 := f32roundAbs_err h
    simp only [f32round, if_pos h.le, abs_of_pos h]
    exact h2

theorem roundHalfEven_tie (s : ℚ) (m : ℤ) (h : |s - m| = 1 / 2) (hm : m % 2 = 0) :
    roundHalfEven s = m := by
  unfold roundHalfEven
  rcases le_total (m : ℚ) s with hs | hs
  · rw [abs_of_nonneg (sub_nonneg.mpr hs)] at h
    have hf : ⌊s⌋ = m := by
      rw [Int.floor_eq_iff]
      constructor <;> linarith
    simp only [hf]
    rw [if_neg (by linarith), if_neg (by linarith), if_pos hm]
  · rw [abs_of_nonpos (sub_nonpos.mpr hs)] at h
    have hf : ⌊s⌋ = m - 1 := by
      rw [Int.floor_eq_iff]
      push_cast
      constructor <;> linarith
    simp only [hf]
    push_cast
    rw [if_neg (by linarith), if_neg (by linarith), if_neg (by omega)]
    ring

/-- How a positive number half-way between two neighbouring `GLfloat` values rounds: to the
one with the even multiplier. -/
theorem f32round_eq_tie {x : ℚ} (k m : ℤ) (hk : -126 ≤ k) (h1 : (2 : ℚ) ^ k ≤ x)
    (h2 : x < (2 : ℚ) ^ (k + 1)) (hm : |x / 2 ^ (k - 23) - m| = 1 / 2) (hev : m % 2 = 0) :
    f32round x = m * 2 ^ (k - 23) := by
  have hx : 0 < x := lt_of_lt_of_le (zpow_pos (by norm_num) k) h1
  unfold f32round
  rw [if_pos hx.le]
  unfold f32roundAbs
  rw [log_two_eq k h1 h2]
  have he : max (k - 23) (-149) = k - 23 := max_eq_left (by omega)
  simp only [he]
  rw [roundHalfEven_tie _ m hm hev]

theorem f32round_bounds {x : ℚ} (hx : (2 : ℚ) ^ (-126 : ℤ) ≤ x) :
    x * (1 - 1 / 2 ^ 24) ≤ f32round x ∧ f32round x ≤ x * (1 + 1 / 2 ^ 24) := by
  have h0 : (0 : ℚ) < x := lt_of_lt_of_le (zpow_pos (by norm_num) _) hx
  have h := f32round_err x
  rw [abs_of_pos h0] at h
  have hm : max (x / 2 ^ 24) (1 / 2 ^ 150) = x / 2 ^ 24 := by
    apply max_eq_left
    have : (1 : ℚ) / 2 ^ 150 = 2 ^ (-126 : ℤ) / 2 ^ 24 := by norm_num
    rw [this]
    exact div_le_div_of_nonneg_right hx (by positivity)
  rw [hm, abs_le] at h
  constructor <;> linarith [h.1, h.2]

theorem f32round_pos {x : ℚ} (hx : (2 : ℚ) ^ (-126 : ℤ) ≤ x) : 0 < f32round x := by
  have h0 : (0 : ℚ) < x := lt_of_lt_of_le (zpow_pos (by norm_num) _) hx
  have h := (f32round_bounds hx).1
  have : 0 < x * (1 - 1 / 2 ^ 24) := mul_pos h0 (by norm_num)
  linarith

/-- A positive integer below `2 ^ 24` is a `GLfloat`: the conversion `(float)n` is exact. -/
theorem f32ofInt_exact (n : Int) (h0 : 0 < n) (h1 : n < 2 ^ 24) : f32ofInt n = n := by
  have hq : (0 : ℚ) < n := by exact_mod_cast h0
  have hlo : (2 : ℚ) ^ (Int.log 2 (n : ℚ)) ≤ n := by
    have := Int.zpow_log_le_self (b := 2) (by norm_num) hq
    exact_mod_cast this
  have hhi : (n : ℚ) < (2 : ℚ) ^ (Int.log 2 (n : ℚ) + 1) := by
    have := Int.lt_zpow_succ_log_self (b := 2) (by norm_num) (n : ℚ)
    exact_mod_cast this
  have hk0 : 0 ≤ Int.log 2 (n : ℚ) := by
    rw [← Int.zpow_le_iff_le_log (by norm_num) hq]
    have : (1 : ℚ) ≤ n := by exact_mod_cast h0
    simpa using this
  have hk1 : Int.log 2 (n : ℚ) < 24 := by
    rw [← Int.lt_zpow_iff_log_lt (by norm_num) hq]
    have : (n : ℚ) < 2 ^ 24 := by exact_mod_cast h1
    exact_mod_cast this
  set k := Int.log 2 (n : ℚ) with hk
  have hp : ((2 : ℚ) ^ (23 - k).toNat) = (2 : ℚ) ^ (23 - k) := by
    rw [← zpow_natCast, Int.toNat_of_nonneg (by omega)]
  have hmul : ((n * 2 ^ (23 - k).toNat : ℤ) : ℚ) * 2 ^ (k - 23) = n := by
    push_cast
    rw [hp, mul_assoc, ← zpow_add₀ (by norm_num)]
    simp
  unfold f32ofInt
  rw [f32round_eq k (n * 2 ^ (23 - k).toNat) (by omega) hlo hhi ?_, hmul]
  have : (n : ℚ) / 2 ^ (k - 23) = ((n * 2 ^ (23 - k).toNat : ℤ) : ℚ) := by
    push_cast
    rw [hp, div_eq_mul_inv, ← zpow_neg]
    congr 2
    ring
  rw [this, sub_self, abs_zero]
  norm_num

theorem f32ofInt_pos (n : Int) (h0 : 0 < n) : 1 / 2 ≤ f32ofInt n ∧ f32ofInt n ≤ 2 * n := by
  have h1 : (1 : ℚ) ≤ n := by exact_mod_cast h0
  have hx : (2 : ℚ) ^ (-126 : ℤ) ≤ n := le_trans (by norm_num) h1
  obtain ⟨a, b⟩ := f32round_bounds hx
  unfold f32ofInt
  constructor
  · have : (1 : ℚ) / 2 ≤ n * (1 - 1 / 2 ^ 24) := by nlinarith
    linarith
  · have : (n : ℚ) * (1 + 1 / 2 ^ 24) ≤ 2 * n := by nlinarith
    linarith

/-- The `GLfloat` aspect of a viewport whose sides are positive C `int`s is positive. -/
theorem aspect32_pos (w h : Int) (hw : 0 < w) (hh : 0 < h) (hh2 : h < 2 ^ 31) :
    0 < f32div (f32ofInt w) (f32ofInt h) := by
  obtain ⟨a1, _⟩ := f32ofInt_pos w hw
  obtain ⟨b1, b2⟩ := f32ofInt_pos h hh
  have hq : (h : ℚ) < 2 ^ 31 := by exact_mod_cast hh2
  have hb : 0 < f32ofInt h := by linarith
  unfold f32div
  apply f32round_pos
  rw [le_div_iff₀ hb]
  calc (2 : ℚ) ^ (-126 : ℤ) * f32ofInt h ≤ 2 ^ (-126 : ℤ) * 2 ^ 32 :=
        mul_le_mul_of_nonneg_left (by linarith) (by positivity)
    _ ≤ 1 / 2 := by norm_num
    _ ≤ f32ofInt w := a1

/-- For sides below `2 ^ 24` the `GLfloat` aspect is the rounded quotient `w / h`, within
the fraction `2 ^ -24` of it. -/
theorem aspect32_err (w h : Int) (hw : 0 < w) (hh : 0 < h) (hw2 : w < 2 ^ 24)
    (hh2 : h < 2 ^ 24) :
    f32div (f32ofInt w) (f32ofInt h) = f32round ((w : ℚ) / (h : ℚ))
      ∧ |f32div (f32ofInt w) (f32ofInt h) - (w : ℚ) / (h : ℚ)| ≤ (w : ℚ) / (h : ℚ) / 2 ^ 24 := by
  have e : f32div (f32ofInt w) (f32ofInt h) = f32round ((w : ℚ) / (h : ℚ)) := by
    rw [f32ofInt_exact w hw hw2, f32ofInt_exact h hh hh2]
    rfl
  refine ⟨e, ?_⟩
  rw [e]
  have h1 : (1 : ℚ) ≤ w := by exact_mod_cast hw
  have h2 : (0 : ℚ) < h := by exact_mod_cast hh
  have h3 : (h : ℚ) < 2 ^ 24 := by exact_mod_cast hh2
  have hx : (2 : ℚ) ^ (-126 : ℤ) ≤ (w : ℚ) / (h : ℚ) := by
    rw [le_div_iff₀ h2]
    calc (2 : ℚ) ^ (-126 : ℤ) * h ≤ 2 ^ (-126 : ℤ) * 2 ^ 24 :=
          mul_le_mul_of_nonneg_left h3.le (by positivity)
      _ ≤ 1 := by norm_num
      _ ≤ w := h1
  obtain ⟨a, b⟩ := f32round_bounds hx
  rw [abs_le]
  constructor <;> linarith

theorem perspective_ratio (N : Numerics) (aspect : ℚ) (hc : N.cotHalfDeg 45 ≠ 0) :
    toMatrix (perspective N 45 aspect 1 100) 1 1 / toMatrix (perspective N 45 aspect 1 100) 0 0
      = aspect := by
  show N.cotHalfDeg 45 / (N.cotHalfDeg 45 / aspect) = aspect
  field_simp

/-- How a positive number below the normal range rounds: to a multiple of `2 ^ -149`, the
spacing of the subnormal numbers. -/
theorem f32round_eq_subnormal {x : ℚ} (k m : ℤ) (hk : k ≤ -126) (h1 : (2 : ℚ) ^ k ≤ x)
    (h2 : x < (2 : ℚ) ^ (k + 1)) (hm : |x / 2 ^ (-149 : ℤ) - m| < 1 / 2) :
    f32round x = m * 2 ^ (-149 : ℤ) := by
  have hx : 0 < x := lt_of_lt_of_le (zpow_pos (by norm_num) k) h1
  unfold f32round
  rw [if_pos hx.le]
  unfold f32roundAbs
  rw [log_two_eq k h1 h2]
  have he : max (k - 23) (-149) = -149 := max_eq_right (by omega)
  simp only [he]
  rw [roundHalfEven_eq _ m hm]

/-- The smallest positive `GLfloat` is `2 ^ -149`; a quarter of it rounds to 0 and three
quarters of it round to it. -/
theorem f32round_underflow :
    f32round (1 / 2 ^ 151) = 0 ∧ f32round (3 / 2 ^ 151) = 1 / 2 ^ 149 := by
  constructor
  · rw [f32round_eq_subnormal (-151) 0 (by norm_num) (by norm_num) (by norm_num)
      (by rw [abs_lt]; constructor <;> norm_num)]
    norm_num
  · rw [f32round_eq_subnormal (-150) 1 (by norm_num) (by norm_num) (by norm_num)
      (by rw [abs_lt]; constructor <;> norm_num)]
    norm_num

/-- A `GLfloat` of `2 ^ 24` or more, which is `m * 2 ^ e` with `2 ^ 23 ≤ m < 2 ^ 24` and
`1 ≤ e`, absorbs an addend that is non-negative and below 1. -/
theorem f32add_absorbs (m : ℤ) (e : ℕ) (hm1 : 2 ^ 23 ≤ m) (hm2 : m < 2 ^ 24) (he : 1 ≤ e)
    (y : ℚ) (hy0 : 0 ≤ y) (hy1 : y < 1) :
    f32add ((m : ℚ) * 2 ^ e) y = (m : ℚ) * 2 ^ e := by
  have q1 : (2 : ℚ) ^ 23 ≤ m := by exact_mod_cast hm1
  have q2 : (m : ℚ) + 1 ≤ 2 ^ 24 := by exact_mod_cast (Int.add_one_le_iff.mpr hm2)
  have p0 : (0 : ℚ) < 2 ^ e := by positivity
  have p1 : (2 : ℚ) ≤ 2 ^ e := by
    calc (2 : ℚ) = 2 ^ 1 := by norm_num
      _ ≤ 2 ^ e := pow_le_pow_right₀ (by norm_num) he
  have z1 : (2 : ℚ) ^ ((e : ℤ) + 23) = 2 ^ 23 * 2 ^ e := by
    rw [zpow_add₀ (by norm_num), zpow_natCast]
    norm_num
    ring
  have z2 : (2 : ℚ) ^ ((e : ℤ) + 23 + 1) = 2 ^ 24 * 2 ^ e := by
    rw [zpow_add₀ (by norm_num), z1]
    norm_num
    ring
  have z3 : (2 : ℚ) ^ ((e : ℤ) + 23 - 23) = 2 ^ e := by
    rw [add_sub_cancel_right, zpow_natCast]
  unfold f32add
  rw [f32round_eq ((e : ℤ) + 23) m (by omega) ?_ ?_ ?_, z3]
  · rw [z1]
    nlinarith
  · rw [z2]
    nlinarith
  · rw [z3]
    have : ((m : ℚ) * 2 ^ e + y) / 2 ^ e - m = y / 2 ^ e := by
      field_simp
      ring
    rw [this, abs_of_nonneg (div_nonneg hy0 p0.le), div_lt_iff₀ p0]
    linarith

/-! ## GLfloat arithmetic: the values of the examples -/

theorem f32round_tenth : f32round (1/10) = 13421773/134217728 := by
  rw [f32round_eq (-4) 13421773 (by norm_num) (by norm_num) (by norm_num)
    (by rw [abs_lt]; constructor <;> norm_num)]
  norm_num

theorem f32add_five_tenth : f32add 5 (13421773/134217728) = 10695475/2097152 := by
  unfold f32add
  rw [f32round_eq (2) 10695475 (by norm_num) (by norm_num) (by norm_num)
    (by rw [abs_lt]; constructor <;> norm_num)]
  norm_num

theorem f32sub_five_tenth : f32add 5 (-(13421773/134217728)) = 10276045/2097152 := by
  unfold f32add
  rw [f32round_eq (2) 10276045 (by norm_num) (by norm_num) (by norm_num)
    (by rw [abs_lt]; constructor <;> norm_num)]
  norm_num

theorem f32ofInt_800 : f32ofInt 800 = 800 := by
  unfold f32ofInt
  rw [f32round_eq (9) 13107200 (by norm_num) (by norm_num) (by norm_num)
    (by rw [abs_lt]; constructor <;> norm_num)]
  norm_num

theorem f32ofInt_600 : f32ofInt 600 = 600 := by
  unfold f32ofInt
  rw [f32round_eq (9) 9830400 (by norm_num) (by norm_num) (by norm_num)
    (by rw [abs_lt]; constructor <;> norm_num)]
  norm_num

theorem f32div_800_600 : f32div 800 600 = 11184811/8388608 := by
  unfold f32div
  rw [f32round_eq (0) 11184811 (by norm_num) (by norm_num) (by norm_num)
    (by rw [abs_lt]; constructor <;> norm_num)]
  norm_num

theorem f32round_sixtieth : f32round (1/60) = 8947849/536870912 := by
  rw [f32round_eq (-6) 8947849 (by norm_num) (by norm_num) (by norm_num)
    (by rw [abs_lt]; constructor <;> norm_num)]
  norm_num

theorem f32mul_fifty_sixtieth : f32mul 50 (8947849/536870912) = 6990507/8388608 := by
  unfold f32mul
  rw [f32round_eq (-1) 13981014 (by norm_num) (by norm_num) (by norm_num)
    (by rw [abs_lt]; constructor <;> norm_num)]
  norm_num

theorem f32add_frame_1 : f32add 0 (6990507/8388608) = 6990507/8388608 := by
  unfold f32add
  rw [f32round_eq (-1) 13981014 (by norm_num) (by norm_num) (by norm_num)
    (by rw [abs_lt]; constructor <;> norm_num)]
  norm_num

theorem f32add_frame_2 : f32add (6990507/8388608) (6990507/8388608) = 6990507/4194304 := by
  unfold f32add
  rw [f32round_eq (0) 13981014 (by norm_num) (by norm_num) (by norm_num)
    (by rw [abs_lt]; constructor <;> norm_num)]
  norm_num

theorem f32add_frame_3 : f32add (6990507/4194304) (6990507/8388608) = 5/2 := by
  unfold f32add
  rw [f32round_eq_tie (1) 10485760 (by norm_num) (by norm_num) (by norm_num)
    (by norm_num [abs_of_pos, abs_of_neg]) (by decide)]
  norm_num

theorem f32add_frame_4 : f32add (5/2) (6990507/8388608) = 6990507/2097152 := by
  unfold f32add
  rw [f32round_eq_tie (1) 13981014 (by norm_num) (by norm_num) (by norm_num)
    (by norm_num [abs_of_pos, abs_of_neg]) (by decide)]
  norm_num

theorem f32add_frame_5 : f32add (6990507/2097152) (6990507/8388608) = 4369067/1048576 := by
  unfold f32add
  rw [f32round_eq (2) 8738134 (by norm_num) (by norm_num) (by norm_num)
    (by rw [abs_lt]; constructor <;> norm_num)]
  norm_num

theorem f32add_frame_6 : f32add (4369067/1048576) (6990507/8388608) = 10485761/2097152 := by
  unfold f32add
  rw [f32round_eq (2) 10485761 (by norm_num) (by norm_num) (by norm_num)
    (by rw [abs_lt]; constructor <;> norm_num)]
  norm_num

theorem f32add_frame_7 : f32add (10485761/2097152) (6990507/8388608) = 3058347/524288 := by
  unfold f32add
  rw [f32round_eq (2) 12233388 (by norm_num) (by norm_num) (by norm_num)
    (by rw [abs_lt]; constructor <;> norm_num)]
  norm_num

theorem f32add_frame_8 : f32add (3058347/524288) (6990507/8388608) = 13981015/2097152 := by
  unfold f32add
  rw [f32round_eq (2) 13981015 (by norm_num) (by norm_num) (by norm_num)
    (by rw [abs_lt]; constructor <;> norm_num)]
  norm_num

theorem f32add_frame_9 : f32add (13981015/2097152) (6990507/8388608) = 7864321/1048576 := by
  unfold f32add
  rw [f32round_eq (2) 15728642 (by norm_num) (by norm_num) (by norm_num)
    (by rw [abs_lt]; constructor <;> norm_num)]
  norm_num

theorem f32add_frame_10 : f32add (7864321/1048576) (6990507/8388608) = 4369067/524288 := by
  unfold f32add
  rw [f32round_eq (3) 8738134 (by norm_num) (by norm_num) (by norm_num)
    (by rw [abs_lt]; constructor <;> norm_num)]
  norm_num

theorem f32add_absorbed : f32add 16777216 (6990507/8388608) = 16777216 := by
  unfold f32add
  rw [f32round_eq (24) 8388608 (by norm_num) (by norm_num) (by norm_num)
    (by rw [abs_lt]; constructor <;> norm_num)]
  norm_num

theorem f32mul_fifty_long : f32mul 50 524288 = 26214400 := by
  unfold f32mul
  rw [f32round_eq (24) 13107200 (by norm_num) (by norm_num) (by norm_num)
    (by rw [abs_lt]; constructor <;> norm_num)]
  norm_num

theorem f32add_zero_long : f32add 0 26214400 = 26214400 := by
  unfold f32add
  rw [f32round_eq (24) 13107200 (by norm_num) (by norm_num) (by norm_num)
    (by rw [abs_lt]; constructor <;> norm_num)]
  norm_num

theorem f32add_long_absorbed : f32add 26214400 (6990507/8388608) = 26214400 := by
  unfold f32add
  rw [f32round_eq (24) 13107200 (by norm_num) (by norm_num) (by norm_num)
    (by rw [abs_lt]; constructor <;> norm_num)]
  norm_num

/-! ## The events in GLfloat arithmetic -/

theorem Render32_eq_Render (N : Numerics) (a : GLApp) (dt : ℚ) :
    Render32 N a dt
      = Render N a ((f32add a.statics.angle (f32mul 50 dt) - a.statics.angle) / 50) := by
  have h : a.statics.angle + 50 * ((f32add a.statics.angle (f32mul 50 dt) - a.statics.angle) / 50)
      = f32add a.statics.angle (f32mul 50 dt) := by
    field_simp
  unfold Render32 Render
  rw [h]

theorem Render32_angle (N : Numerics) (a : GLApp) (dt : ℚ) :
    (Render32 N a dt).statics.angle = f32add a.statics.angle (f32mul 50 dt) := by
  rw [Render32_eq_Render, Render_angle]
  field_simp

theorem Render32_mode (N : Numerics) (a : GLApp) (dt : ℚ) :
    (Render32 N a dt).gl.matrixMode = .modelview := by
  rw [Render32_eq_Render]
  exact (Render_settled N a _).1

theorem Render32_draws (N : Numerics) (a : GLApp) (dt : ℚ) :
    (Render32 N a dt).draws = a.draws ++ frameDraws32 N a dt := by
  unfold frameDraws32
  rw [Render32_eq_Render]
  exact Render_draws N a _

theorem frameDraws32_angle (N : Numerics) (a : GLApp) (dt : ℚ) :
    (frameDraws32 N a dt).map DrawCall.angle
      = [f32add a.statics.angle (f32mul 50 dt), f32add a.statics.angle (f32mul 50 dt),
         f32add a.statics.angle (f32mul 50 dt)] := by
  have h : a.statics.angle + 50 * ((f32add a.statics.angle (f32mul 50 dt) - a.statics.angle) / 50)
      = f32add a.statics.angle (f32mul 50 dt) := by
    field_simp
  unfold frameDraws32
  rw [Render32_eq_Render]
  have h2 := frameDraws_angle N a ((f32add a.statics.angle (f32mul 50 dt) - a.statics.angle) / 50)
  rw [h] at h2
  exact h2

theorem Zoom32_mode (N : Numerics) (a : GLApp) (d : ℚ) :
    (Zoom32 N a d).gl.matrixMode = a.gl.matrixMode := by
  dsimp only [Zoom32]
  exact ((setCurrent_keepsRaster _ _).trans (setCurrent_keepsRaster _ _)).matrixMode

theorem step32_mode (N : Numerics) (a : GLApp) (e : Event) (ha : a.gl.matrixMode = .modelview) :
    (step32 N a e).gl.matrixMode = .modelview := by
  cases e with
  | render dt => exact Render32_mode N a dt
  | resize w h => rfl
  | zoom d => exact (Zoom32_mode N a d).trans ha

theorem run32_mode (N : Numerics) (evs : List Event) (a : GLApp)
    (ha : a.gl.matrixMode = .modelview) : (run32 N a evs).gl.matrixMode = .modelview := by
  induction evs generalizing a with
  | nil => exact ha
  | cons e es ih => exact ih _ (step32_mode N a e ha)

theorem Started32_mode (N : Numerics) (s : GLApp) (hs : Started32 N s) :
    s.gl.matrixMode = .modelview := by
  obtain ⟨width, height, light, camera, m1, m2, m3, m4, vw, vh, rfl⟩ := hs
  rfl

theorem Reachable32_mode (N : Numerics) (s : GLApp) (hs : Reachable32 N s) :
    s.gl.matrixMode = .modelview := by
  obtain ⟨s0, evs, h0, rfl⟩ := hs
  exact run32_mode N evs s0 (Started32_mode N s0 h0)

theorem Started32_angle (N : Numerics) (s : GLApp) (hs : Started32 N s) :
    s.statics.angle = 0 := by
  obtain ⟨width, height, light, camera, m1, m2, m3, m4, vw, vh, rfl⟩ := hs
  rfl

theorem run32_angle (N : Numerics) (evs : List Event) (a : GLApp) :
    (run32 N a evs).statics.angle = accum32 a.statics.angle (renderTimes evs) := by
  induction evs generalizing a with
  | nil => rfl
  | cons e es ih =>
    have h := ih (step32 N a e)
    simp only [run32, List.foldl_cons] at h ⊢
    rw [h]
    cases e with
    | render dt => simp only [step32, renderTimes, accum32, Render32_angle]
    | resize w h => rfl
    | zoom d => rfl

theorem InitGraphics32_camera (N : Numerics) (a : GLApp) :
    (InitGraphics32 N a).m_Geometry.GetCameraPosition = ![5, 5, 5] := by
  funext i
  fin_cases i <;> rfl

theorem Zoom32_GetCameraPosition (N : Numerics) (a : GLApp) (d : ℚ) (i : Fin 3) :
    (Zoom32 N a d).m_Geometry.GetCameraPosition i
      = f32add (a.m_Geometry.GetCameraPosition i) d := by
  fin_cases i <;> rfl

theorem Zoom32_view (N : Numerics) (a : GLApp) (d : ℚ) (ha : a.gl.matrixMode = .modelview) :
    (Zoom32 N a d).m_CameraViewMatrix
        = matMul identity16
            (N.lookAt (Zoom32 N a d).m_Geometry.GetCameraPosition ![0, 0, 0] ![0, 1, 0])
      ∧ (Zoom32 N a d).gl.modelview.top = (Zoom32 N a d).m_CameraViewMatrix
      ∧ (Zoom32 N a d).gl.projection = a.gl.projection
      ∧ (Zoom32 N a d).gl.texture = a.gl.texture := by
  refine ⟨?_, ?_, ?_, ?_⟩
  · simp only [Zoom32, glLoadIdentity, glLoadMatrixd, gluLookAt, glMultMatrixd,
      GLState.setCurrent, GLState.current, glGetDoublev, ha]
    rfl
  · simp only [Zoom32, glLoadIdentity, glLoadMatrixd, gluLookAt, glMultMatrixd,
      GLState.setCurrent, GLState.current, glGetDoublev, ha]
  · simp only [Zoom32, glLoadIdentity, glLoadMatrixd, gluLookAt, glMultMatrixd,
      GLState.setCurrent, GLState.current, glGetDoublev, ha]
  · simp only [Zoom32, glLoadIdentity, glLoadMatrixd, gluLookAt, glMultMatrixd,
      GLState.setCurrent, GLState.current, glGetDoublev, ha]

theorem Reshape32_projection (N : Numerics) (a : GLApp) (w h : Int) :
    (Reshape32 N a w h).m_CameraProjectionMatrix
      = perspective N 45 (f32div (f32ofInt w) (f32ofInt h)) 1 100 := by
  show matMul identity16 (perspective N 45 (f32div (f32ofInt w) (f32ofInt h)) 1 100) = _
  rw [matMul_identity16_left]

theorem InitGraphics32_projection (N : Numerics) (a : GLApp) :
    (InitGraphics32 N a).m_CameraProjectionMatrix
      = perspective N 45 (f32div (f32ofInt a.m_Width) (f32ofInt a.m_Height)) 1 100 := by
  show matMul identity16
    (perspective N 45 (f32div (f32ofInt a.m_Width) (f32ofInt a.m_Height)) 1 100) = _
  rw [matMul_identity16_left]

theorem aspect32_finite (w h : Int) (hw : 0 < w) (hh : 0 < h) (hw2 : w < 2 ^ 31)
    (hh2 : h < 2 ^ 31) : f32finite (f32div (f32ofInt w) (f32ofInt h)) := by
  obtain ⟨a1, a2⟩ := f32ofInt_pos w hw
  obtain ⟨b1, b2⟩ := f32ofInt_pos h hh
  have hq : (w : ℚ) < 2 ^ 31 := by exact_mod_cast hw2
  have hb : 0 < f32ofInt h := by linarith
  have hpos := aspect32_pos w h hw hh hh2
  have hx : (2 : ℚ) ^ (-126 : ℤ) ≤ f32ofInt w / f32ofInt h := by
    rw [le_div_iff₀ hb]
    have hq2 : (h : ℚ) < 2 ^ 31 := by exact_mod_cast hh2
    calc (2 : ℚ) ^ (-126 : ℤ) * f32ofInt h ≤ 2 ^ (-126 : ℤ) * 2 ^ 32 :=
          mul_le_mul_of_nonneg_left (by linarith) (by positivity)
      _ ≤ 1 / 2 := by norm_num
      _ ≤ f32ofInt w := a1
  have hu : f32ofInt w / f32ofInt h ≤ 2 ^ 33 := by
    rw [div_le_iff₀ hb]
    nlinarith
  have hb2 := (f32round_bounds hx).2
  unfold f32finite
  rw [abs_of_pos hpos]
  unfold f32div at hpos ⊢
  have : f32ofInt w / f32ofInt h * (1 + 1 / 2 ^ 24) ≤ 2 ^ 33 * (1 + 1 / 2 ^ 24) :=
    mul_le_mul_of_nonneg_right hu (by norm_num)
  have e : (2 : ℚ) ^ 33 * (1 + 1 / 2 ^ 24) < 2 ^ 128 := by norm_num
  linarith

theorem accum32_finite (dts : List ℚ) (angle : ℚ) (h0 : f32finite angle)
    (h : accumFinite32 angle dts) : f32finite (accum32 angle dts) := by
  induction dts generalizing angle with
  | nil => exact h0
  | cons dt dts ih => exact ih _ h.2.1 h.2.2

theorem accum32_ten :
    accum32 0 (List.replicate 10 (f32round (1/60))) = 4369067 / 524288 := by
  rw [f32round_sixtieth]
  show accum32 0 [8947849/536870912, 8947849/536870912, 8947849/536870912,
    8947849/536870912, 8947849/536870912, 8947849/536870912, 8947849/536870912,
    8947849/536870912, 8947849/536870912, 8947849/536870912] = _
  simp only [accum32, f32mul_fifty_sixtieth, f32add_frame_1, f32add_frame_2, f32add_frame_3,
    f32add_frame_4, f32add_frame_5, f32add_frame_6, f32add_frame_7, f32add_frame_8,
    f32add_frame_9, f32add_frame_10]

theorem renderTimes_replicate (n : Nat) (dt : ℚ) :
    renderTimes (List.replicate n (Event.render dt)) = List.replicate n dt := by
  rw [← List.map_replicate, renderTimes_map_render]

theorem Render32_angle_err (N : Numerics) (a : GLApp) (dt : ℚ) :
    |(Render32 N a dt).statics.angle - (a.statics.angle + 50 * dt)|
      ≤ max (|50 * dt| / 2 ^ 24) (1 / 2 ^ 150)
        + max (|a.statics.angle + f32mul 50 dt| / 2 ^ 24) (1 / 2 ^ 150) := by
  rw [Render32_angle]
  have h1 := f32round_err (50 * dt)
  have h2 := f32round_err (a.statics.angle + f32mul 50 dt)
  have e : f32add a.statics.angle (f32mul 50 dt) - (a.statics.angle + 50 * dt)
      = (f32round (a.statics.angle + f32mul 50 dt) - (a.statics.angle + f32mul 50 dt))
        + (f32round (50 * dt) - 50 * dt) := by
    unfold f32add f32mul
    ring
  rw [e]
  refine (abs_add _ _).trans ?_
  linarith

theorem sampleStarted32_camera (i : Fin 3) :
    sampleStarted32.m_Geometry.GetCameraPosition i = 5 := by
  fin_cases i <;> rfl

theorem sampleStarted32_reachable : Reachable32 sampleNumerics sampleStarted32 :=
  ⟨sampleStarted32, [], ⟨800, 600, _, _, _, _, _, _, 800, 600, rfl⟩, rfl⟩

theorem sampleZoom32 (i : Fin 3) :
    (Zoom32 sampleNumerics sampleStarted32 (f32round (1/10))).m_Geometry.GetCameraPosition i
      = 10695475 / 2097152 := by
  rw [Zoom32_GetCameraPosition, sampleStarted32_camera, f32round_tenth, f32add_five_tenth]

theorem sampleAspect32 : f32div (f32ofInt 800) (f32ofInt 600) = 11184811 / 8388608 := by
  rw [f32ofInt_800, f32ofInt_600, f32div_800_600]

theorem sampleZoomIn32 (i : Fin 3) :
    (Zoom32 sampleNumerics sampleStarted32 (f32round (-(1/10)))).m_Geometry.GetCameraPosition i
      = 10276045 / 2097152 := by
  rw [Zoom32_GetCameraPosition, sampleStarted32_camera, f32round_neg, f32round_tenth,
    f32sub_five_tenth]

theorem accum32_long :
    accum32 0 [524288] = 26214400 ∧ accum32 0 [524288, f32round (1/60)] = 26214400 := by
  rw [f32round_sixtieth]
  simp only [accum32, f32mul_fifty_long, f32add_zero_long, f32mul_fifty_sixtieth,
    f32add_long_absorbed, and_self]

/-! ## Where rounding makes a difference -/

theorem Reshape32_gl (N : Numerics) (a : GLApp) (w h : Int) :
    (Reshape32 N a w h).gl = (Reshape N a w h).gl := by
  simp [Reshape32, Reshape, glPopMatrix, gluPerspective, glMultMatrixd, glLoadIdentity,
    glLoadMatrixd, glPushMatrix, glMatrixMode, glViewport, GLState.setCurrent,
    GLState.current, MatrixStack.pop, MatrixStack.push]

/-- `Reshape` in `GLfloat` arithmetic and in exact arithmetic differ in `CameraProjection`
only. -/
theorem Reshape32_eq (N : Numerics) (a : GLApp) (w h : Int) :
    Reshape32 N a w h
      = { Reshape N a w h with
          m_CameraProjectionMatrix := (Reshape32 N a w h).m_CameraProjectionMatrix } := by
  have h1 := Reshape32_gl N a w h
  simp only [Reshape32, Reshape] at h1 ⊢
  rw [h1]

theorem InitGraphics32_gl (N : Numerics) (a : GLApp) :
    (InitGraphics32 N a).gl = (InitGraphics N a).gl := by
  simp [InitGraphics32, InitGraphics, Reshape32, Reshape, Geometry.SetLights,
    Geometry.SetMaterials, Geometry.SetShadowTexture, Geometry.SetCameraPosition,
    glGenTextures, glBindTexture, glTexImage2D, glTexParameteri_minFilter,
    glTexParameteri_magFilter, glTexParameteri_wrapS, glTexParameteri_wrapT, glEnable,
    glTexGeni, glMatrixMode, glPushMatrix, glPopMatrix, glLoadIdentity, glLoadMatrixd,
    gluPerspective, gluLookAt, glMultMatrixd, glClearColor, glViewport, glLightfv_position,
    glColorMaterial, glMaterialfv_specular, glMaterialf_shininess, GLState.setCurrent,
    GLState.modifyBound, GLState.current, MatrixStack.pop, MatrixStack.push]

/-- `InitGraphics` in `GLfloat` arithmetic and in exact arithmetic differ in
`CameraProjection` only. -/
theorem InitGraphics32_eq (N : Numerics) (a : GLApp) :
    InitGraphics32 N a
      = { InitGraphics N a with
          m_CameraProjectionMatrix := (InitGraphics32 N a).m_CameraProjectionMatrix } := by
  have h1 := InitGraphics32_gl N a
  have h2 : (InitGraphics32 N a).m_Geometry = (InitGraphics N a).m_Geometry := by
    simp [InitGraphics32, InitGraphics, Reshape32, Reshape, Geometry.SetLights,
      Geometry.SetMaterials, Geometry.SetShadowTexture, Geometry.SetCameraPosition,
      glGenTextures, glBindTexture, glTexImage2D, glTexParameteri_minFilter,
      glTexParameteri_magFilter, glTexParameteri_wrapS, glTexParameteri_wrapT, glEnable,
      glTexGeni, glMatrixMode, glPushMatrix, glPopMatrix, glLoadIdentity, glLoadMatrixd,
      gluPerspective, gluLookAt, glMultMatrixd, glClearColor, glViewport,
      glLightfv_position, glColorMaterial, glMaterialfv_specular, glMaterialf_shininess,
      GLState.setCurrent, GLState.modifyBound, GLState.current, MatrixStack.pop,
      MatrixStack.push]
  have h3 : (InitGraphics32 N a).m_CameraViewMatrix = (InitGraphics N a).m_CameraViewMatrix
      ∧ (InitGraphics32 N a).m_LightProjectionMatrix = (InitGraphics N a).m_LightProjectionMatrix
      ∧ (InitGraphics32 N a).m_LightViewMatrix = (InitGraphics N a).m_LightViewMatrix := by
    simp [InitGraphics32, InitGraphics, Reshape32, Reshape, Geometry.SetLights,
      Geometry.SetMaterials, Geometry.SetShadowTexture, Geometry.SetCameraPosition,
      glGenTextures, glBindTexture, glTexImage2D, glTexParameteri_minFilter,
      glTexParameteri_magFilter, glTexParameteri_wrapS, glTexParameteri_wrapT, glEnable,
      glTexGeni, glMatrixMode, glPushMatrix, glPopMatrix, glLoadIdentity, glLoadMatrixd,
      gluPerspective, gluLookAt, glMultMatrixd, glClearColor, glViewport,
      glLightfv_position, glColorMaterial, glMaterialfv_specular, glMaterialf_shininess,
      GLState.setCurrent, GLState.modifyBound, GLState.current, MatrixStack.pop,
      MatrixStack.push, glGetDoublev]
  have h4 : (InitGraphics32 N a).m_Width = (InitGraphics N a).m_Width
      ∧ (InitGraphics32 N a).m_Height = (InitGraphics N a).m_Height
      ∧ (InitGraphics32 N a).statics = (InitGraphics N a).statics
      ∧ (InitGraphics32 N a).draws = (InitGraphics N a).draws
      ∧ (InitGraphics32 N a).swaps = (InitGraphics N a).swaps := ⟨rfl, rfl, rfl, rfl, rfl⟩
  cases hx : InitGraphics32 N a
  cases hy : InitGraphics N a
  rw [hx, hy] at h1 h2 h3 h4
  simp only at h1 h2 h3 h4
  obtain ⟨a1, a2, a3⟩ := h3
  obtain ⟨b1, b2, b3, b4, b5⟩ := h4
  simp only [GLApp.mk.injEq]
  exact ⟨b1, b2, h2, trivial, a1, a2, a3, b3, h1, b4, b5⟩

/-! ## Matrix-stack balance in GLfloat arithmetic -/

theorem Reshape32_shape (N : Numerics) (a : GLApp) (w h : Int)
    {P : Nat → (Nat → List GLCmd) → Prop} {m : MatrixMode} {L : Nat × Nat × Nat}
    (hs : Shape P m L a.gl) : Shape P .modelview L (Reshape32 N a w h).gl := by
  dsimp only [Reshape32]
  apply Shape.glPopMatrix
  apply Shape.gluPerspective
  apply Shape.glLoadIdentity
  apply Shape.glPushMatrix
  apply Shape.glMatrixMode
  apply Shape.glViewport
  exact hs

theorem InitGraphics32_shape (N : Numerics) (a : GLApp)
    {P : Nat → (Nat → List GLCmd) → Prop} {m : MatrixMode} {L : Nat × Nat × Nat}
    (hs : Shape P m L a.gl) : Shape P .modelview L (InitGraphics32 N a).gl := by
  dsimp only [InitGraphics32, Reshape32, Geometry.SetLights, Geometry.SetMaterials,
    Geometry.SetShadowTexture, Geometry.SetCameraPosition]
  apply Shape.glClearColor
  apply Shape.glEnable
  apply Shape.glPopMatrix
  apply Shape.gluLookAt
  apply Shape.glLoadIdentity
  apply Shape.gluPerspective
  apply Shape.glLoadIdentity
  apply Shape.gluLookAt
  apply Shape.glLoadIdentity
  apply Shape.gluPerspective
  apply Shape.glLoadIdentity
  apply Shape.glPushMatrix
  apply Shape.glMatrixMode
  apply Shape.glTexGeni
  apply Shape.glTexGeni
  apply Shape.glTexGeni
  apply Shape.glTexGeni
  apply Shape.glEnable
  apply Shape.glEnable
  apply Shape.glEnable
  apply Shape.glEnable
  apply Shape.glTexParameteri_wrapT
  apply Shape.glTexParameteri_wrapS
  apply Shape.glTexParameteri_magFilter
  apply Shape.glTexParameteri_minFilter
  apply Shape.glTexImage2D
  apply Shape.glBindTexture
  apply Shape.glGenTextures
  apply Shape.glMaterialf_shininess
  apply Shape.glMaterialfv_specular
  apply Shape.glEnable
  apply Shape.glColorMaterial
  apply Shape.glEnable
  apply Shape.glEnable
  apply Shape.glLightfv_position
  apply Shape.glPopMatrix
  apply Shape.gluPerspective
  apply Shape.glLoadIdentity
  apply Shape.glPushMatrix
  apply Shape.glMatrixMode
  apply Shape.glViewport
  exact hs

theorem Zoom32_shape (N : Numerics) (a : GLApp) (d : ℚ)
    {P : Nat → (Nat → List GLCmd) → Prop} {m : MatrixMode} {L : Nat × Nat × Nat}
    (hs : Shape P m L a.gl) : Shape P m L (Zoom32 N a d).gl := by
  dsimp only [Zoom32]
  apply Shape.gluLookAt
  apply Shape.glLoadIdentity
  exact hs

theorem Render32_shape (N : Numerics) (a : GLApp) (dt : ℚ) {m : MatrixMode}
    {L : Nat × Nat × Nat} (hs : Shape (ListsReady a.statics) m L a.gl) :
    Shape (ListsReady (Render32 N a dt).statics) .modelview L (Render32 N a dt).gl := by
  rw [Render32_eq_Render]
  exact Render_shape N a _ hs

theorem step32_shape_any (N : Numerics) (a : GLApp) (e : Event) {m : MatrixMode}
    {L : Nat × Nat × Nat} (hs : Shape (ListsReady a.statics) m L a.gl) :
    ∃ m2, Shape (ListsReady (step32 N a e).statics) m2 L (step32 N a e).gl := by
  cases e with
  | render dt => exact ⟨_, Render32_shape N a dt hs⟩
  | resize w h =>
    exact ⟨_, Reshape32_shape N { a with m_Width := w, m_Height := h } w h hs⟩
  | zoom d => exact ⟨_, Zoom32_shape N a d hs⟩

theorem run32_shape_any (N : Numerics) (evs : List Event) (a : GLApp) {m : MatrixMode}
    {L : Nat × Nat × Nat} (hs : Shape (ListsReady a.statics) m L a.gl) :
    ∃ m2, Shape (ListsReady (run32 N a evs).statics) m2 L (run32 N a evs).gl := by
  induction evs generalizing a m with
  | nil => exact ⟨m, hs⟩
  | cons e es ih =>
    obtain ⟨m1, h1⟩ := step32_shape_any N a e hs
    exact ih _ h1

/-! ## The claims -/

/-- C2: after `Transpose4x4Matrix(M)` the element at flat index `4*i+j` is the original
element at flat index `4*j+i`, for every 16-element array `M` and all `i`, `j` in 0..3. -/
theorem Transpose4x4Matrix_flat {α : Type} (M : Arr16 α) (i j : Fin 4) :
    Transpose4x4Matrix M (flat i j) = M (flat j i) := by
  fin_cases i <;> fin_cases j <;> rfl

/-- C3: applying `Transpose4x4Matrix` twice gives the array back. -/
theorem Transpose4x4Matrix_involutive {α : Type} (M : Arr16 α) :
    Transpose4x4Matrix (Transpose4x4Matrix M) = M := by
  funext k
  fin_cases k <;> rfl

/-- C1: `CreateTextureMatrix` hands the S, T, R and Q eye-plane generators rows 0, 1, 2, 3 of
`Bias * LightProjection * LightView`: component `j` of plane `k` is entry `(k, j)`; `Bias`
maps each coordinate `c` to `0.5*c + 0.5`. The state before the call is arbitrary, so the
planes depend on the two light matrices only. -/
theorem CreateTextureMatrix_planes (a : GLApp) :
    (∀ x y z : ℚ,
      Bias.mulVec ![x, y, z, 1] = ![1/2 * x + 1/2, 1/2 * y + 1/2, 1/2 * z + 1/2, 1]) ∧
    (∀ k j : Fin 4,
      ((CreateTextureMatrix a).gl.eyePlane (planeCoord k)).params j
        = (Bias * toMatrix a.m_LightProjectionMatrix * toMatrix a.m_LightViewMatrix) k j) := by
  refine ⟨Bias_mulVec, fun k j => ?_⟩
  rw [CreateTextureMatrix_eyePlane_params, slice4_transpose, toMatrix_matMul, toMatrix_matMul,
    toMatrix_matMul, toMatrix_matMul, toMatrix_identity16, one_mul, Bias]

/-- C6: each cached matrix is written only by its own event. `Reshape` (and the `WM_SIZE`
handler) leaves `CameraView`, `LightProjection`, `LightView` and the camera position as they
are; `Zoom` leaves `CameraProjection`, `LightProjection` and `LightView` as they are;
`CreateShadowMap`, `CreateTextureMatrix` and the whole of `Render` leave all four matrices
and the camera position as they are. So after every sequence of events the two light
matrices are the ones `InitGraphics` computed: the perspective matrix for 45 degrees, aspect
1, near 1, far 100 and the look-at matrix from (-5, 10, 6) to the origin. -/
theorem cached_matrices_frame (N : Numerics) (a : GLApp) :
    (∀ w h : Int,
      (Reshape N a w h).m_CameraViewMatrix = a.m_CameraViewMatrix
      ∧ (Reshape N a w h).m_LightProjectionMatrix = a.m_LightProjectionMatrix
      ∧ (Reshape N a w h).m_LightViewMatrix = a.m_LightViewMatrix
      ∧ (Reshape N a w h).m_Geometry.GetCameraPosition = a.m_Geometry.GetCameraPosition)
    ∧ (∀ w h : Nat,
      (DisplayWndProc N a (.WM_SIZE w h)).m_CameraViewMatrix = a.m_CameraViewMatrix
      ∧ (DisplayWndProc N a (.WM_SIZE w h)).m_LightProjectionMatrix = a.m_LightProjectionMatrix
      ∧ (DisplayWndProc N a (.WM_SIZE w h)).m_LightViewMatrix = a.m_LightViewMatrix
      ∧ (DisplayWndProc N a (.WM_SIZE w h)).m_Geometry.GetCameraPosition
          = a.m_Geometry.GetCameraPosition)
    ∧ (∀ d : ℚ,
      (Zoom N a d).m_CameraProjectionMatrix = a.m_CameraProjectionMatrix
      ∧ (Zoom N a d).m_LightProjectionMatrix = a.m_LightProjectionMatrix
      ∧ (Zoom N a d).m_LightViewMatrix = a.m_LightViewMatrix)
    ∧ (∀ angle : ℚ,
      (CreateShadowMap N a angle).m_CameraProjectionMatrix = a.m_CameraProjectionMatrix
      ∧ (CreateShadowMap N a angle).m_CameraViewMatrix = a.m_CameraViewMatrix
      ∧ (CreateShadowMap N a angle).m_LightProjectionMatrix = a.m_LightProjectionMatrix
      ∧ (CreateShadowMap N a angle).m_LightViewMatrix = a.m_LightViewMatrix)
    ∧ ((CreateTextureMatrix a).m_CameraProjectionMatrix = a.m_CameraProjectionMatrix
      ∧ (CreateTextureMatrix a).m_CameraViewMatrix = a.m_CameraViewMatrix
      ∧ (CreateTextureMatrix a).m_LightProjectionMatrix = a.m_LightProjectionMatrix
      ∧ (CreateTextureMatrix a).m_LightViewMatrix = a.m_LightViewMatrix)
    ∧ (∀ dt : ℚ,
      (Render N a dt).m_CameraProjectionMatrix = a.m_CameraProjectionMatrix
      ∧ (Render N a dt).m_CameraViewMatrix = a.m_CameraViewMatrix
      ∧ (Render N a dt).m_LightProjectionMatrix = a.m_LightProjectionMatrix
      ∧ (Render N a dt).m_LightViewMatrix = a.m_LightViewMatrix
      ∧ (Render N a dt).m_Geometry.GetCameraPosition = a.m_Geometry.GetCameraPosition)
    ∧ (∀ evs : List Event,
      (run N (InitGraphics N a) evs).m_LightProjectionMatrix = perspective N 45 1 1 100
      ∧ (run N (InitGraphics N a) evs).m_LightViewMatrix
          = N.lookAt ![-5, 10, 6] ![0, 0, 0] ![0, 1, 0]) := by
  refine ⟨fun w h => ⟨rfl, rfl, rfl, rfl⟩, fun w h => ⟨rfl, rfl, rfl, rfl⟩,
    fun d => ⟨rfl, rfl, rfl⟩, fun angle => CreateShadowMap_cached N a angle,
    ⟨rfl, rfl, rfl, rfl⟩, fun dt => ?_, fun evs => ?_⟩
  · obtain ⟨h1, h2, h3, h4, h5⟩ := Render_cached N a dt
    exact ⟨h1, h2, h3, h4, by rw [h5]⟩
  · obtain ⟨h1, h2⟩ := run_light N evs (InitGraphics N a)
    rw [h1, h2]
    constructor
    · show matMul identity16 (perspective N 45 1 1 100) = _
      rw [matMul_identity16_left]
    · show matMul identity16 (N.lookAt ![-5, 10, 6] ![0, 0, 0] ![0, 1, 0]) = _
      rw [matMul_identity16_left]

/-- C7: in every state reachable from `InitGraphics` polygon offset is disabled and all
colour channels are writable; a frame issues three draws: the depth-pass draw with
polygon-offset fill enabled (factor 1, units 4) and colour writes off, then the two
colour-pass draws with polygon offset disabled and colour writes on; `CreateShadowMap`
returns with polygon offset disabled and colour writes on, and so does `Render`. -/
theorem polygon_offset_only_in_depth_pass (N : Numerics) (s : GLApp) (hs : Reachable N s)
    (dt : ℚ) :
    (s.gl.enabled .polygonOffsetFill = false ∧ s.gl.colorMask = (true, true, true, true))
    ∧ (Render N s dt).draws = s.draws ++ frameDraws N s dt
    ∧ (frameDraws N s dt).map
          (fun c => (c.gl.enabled .polygonOffsetFill, c.gl.polygonOffset, c.gl.colorMask))
        = [(true, (1, 4), (false, false, false, false)),
           (false, (1, 4), (true, true, true, true)),
           (false, (1, 4), (true, true, true, true))]
    ∧ (∀ angle : ℚ, (CreateShadowMap N s angle).gl.enabled .polygonOffsetFill = false
        ∧ (CreateShadowMap N s angle).gl.colorMask = (true, true, true, true))
    ∧ ((Render N s dt).gl.enabled .polygonOffsetFill = false
        ∧ (Render N s dt).gl.colorMask = (true, true, true, true)) :=
  ⟨(Reachable_settled N s hs).2, Render_draws N s dt, frameDraws_raster N s dt,
    fun angle => CreateShadowMap_raster N s angle, (Render_settled N s dt).2⟩

/-- Witness of C7: the sample state after `InitGraphics` and one frame of 1/60 s. -/
theorem polygon_offset_only_in_depth_pass_witness :
    Reachable sampleNumerics sampleStarted
    ∧ (frameDraws sampleNumerics sampleStarted (1/60)).map
          (fun c => (c.gl.enabled .polygonOffsetFill, c.gl.polygonOffset, c.gl.colorMask))
        = [(true, (1, 4), (false, false, false, false)),
           (false, (1, 4), (true, true, true, true)),
           (false, (1, 4), (true, true, true, true))] :=
  have h : Reachable sampleNumerics sampleStarted :=
    ⟨sampleStarted, [], ⟨800, 600, _, _, _, _, _, _, 800, 600, rfl⟩, rfl⟩
  ⟨h, (polygon_offset_only_in_depth_pass sampleNumerics sampleStarted h (1/60)).2.2.1⟩

/-- C9, the claim as stated fails: in the first frame of the sample program the first
colour-pass draw (less-than) discards a fragment of alpha 1 whose depth 1/2 equals the stored
depth 1/2, and the second colour-pass draw (greater-or-equal) keeps it. -/
theorem equal_depth_counterexample :
    ((frameDraws sampleNumerics sampleStarted (1/60)).drop 1).map
        (fun c => fragmentKept c.gl 1 (1/2) (1/2)) = [false, true] := by
  have h := frameDraws_kept sampleNumerics sampleStarted (1/60) 1 (1/2) (1/2) (by norm_num)
  simpa using h

/-- C9 as amended: a frame issues three draws; the two colour-pass draws run with texturing
and the alpha test `alpha > 0` enabled, the comparison result delivered as alpha, the first
with comparison `less` and the second with `gequal`. For a fragment of positive incoming
alpha the first keeps exactly the fragments with `r < d` and the second exactly those with
`d ≤ r`; so a fragment whose depth equals the stored depth is discarded by the first draw
and kept by the second: it is drawn as shadowed. -/
theorem equal_depth_is_shadowed (N : Numerics) (a : GLApp) (dt af d : ℚ) (haf : 0 < af) :
    (frameDraws N a dt).length = 3
    ∧ ((frameDraws N a dt).drop 1).map
        (fun c => (c.gl.enabled .texture2D, c.gl.enabled .alphaTest, c.gl.alphaFunc,
          (c.gl.textures c.gl.boundTexture2D).compareMode,
          (c.gl.textures c.gl.boundTexture2D).depthTextureMode,
          (c.gl.textures c.gl.boundTexture2D).compareFunc))
        = [(true, true, (.greater, 0), .compareRToTexture, .alpha, .less),
           (true, true, (.greater, 0), .compareRToTexture, .alpha, .gequal)]
    ∧ ((frameDraws N a dt).drop 1).map (fun c => fragmentKept c.gl af d d) = [false, true]
    ∧ ∀ r : ℚ, ((frameDraws N a dt).drop 1).map (fun c => fragmentKept c.gl af r d)
        = [decide (r < d), decide (d ≤ r)] := by
  refine ⟨frameDraws_length N a dt, frameDraws_compare N a dt, ?_,
    fun r => frameDraws_kept N a dt af r d haf⟩
  have h := frameDraws_kept N a dt af d d haf
  simpa using h

/-- Witness of C9 as amended: the first frame of the sample program, incoming alpha 1,
depth 1/2. -/
theorem equal_depth_is_shadowed_witness :
    (0 : ℚ) < 1
    ∧ ((frameDraws sampleNumerics sampleStarted (1/60)).drop 1).map
        (fun c => fragmentKept c.gl 1 (1/2) (1/2)) = [false, true] :=
  ⟨by norm_num,
    (equal_depth_is_shadowed sampleNumerics sampleStarted (1/60) 1 (1/2) (by norm_num)).2.2.1⟩

/-- C10, what the code does: `SetLights(p)` leaves `m_Light` as it was, so
`GetLightPosition` afterwards returns the old contents of `m_Light` for every `p`; with
`m_Light` holding zeros, `SetLights((-5, 10, 6))` is followed by `GetLightPosition`
returning (0, 0, 0), not (-5, 10, 6), also after the whole of `InitGraphics`; the camera
pair does return what was set. -/
theorem SetLights_does_not_store :
    (∀ (geo : Geometry) (g : GLState) (p : Vec3),
      (geo.SetLights g p).1.GetLightPosition = geo.GetLightPosition)
    ∧ ((Geometry.new ![0, 0, 0] ![0, 0, 0]).SetLights (GLState.initial 800 600)
        ![-5, 10, 6]).1.GetLightPosition = ![0, 0, 0]
    ∧ ((Geometry.new ![0, 0, 0] ![0, 0, 0]).SetLights (GLState.initial 800 600)
        ![-5, 10, 6]).1.GetLightPosition ≠ ![-5, 10, 6]
    ∧ (InitGraphics sampleNumerics sampleFresh).m_Geometry.GetLightPosition = ![0, 0, 0]
    ∧ (∀ (geo : Geometry) (p : Vec3), (geo.SetCameraPosition p).GetCameraPosition = p) := by
  refine ⟨fun geo g p => rfl, rfl, ?_, rfl, ?_⟩
  · intro h
    have h0 := congrFun h 0
    have h1 : (0 : ℚ) = -5 := h0
    norm_num at h1
  · intro geo p
    funext i
    fin_cases i <;> rfl

/-- C11, the claim as stated fails: with no window handle but a device context (handle 7),
`ShutDown` issues no call at all, so the device context that existed is never released. -/
theorem ShutDown_keeps_DC_counterexample :
    (WinState.mk 0 7 0 []).m_hDC ≠ 0
    ∧ (shutDownTimes 1 (WinState.mk 0 7 0 [])).calls = []
    ∧ ((shutDownTimes 2 (WinState.mk 0 7 0 [])).callsAfter 0).countP Win32Call.releasesDC
        = 0 := by
  refine ⟨by decide, rfl, rfl⟩

/-- C11 as amended: for every state of the three handles `ShutDown` returns true and leaves
them null; a second `ShutDown`, and the destructor after a `ShutDown`, change nothing and
issue no call; so any number `n + 1` of calls issues exactly the calls of the first one:
the rendering context is deleted once if it existed, the window destroyed once if it
existed, and the device context released once if both it and the window existed, and none of
them otherwise. -/
theorem ShutDown_idempotent (w : WinState) (n : Nat) :
    ((ShutDown w).1 = true ∧ (ShutDown w).2.m_hWnd = 0 ∧ (ShutDown w).2.m_hDC = 0
      ∧ (ShutDown w).2.m_hRC = 0)
    ∧ ShutDown (ShutDown w).2 = (true, (ShutDown w).2)
    ∧ GLApp_destructor (ShutDown w).2 = (ShutDown w).2
    ∧ shutDownTimes (n + 1) w = (ShutDown w).2
    ∧ (shutDownTimes (n + 1) w).calls = w.calls
        ++ (if w.m_hRC ≠ 0 then [.wglMakeCurrent 0 0, .wglDeleteContext w.m_hRC] else [])
        ++ (if w.m_hWnd ≠ 0 ∧ w.m_hDC ≠ 0 then [.ReleaseDC w.m_hWnd w.m_hDC] else [])
        ++ (if w.m_hWnd ≠ 0 then [.DestroyWindow w.m_hWnd] else [])
    ∧ ((shutDownTimes (n + 1) w).callsAfter w.calls.length).countP Win32Call.deletesContext
        = (if w.m_hRC ≠ 0 then 1 else 0)
    ∧ ((shutDownTimes (n + 1) w).callsAfter w.calls.length).countP Win32Call.releasesDC
        = (if w.m_hWnd ≠ 0 ∧ w.m_hDC ≠ 0 then 1 else 0)
    ∧ ((shutDownTimes (n + 1) w).callsAfter w.calls.length).countP Win32Call.destroysWindow
        = (if w.m_hWnd ≠ 0 then 1 else 0) := by
  have hidle : ShutDown (ShutDown w).2 = (true, (ShutDown w).2) :=
    ShutDown_idle _ rfl rfl rfl
  have hn := shutDownTimes_succ n w
  refine ⟨ShutDown_handles w, hidle, ?_, hn, ?_, ?_, ?_, ?_⟩
  · show (ShutDown (ShutDown w).2).2 = _
    rw [hidle]
  · rw [hn, ShutDown_calls]
  · rw [hn, WinState.callsAfter, ShutDown_calls]
    by_cases h1 : w.m_hRC = 0 <;> by_cases h2 : w.m_hWnd = 0 <;> by_cases h3 : w.m_hDC = 0 <;>
      simp [h1, h2, h3, List.countP_cons, Win32Call.deletesContext]
  · rw [hn, WinState.callsAfter, ShutDown_calls]
    by_cases h1 : w.m_hRC = 0 <;> by_cases h2 : w.m_hWnd = 0 <;> by_cases h3 : w.m_hDC = 0 <;>
      simp [h1, h2, h3, List.countP_cons, Win32Call.releasesDC]
  · rw [hn, WinState.callsAfter, ShutDown_calls]
    by_cases h1 : w.m_hRC = 0 <;> by_cases h2 : w.m_hWnd = 0 <;> by_cases h3 : w.m_hDC = 0 <;>
      simp [h1, h2, h3, List.countP_cons, Win32Call.destroysWindow]

/-- C12: in every state reached from `InitGraphics` with stored size `(w0, h0)` by Render,
resize and zoom events, `m_Width` and `m_Height` are the size of the latest resize (or
`w0`, `h0`), the viewport is `(0, 0, m_Width, m_Height)`, and the depth pass
(`CreateShadowMap`, also inside `Render`) issues one `glCopyTexImage2D` into the shadow-map
texture with corner `(0, 0)` and size `m_Width` x `m_Height`, although `InitGraphics`
allocated that texture with 512 x 512. -/
theorem depth_copy_uses_viewport_size (N : Numerics) (w0 h0 : Nat) (light camera : Vec3)
    (m1 m2 m3 m4 : Mat16) (vw vh : Int) (evs : List Event) :
    ((run N (InitGraphics N (GLApp.fresh w0 h0 light camera m1 m2 m3 m4 vw vh)) evs).m_Width,
      (run N (InitGraphics N (GLApp.fresh w0 h0 light camera m1 m2 m3 m4 vw vh)) evs).m_Height)
        = lastSize (w0, h0) evs
    ∧ (run N (InitGraphics N (GLApp.fresh w0 h0 light camera m1 m2 m3 m4 vw vh)) evs).gl.viewport
        = (0, 0,
          ((run N (InitGraphics N (GLApp.fresh w0 h0 light camera m1 m2 m3 m4 vw vh))
            evs).m_Width : Int),
          ((run N (InitGraphics N (GLApp.fresh w0 h0 light camera m1 m2 m3 m4 vw vh))
            evs).m_Height : Int))
    ∧ (run N (InitGraphics N (GLApp.fresh w0 h0 light camera m1 m2 m3 m4 vw vh))
        evs).m_Geometry.GetShadowTexObj
        = (InitGraphics N (GLApp.fresh w0 h0 light camera m1 m2 m3 m4 vw vh)).m_Geometry.GetShadowTexObj
    ∧ ((InitGraphics N (GLApp.fresh w0 h0 light camera m1 m2 m3 m4 vw vh)).gl.textures
        (InitGraphics N (GLApp.fresh w0 h0 light camera m1 m2 m3 m4 vw vh)).m_Geometry.GetShadowTexObj).image
        = some (DEPTH_MAP_WIDTH, DEPTH_MAP_HEIGHT)
    ∧ (DEPTH_MAP_WIDTH, DEPTH_MAP_HEIGHT) = ((512 : Int), (512 : Int))
    ∧ (∀ (s : GLApp) (angle : ℚ), (CreateShadowMap N s angle).gl.copies
        = s.gl.copies ++ [(s.m_Geometry.GetShadowTexObj, 0, 0, (s.m_Width : Int),
            (s.m_Height : Int))])
    ∧ (∀ (s : GLApp) (dt : ℚ), (Render N s dt).gl.copies
        = s.gl.copies ++ [(s.m_Geometry.GetShadowTexObj, 0, 0, (s.m_Width : Int),
            (s.m_Height : Int))]) := by
  obtain ⟨h1, h2, h3⟩ := run_size N evs
    (InitGraphics N (GLApp.fresh w0 h0 light camera m1 m2 m3 m4 vw vh))
    (InitGraphics_viewport N _)
  exact ⟨h1, h2, h3, InitGraphics_shadow_texture N _, rfl,
    fun s angle => CreateShadowMap_copies N s angle, fun s dt => Render_copies N s dt⟩

/-- C13, what the code does: `Zoom` adds `zoomFactor` to each camera coordinate, so from a
camera at `(c, c, c)` with `c > 0` a positive `zoomFactor` increases the distance to the
origin (the camera gets further, where the comment of `Zoom` says closer), and a negative
one above `-2c` decreases it (the camera gets closer, where the comment says further). From
the camera `(5, 5, 5)` of `InitGraphics`, `Zoom(1/10)` takes the squared distance from 75 to
7803/100, and the key `+`, which calls `Zoom(-0.1)`, takes it to 7203/100. -/
theorem Zoom_positive_moves_away :
    (∀ (N : Numerics) (a : GLApp) (c d : ℚ),
      a.m_Geometry.GetCameraPosition = ![c, c, c] → 0 < c → 0 < d →
        distSq a.m_Geometry.GetCameraPosition
          < distSq (Zoom N a d).m_Geometry.GetCameraPosition)
    ∧ (∀ (N : Numerics) (a : GLApp) (c d : ℚ),
      a.m_Geometry.GetCameraPosition = ![c, c, c] → 0 < c → d < 0 → -(2 * c) < d →
        distSq (Zoom N a d).m_Geometry.GetCameraPosition
          < distSq a.m_Geometry.GetCameraPosition)
    ∧ sampleStarted.m_Geometry.GetCameraPosition = ![5, 5, 5]
    ∧ distSq sampleStarted.m_Geometry.GetCameraPosition = 75
    ∧ distSq (Zoom sampleNumerics sampleStarted (1/10)).m_Geometry.GetCameraPosition
        = 7803 / 100
    ∧ DisplayWndProc sampleNumerics sampleStarted (.WM_CHAR '+')
        = Zoom sampleNumerics sampleStarted (-(1/10))
    ∧ distSq (DisplayWndProc sampleNumerics sampleStarted
        (.WM_CHAR '+')).m_Geometry.GetCameraPosition = 7203 / 100 := by
  have hs : sampleStarted.m_Geometry.GetCameraPosition = ![5, 5, 5] :=
    InitGraphics_camera sampleNumerics sampleFresh
  have hk : DisplayWndProc sampleNumerics sampleStarted (.WM_CHAR '+')
      = Zoom sampleNumerics sampleStarted (-(1/10)) := by
    simp [DisplayWndProc]
  refine ⟨?_, ?_, hs, ?_, ?_, hk, ?_⟩
  · intro N a c d hc h0 hd
    obtain ⟨h1, h2⟩ := Zoom_distSq N a c d hc
    rw [h1, h2]
    nlinarith
  · intro N a c d hc h0 hd hd2
    obtain ⟨h1, h2⟩ := Zoom_distSq N a c d hc
    rw [h1, h2]
    nlinarith
  · rw [(Zoom_distSq sampleNumerics sampleStarted 5 0 hs).1]
    norm_num
  · rw [(Zoom_distSq sampleNumerics sampleStarted 5 (1/10) hs).2]
    norm_num
  · rw [hk, (Zoom_distSq sampleNumerics sampleStarted 5 (-(1/10)) hs).2]
    norm_num

/-- C4, the claim as stated fails: in the sample program the key `-` calls `Zoom` with the
`GLfloat` nearest to 0.1, which is 13421773/134217728; from the camera position (5, 5, 5)
of `InitGraphics` each coordinate becomes 10695475/2097152 (about 5.0999999), the `GLfloat`
nearest to the sum, while the sum itself is 684510413/134217728 (about 5.1000000015).
Likewise the key `+` stores 10276045/2097152 (about 4.9000001), not the sum
657666867/134217728. -/
theorem Zoom32_sum_counterexample :
    DisplayWndProc32 sampleNumerics sampleStarted32 (.WM_CHAR '-')
        = Zoom32 sampleNumerics sampleStarted32 (f32round (1/10))
    ∧ f32round (1/10) = 13421773 / 134217728
    ∧ (∀ i, sampleStarted32.m_Geometry.GetCameraPosition i = 5)
    ∧ (∀ i, (Zoom32 sampleNumerics sampleStarted32
          (f32round (1/10))).m_Geometry.GetCameraPosition i = 10695475 / 2097152)
    ∧ ¬ (∀ i, (Zoom32 sampleNumerics sampleStarted32
          (f32round (1/10))).m_Geometry.GetCameraPosition i
        = sampleStarted32.m_Geometry.GetCameraPosition i + f32round (1/10))
    ∧ DisplayWndProc32 sampleNumerics sampleStarted32 (.WM_CHAR '+')
        = Zoom32 sampleNumerics sampleStarted32 (f32round (-(1/10)))
    ∧ (∀ i, (Zoom32 sampleNumerics sampleStarted32
          (f32round (-(1/10)))).m_Geometry.GetCameraPosition i = 10276045 / 2097152)
    ∧ ¬ (∀ i, (Zoom32 sampleNumerics sampleStarted32
          (f32round (-(1/10)))).m_Geometry.GetCameraPosition i
        = sampleStarted32.m_Geometry.GetCameraPosition i + f32round (-(1/10))) := by
  refine ⟨by simp [DisplayWndProc32], f32round_tenth, sampleStarted32_camera, sampleZoom32, ?_,
    by simp [DisplayWndProc32], sampleZoomIn32, ?_⟩
  · intro h
    have h0 := h 0
    rw [sampleZoom32, sampleStarted32_camera, f32round_tenth] at h0
    norm_num at h0
  · intro h
    have h0 := h 0
    rw [sampleZoomIn32, sampleStarted32_camera, f32round_neg, f32round_tenth] at h0
    norm_num at h0

/-- C4 as amended: in every state reachable from `InitGraphics` by Render, resize and zoom
events the matrix mode is model-view, and `Zoom(d)`, when no sum overflows, sets each
component of the stored camera position to the `GLfloat` sum of the old component and `d`:
the binary32 value nearest to `old + d`, which is finite and differs from `old + d` by at
most the fraction `2 ^ -24` of it (`2 ^ -150` in the subnormal range), and equals it when
that sum is a binary32 value. `CameraView` (and the model-view matrix) becomes the identity
multiplied by the look-at matrix from the new position to the origin with up vector
(0,1,0); the projection and texture stacks are not touched. -/
theorem Zoom32_camera (N : Numerics) (s : GLApp) (hs : Reachable32 N s) (d : ℚ)
    (hfin : ∀ i, f32finite (f32add (s.m_Geometry.GetCameraPosition i) d)) :
    s.gl.matrixMode = .modelview
    ∧ (∀ i, (Zoom32 N s d).m_Geometry.GetCameraPosition i
        = f32add (s.m_Geometry.GetCameraPosition i) d)
    ∧ (∀ i, f32finite ((Zoom32 N s d).m_Geometry.GetCameraPosition i))
    ∧ (∀ i, |(Zoom32 N s d).m_Geometry.GetCameraPosition i
          - (s.m_Geometry.GetCameraPosition i + d)|
        ≤ max (|s.m_Geometry.GetCameraPosition i + d| / 2 ^ 24) (1 / 2 ^ 150))
    ∧ (∀ i, f32round (s.m_Geometry.GetCameraPosition i + d)
          = s.m_Geometry.GetCameraPosition i + d →
        (Zoom32 N s d).m_Geometry.GetCameraPosition i = s.m_Geometry.GetCameraPosition i + d)
    ∧ (Zoom32 N s d).m_CameraViewMatrix
        = matMul identity16
            (N.lookAt (Zoom32 N s d).m_Geometry.GetCameraPosition ![0, 0, 0] ![0, 1, 0])
    ∧ (Zoom32 N s d).m_CameraViewMatrix
        = N.lookAt (Zoom32 N s d).m_Geometry.GetCameraPosition ![0, 0, 0] ![0, 1, 0]
    ∧ (Zoom32 N s d).gl.modelview.top = (Zoom32 N s d).m_CameraViewMatrix
    ∧ (Zoom32 N s d).gl.projection = s.gl.projection
    ∧ (Zoom32 N s d).gl.texture = s.gl.texture := by
  have h1 : s.gl.matrixMode = .modelview := Reachable32_mode N s hs
  obtain ⟨v1, v2, v3, v4⟩ := Zoom32_view N s d h1
  refine ⟨h1, Zoom32_GetCameraPosition N s d, ?_, ?_, ?_, v1, ?_, v2, v3, v4⟩
  · intro i
    rw [Zoom32_GetCameraPosition]
    exact hfin i
  · intro i
    rw [Zoom32_GetCameraPosition]
    exact f32round_err _
  · intro i hi
    rw [Zoom32_GetCameraPosition]
    exact hi
  · rw [v1, matMul_identity16_left]

/-- Witness of C4: the sample state after `InitGraphics` is reachable, and zooming it by the
`GLfloat` nearest to 0.1 overflows nowhere and stores 10695475/2097152 in each camera
coordinate. -/
theorem Zoom32_camera_witness :
    Reachable32 sampleNumerics sampleStarted32
    ∧ (∀ i, f32finite (f32add (sampleStarted32.m_Geometry.GetCameraPosition i)
        (f32round (1/10))))
    ∧ ∀ i, (Zoom32 sampleNumerics sampleStarted32 (f32round (1/10))).m_Geometry.GetCameraPosition i
        = 10695475 / 2097152 :=
  have hv : ∀ i : Fin 3, f32add (sampleStarted32.m_Geometry.GetCameraPosition i)
      (f32round (1/10)) = 10695475 / 2097152 := by
    intro i
    rw [sampleStarted32_camera, f32round_tenth, f32add_five_tenth]
  have hf : ∀ i, f32finite (f32add (sampleStarted32.m_Geometry.GetCameraPosition i)
      (f32round (1/10))) := by
    intro i
    rw [hv, f32finite, abs_of_pos (by norm_num)]
    norm_num
  ⟨sampleStarted32_reachable, hf, fun i =>
    ((Zoom32_camera sampleNumerics sampleStarted32 sampleStarted32_reachable
      (f32round (1/10)) hf).2.1 i).trans (hv i)⟩

/-- C5, the claim as stated fails: for the 800 x 600 window of `main.cpp` the aspect term of
`CameraProjection`, after `Reshape` and after `InitGraphics`, is 11184811/8388608 (about
1.33333337), the `GLfloat` nearest to 800/600, and not 800/600. -/
theorem Reshape32_aspect_counterexample :
    toMatrix (Reshape32 sampleNumerics sampleFresh 800 600).m_CameraProjectionMatrix 1 1
        / toMatrix (Reshape32 sampleNumerics sampleFresh 800 600).m_CameraProjectionMatrix 0 0
        = 11184811 / 8388608
    ∧ toMatrix (InitGraphics32 sampleNumerics sampleFresh).m_CameraProjectionMatrix 1 1
        / toMatrix (InitGraphics32 sampleNumerics sampleFresh).m_CameraProjectionMatrix 0 0
        = 11184811 / 8388608
    ∧ toMatrix (Reshape32 sampleNumerics sampleFresh 800 600).m_CameraProjectionMatrix 1 1
        / toMatrix (Reshape32 sampleNumerics sampleFresh 800 600).m_CameraProjectionMatrix 0 0
        ≠ ((800 : Int) : ℚ) / ((600 : Int) : ℚ) := by
  have hc : sampleNumerics.cotHalfDeg 45 ≠ 0 := by
    show (12 / 5 : ℚ) ≠ 0
    norm_num
  have h1 : toMatrix (Reshape32 sampleNumerics sampleFresh 800 600).m_CameraProjectionMatrix 1 1
      / toMatrix (Reshape32 sampleNumerics sampleFresh 800 600).m_CameraProjectionMatrix 0 0
      = 11184811 / 8388608 := by
    rw [Reshape32_projection, perspective_ratio sampleNumerics _ hc, sampleAspect32]
  refine ⟨h1, ?_, ?_⟩
  · rw [InitGraphics32_projection, perspective_ratio sampleNumerics _ hc]
    exact sampleAspect32
  · rw [h1]
    norm_num

/-- C5 as amended: for a viewport whose width `w` and height `h` are positive C `int`s,
`Reshape(w, h)` makes `CameraProjection` the perspective matrix for 45 degrees, near 1, far
100 and the aspect `(float)w/h` computed in `GLfloat`, which is positive and finite; the
entry (1,1) divided by the entry (0,0) is that `GLfloat` aspect, and the viewport is set to
`(0, 0, w, h)`. `InitGraphics` does the same for the stored width and height. For sides
below `2 ^ 24` the aspect is the binary32 value nearest to `w/h`: it differs from `w/h` by
at most the fraction `2 ^ -24` of it, and equals `w/h` when that quotient is a binary32
value. The cotangent of 22.5 degrees is taken to be non-zero. -/
theorem Reshape32_CameraProjection (N : Numerics) (a : GLApp) (w h : Int)
    (hw : 0 < w) (hh : 0 < h) (hw2 : w < 2 ^ 31) (hh2 : h < 2 ^ 31)
    (hc : N.cotHalfDeg 45 ≠ 0) :
    (0 < f32div (f32ofInt w) (f32ofInt h) ∧ f32finite (f32div (f32ofInt w) (f32ofInt h)))
    ∧ ((Reshape32 N a w h).m_CameraProjectionMatrix
          = perspective N 45 (f32div (f32ofInt w) (f32ofInt h)) 1 100
      ∧ toMatrix (Reshape32 N a w h).m_CameraProjectionMatrix 1 1
          / toMatrix (Reshape32 N a w h).m_CameraProjectionMatrix 0 0
          = f32div (f32ofInt w) (f32ofInt h)
      ∧ (Reshape32 N a w h).gl.viewport = (0, 0, w, h))
    ∧ (∀ a0 : GLApp, (a0.m_Width : Int) = w → (a0.m_Height : Int) = h →
      ((InitGraphics32 N a0).m_CameraProjectionMatrix
          = perspective N 45 (f32div (f32ofInt w) (f32ofInt h)) 1 100
        ∧ toMatrix (InitGraphics32 N a0).m_CameraProjectionMatrix 1 1
            / toMatrix (InitGraphics32 N a0).m_CameraProjectionMatrix 0 0
            = f32div (f32ofInt w) (f32ofInt h)
        ∧ (InitGraphics32 N a0).gl.viewport = (0, 0, w, h)))
    ∧ (w < 2 ^ 24 → h < 2 ^ 24 →
        f32div (f32ofInt w) (f32ofInt h) = f32round ((w : ℚ) / (h : ℚ))
        ∧ |f32div (f32ofInt w) (f32ofInt h) - (w : ℚ) / (h : ℚ)| ≤ (w : ℚ) / (h : ℚ) / 2 ^ 24
        ∧ (f32round ((w : ℚ) / (h : ℚ)) = (w : ℚ) / (h : ℚ) →
            toMatrix (Reshape32 N a w h).m_CameraProjectionMatrix 1 1
              / toMatrix (Reshape32 N a w h).m_CameraProjectionMatrix 0 0
              = (w : ℚ) / (h : ℚ))) := by
  have hR : toMatrix (Reshape32 N a w h).m_CameraProjectionMatrix 1 1
      / toMatrix (Reshape32 N a w h).m_CameraProjectionMatrix 0 0
      = f32div (f32ofInt w) (f32ofInt h) := by
    rw [Reshape32_projection, perspective_ratio N _ hc]
  refine ⟨⟨aspect32_pos w h hw hh hh2, aspect32_finite w h hw hh hw2 hh2⟩,
    ⟨Reshape32_projection N a w h, hR, rfl⟩, ?_, ?_⟩
  · intro a0 hw1 hh1
    have hI : (InitGraphics32 N a0).m_CameraProjectionMatrix
        = perspective N 45 (f32div (f32ofInt w) (f32ofInt h)) 1 100 := by
      rw [InitGraphics32_projection, hw1, hh1]
    refine ⟨hI, ?_, ?_⟩
    · rw [hI, perspective_ratio N _ hc]
    · show (0, 0, (a0.m_Width : Int), (a0.m_Height : Int)) = (0, 0, w, h)
      rw [hw1, hh1]
  · intro hw3 hh3
    obtain ⟨e1, e2⟩ := aspect32_err w h hw hh hw3 hh3
    refine ⟨e1, e2, ?_⟩
    intro hx
    rw [hR, e1, hx]

/-- Witness of C5: the 800 x 600 viewport with the sample numerics, for `Reshape` and for
`InitGraphics` on the sample fresh state, whose stored size is 800 x 600: the aspect term
is 11184811/8388608. -/
theorem Reshape32_CameraProjection_witness :
    (0 : Int) < 800 ∧ (0 : Int) < 600 ∧ (800 : Int) < 2 ^ 31 ∧ (600 : Int) < 2 ^ 31
    ∧ sampleNumerics.cotHalfDeg 45 ≠ 0
    ∧ toMatrix (Reshape32 sampleNumerics sampleFresh 800 600).m_CameraProjectionMatrix 1 1
        / toMatrix (Reshape32 sampleNumerics sampleFresh 800 600).m_CameraProjectionMatrix 0 0
        = 11184811 / 8388608
    ∧ toMatrix (InitGraphics32 sampleNumerics sampleFresh).m_CameraProjectionMatrix 1 1
        / toMatrix (InitGraphics32 sampleNumerics sampleFresh).m_CameraProjectionMatrix 0 0
        = 11184811 / 8388608 :=
  have hc : sampleNumerics.cotHalfDeg 45 ≠ 0 := by
    show (12 / 5 : ℚ) ≠ 0
    norm_num
  have h := Reshape32_CameraProjection sampleNumerics sampleFresh 800 600 (by decide)
    (by decide) (by decide) (by decide) hc
  ⟨by decide, by decide, by decide, by decide, hc, h.2.1.2.1.trans sampleAspect32,
    ((h.2.2.1 sampleFresh rfl rfl).2.1).trans sampleAspect32⟩

/-- C8, the claim as stated fails: from the sample state after `InitGraphics`, ten frames
whose elapsed time is the `float` nearest to 1/60 leave the angle at 4369067/524288 (about
8.3333340), which is neither 50 times the sum of the ten elapsed times nor 25/3; and after
one frame of 524288 s, which takes the angle to 26214400, a frame of that length does not
change the angle any more, so the angle is capped. -/
theorem angle32_counterexample :
    (run32 sampleNumerics sampleStarted32
        (List.replicate 10 (Event.render (f32round (1/60))))).statics.angle = 4369067 / 524288
    ∧ (run32 sampleNumerics sampleStarted32
        (List.replicate 10 (Event.render (f32round (1/60))))).statics.angle
        ≠ 50 * (List.replicate 10 (f32round (1/60))).sum
    ∧ (run32 sampleNumerics sampleStarted32
        (List.replicate 10 (Event.render (f32round (1/60))))).statics.angle ≠ 25 / 3
    ∧ (run32 sampleNumerics sampleStarted32 [Event.render 524288]).statics.angle = 26214400
    ∧ (run32 sampleNumerics sampleStarted32
        [Event.render 524288, Event.render (f32round (1/60))]).statics.angle = 26214400
    ∧ (run32 sampleNumerics sampleStarted32
        [Event.render 524288, Event.render (f32round (1/60))]).statics.angle
        ≠ 50 * (524288 + f32round (1/60)) := by
  have h : (run32 sampleNumerics sampleStarted32
      (List.replicate 10 (Event.render (f32round (1/60))))).statics.angle
      = 4369067 / 524288 := by
    rw [run32_angle, renderTimes_replicate]
    exact accum32_ten
  have h2 : (run32 sampleNumerics sampleStarted32
      [Event.render 524288, Event.render (f32round (1/60))]).statics.angle = 26214400 := by
    rw [run32_angle]
    exact accum32_long.2
  refine ⟨h, ?_, ?_, ?_, h2, ?_⟩
  · rw [h, f32round_sixtieth]
    norm_num
  · rw [h]
    norm_num
  · rw [run32_angle]
    exact accum32_long.1
  · rw [h2, f32round_sixtieth]
    norm_num

/-- C8 as amended: from the state `InitGraphics` leaves, the animation angle starts at 0 and
after any sequence of events it is the `GLfloat` accumulation over the elapsed times of its
frames (resizes and zooms do not change it): each frame replaces the angle by the binary32
value nearest to the angle plus the binary32 value nearest to `50 * dt`, without wrapping,
and while nothing overflows the angle is finite. One frame moves the angle to within the
two rounding errors of `angle + 50 * dt`, each at most the fraction `2 ^ -24` of the rounded
number (`2 ^ -150` in the subnormal range). After 10 frames whose elapsed time is the
`float` nearest to 1/60 the angle is 4369067/524288, which is 25/3 + 1/1572864. The angle
is capped: an angle that is a `GLfloat` of `2 ^ 24` or more is not changed by a frame whose
rounded product `50 * dt` is non-negative and below 1, such as a frame of 1/60 s at the
angle `2 ^ 24`, or at the angle 26214400 that one frame of 524288 s leaves. Within a frame
the three draws receive the updated angle. -/
theorem angle32_accumulates (N : Numerics) (s0 : GLApp) (h0 : Started32 N s0) :
    s0.statics.angle = 0
    ∧ (∀ evs : List Event, accumFinite32 0 (renderTimes evs) →
        (run32 N s0 evs).statics.angle = accum32 0 (renderTimes evs)
        ∧ f32finite (run32 N s0 evs).statics.angle)
    ∧ (∀ dts : List ℚ, accumFinite32 0 dts →
        (run32 N s0 (dts.map Event.render)).statics.angle = accum32 0 dts)
    ∧ (∀ (a : GLApp) (dt : ℚ),
        (Render32 N a dt).statics.angle = f32add a.statics.angle (f32mul 50 dt)
        ∧ |(Render32 N a dt).statics.angle - (a.statics.angle + 50 * dt)|
            ≤ max (|50 * dt| / 2 ^ 24) (1 / 2 ^ 150)
              + max (|a.statics.angle + f32mul 50 dt| / 2 ^ 24) (1 / 2 ^ 150)
        ∧ (Render32 N a dt).draws = a.draws ++ frameDraws32 N a dt
        ∧ (frameDraws32 N a dt).map DrawCall.angle
            = [(Render32 N a dt).statics.angle, (Render32 N a dt).statics.angle,
               (Render32 N a dt).statics.angle])
    ∧ (∀ (a : GLApp) (w h : Nat) (d : ℚ),
        (DisplayWndProc32 N a (.WM_SIZE w h)).statics.angle = a.statics.angle
        ∧ (Zoom32 N a d).statics.angle = a.statics.angle)
    ∧ (run32 N s0 (List.replicate 10 (Event.render (f32round (1/60))))).statics.angle
        = 4369067 / 524288
    ∧ (4369067 / 524288 : ℚ) = 25 / 3 + 1 / 1572864
    ∧ (∀ (a : GLApp) (m : ℤ) (e : ℕ) (dt : ℚ), 2 ^ 23 ≤ m → m < 2 ^ 24 → 1 ≤ e →
        a.statics.angle = (m : ℚ) * 2 ^ e → 0 ≤ f32mul 50 dt → f32mul 50 dt < 1 →
        (Render32 N a dt).statics.angle = a.statics.angle)
    ∧ (∀ a : GLApp, a.statics.angle = 16777216 →
        (Render32 N a (f32round (1/60))).statics.angle = 16777216)
    ∧ (run32 N s0 [Event.render 524288]).statics.angle = 26214400
    ∧ (run32 N s0 [Event.render 524288, Event.render (f32round (1/60))]).statics.angle
        = 26214400 := by
  have z : s0.statics.angle = 0 := Started32_angle N s0 h0
  have key : ∀ evs : List Event,
      (run32 N s0 evs).statics.angle = accum32 0 (renderTimes evs) := by
    intro evs
    rw [run32_angle, z]
  have f0 : f32finite 0 := by
    unfold f32finite
    norm_num
  refine ⟨z, ?_, ?_, ?_, ?_, ?_, ?_, ?_, ?_, ?_, ?_⟩
  · intro evs hf
    refine ⟨key evs, ?_⟩
    rw [key]
    exact accum32_finite _ 0 f0 hf
  · intro dts _
    rw [key, renderTimes_map_render]
  · intro a dt
    refine ⟨Render32_angle N a dt, Render32_angle_err N a dt, Render32_draws N a dt, ?_⟩
    rw [Render32_angle]
    exact frameDraws32_angle N a dt
  · intro a w h d
    exact ⟨rfl, rfl⟩
  · rw [key, renderTimes_replicate]
    exact accum32_ten
  · norm_num
  · intro a m e dt hm1 hm2 he ha hy0 hy1
    rw [Render32_angle, ha]
    exact f32add_absorbs m e hm1 hm2 he _ hy0 hy1
  · intro a ha
    rw [Render32_angle, ha, f32round_sixtieth, f32mul_fifty_sixtieth, f32add_absorbed]
  · rw [key]
    exact accum32_long.1
  · rw [key]
    exact accum32_long.2

/-- Witness of C8: the sample state after `InitGraphics`, ten frames whose elapsed time is
the `float` nearest to 1/60. -/
theorem angle32_accumulates_witness :
    Started32 sampleNumerics sampleStarted32
    ∧ (run32 sampleNumerics sampleStarted32
        (List.replicate 10 (Event.render (f32round (1/60))))).statics.angle
        = 4369067 / 524288 :=
  have h : Started32 sampleNumerics sampleStarted32 :=
    ⟨800, 600, _, _, _, _, _, _, 800, 600, rfl⟩
  ⟨h, (angle32_accumulates sampleNumerics sampleStarted32 h).2.2.2.2.2.1⟩

/-- C14: every matrix-stack user pops what it pushes. The four display lists leave the
depth of the projection, model-view and texture stacks as they found it, in any state and
matrix mode. From any state, whatever the depths of its stacks, in which the list names of
`Geometry::Draw` are 0 or name the lists it compiled, `Geometry::Draw`, `CreateShadowMap`,
`Render` and every sequence of Render, resize and zoom events leave the three depths as
they were; `CreateTextureMatrix`, `Reshape`, the `WM_SIZE` handler, `Zoom` and
`InitGraphics` do so from any state at all. In every state reachable from `InitGraphics`
all three stacks have depth 1, the list names are 0 or name the compiled lists, and so each
of these functions and every further sequence of events leaves the depths as they were.
The same holds of the functions in `GLfloat` arithmetic, `Reshape32`, `InitGraphics32`,
`Zoom32`, `Render32` and their sequences of events. -/
theorem matrix_stacks_balanced (N : Numerics) (s : GLApp) (hs : Reachable N s) :
    (∀ g : GLState,
      (baseListBody.foldl (execCmd N) g).depths = g.depths
      ∧ (torusListBody.foldl (execCmd N) g).depths = g.depths
      ∧ (sphereListBody.foldl (execCmd N) g).depths = g.depths
      ∧ (coneListBody.foldl (execCmd N) g).depths = g.depths)
    ∧ (∀ (a : GLApp) (angle : ℚ), ListsReady a.statics a.gl.listNames a.gl.lists →
        (GLApp.Draw N a angle).gl.depths = a.gl.depths)
    ∧ (∀ a : GLApp, (CreateTextureMatrix a).gl.depths = a.gl.depths)
    ∧ (∀ (a : GLApp) (w h : Int), (Reshape N a w h).gl.depths = a.gl.depths)
    ∧ (∀ a : GLApp, (InitGraphics N a).gl.depths = a.gl.depths)
    ∧ s.gl.depths = (1, 1, 1)
    ∧ (∀ angle : ℚ, (GLApp.Draw N s angle).gl.depths = s.gl.depths)
    ∧ (∀ angle : ℚ, (CreateShadowMap N s angle).gl.depths = s.gl.depths)
    ∧ (∀ dt : ℚ, (Render N s dt).gl.depths = s.gl.depths)
    ∧ (∀ w h : Nat, (DisplayWndProc N s (.WM_SIZE w h)).gl.depths = s.gl.depths)
    ∧ (∀ d : ℚ, (Zoom N s d).gl.depths = s.gl.depths)
    ∧ (∀ evs : List Event, (run N s evs).gl.depths = s.gl.depths)
    ∧ (∀ (a : GLApp) (angle : ℚ), ListsReady a.statics a.gl.listNames a.gl.lists →
        (CreateShadowMap N a angle).gl.depths = a.gl.depths
        ∧ ListsReady (CreateShadowMap N a angle).statics
            (CreateShadowMap N a angle).gl.listNames (CreateShadowMap N a angle).gl.lists)
    ∧ (∀ (a : GLApp) (dt : ℚ), ListsReady a.statics a.gl.listNames a.gl.lists →
        (Render N a dt).gl.depths = a.gl.depths
        ∧ ListsReady (Render N a dt).statics (Render N a dt).gl.listNames
            (Render N a dt).gl.lists)
    ∧ (∀ (a : GLApp) (w h : Nat),
        (DisplayWndProc N a (.WM_SIZE w h)).gl.depths = a.gl.depths)
    ∧ (∀ (a : GLApp) (d : ℚ), (Zoom N a d).gl.depths = a.gl.depths)
    ∧ (∀ (a : GLApp) (evs : List Event), ListsReady a.statics a.gl.listNames a.gl.lists →
        (run N a evs).gl.depths = a.gl.depths)
    ∧ ListsReady s.statics s.gl.listNames s.gl.lists
    ∧ (∀ (a : GLApp) (w h : Int), (Reshape32 N a w h).gl.depths = a.gl.depths)
    ∧ (∀ a : GLApp, (InitGraphics32 N a).gl.depths = a.gl.depths)
    ∧ (∀ (a : GLApp) (d : ℚ), (Zoom32 N a d).gl.depths = a.gl.depths)
    ∧ (∀ (a : GLApp) (dt : ℚ), ListsReady a.statics a.gl.listNames a.gl.lists →
        (Render32 N a dt).gl.depths = a.gl.depths)
    ∧ (∀ (a : GLApp) (evs : List Event), ListsReady a.statics a.gl.listNames a.gl.lists →
        (run32 N a evs).gl.depths = a.gl.depths) := by
  have h := Reachable_shape N s hs
  refine ⟨fun g => ⟨?_, ?_, ?_, ?_⟩, ?_, ?_, ?_, ?_, ?_, ?_, ?_, ?_, ?_, ?_, ?_, ?_, ?_, ?_,
    ?_, ?_, h.1, ?_, ?_, ?_, ?_, ?_⟩
  · exact depths_of_shape (Shape.any g) (Shape.baseList N (Shape.any g))
  · exact depths_of_shape (Shape.any g) (Shape.torusList N (Shape.any g))
  · exact depths_of_shape (Shape.any g) (Shape.sphereList N (Shape.any g))
  · exact depths_of_shape (Shape.any g) (Shape.coneList N (Shape.any g))
  · intro a angle ha
    have h0 : Shape (ListsReady a.statics) a.gl.matrixMode a.gl.saved a.gl := ⟨ha, rfl, rfl⟩
    exact depths_of_shape h0 (GLApp_Draw_shape N a angle h0)
  · intro a
    exact depths_of_shape (Shape.any a.gl) (CreateTextureMatrix_shape a (Shape.any a.gl))
  · intro a w h'
    exact depths_of_shape (Shape.any a.gl) (Reshape_shape N a w h' (Shape.any a.gl))
  · intro a
    exact depths_of_shape (Shape.any a.gl) (InitGraphics_shape N a (Shape.any a.gl))
  · have e := h.2.2
    simp only [GLState.saved, Prod.mk.injEq] at e
    simp only [GLState.depths, MatrixStack.depth, e.1, e.2.1, e.2.2]
  · intro angle
    exact depths_of_shape h (GLApp_Draw_shape N s angle h)
  · intro angle
    exact depths_of_shape h (CreateShadowMap_shape N s angle h)
  · intro dt
    exact depths_of_shape h (Render_shape N s dt h)
  · intro w h'
    exact depths_of_shape h (step_shape N s (.resize w h') h)
  · intro d
    exact depths_of_shape h (Zoom_shape N s d h)
  · intro evs
    exact depths_of_shape h (run_shape N evs s h)
  · intro a angle ha
    have h0 : Shape (ListsReady a.statics) a.gl.matrixMode a.gl.saved a.gl := ⟨ha, rfl, rfl⟩
    have h1 := CreateShadowMap_shape N a angle h0
    exact ⟨depths_of_shape h0 h1, h1.1⟩
  · intro a dt ha
    have h0 : Shape (ListsReady a.statics) a.gl.matrixMode a.gl.saved a.gl := ⟨ha, rfl, rfl⟩
    have h1 := Render_shape N a dt h0
    exact ⟨depths_of_shape h0 h1, h1.1⟩
  · intro a w h'
    exact depths_of_shape (Shape.any a.gl)
      (Reshape_shape N { a with m_Width := w, m_Height := h' } w h' (Shape.any a.gl))
  · intro a d
    exact depths_of_shape (Shape.any a.gl) (Zoom_shape N a d (Shape.any a.gl))
  · intro a evs ha
    have h0 : Shape (ListsReady a.statics) a.gl.matrixMode a.gl.saved a.gl := ⟨ha, rfl, rfl⟩
    obtain ⟨m2, h1⟩ := run_shape_any N evs a h0
    exact depths_of_shape h0 h1
  · intro a w h'
    exact depths_of_shape (Shape.any a.gl) (Reshape32_shape N a w h' (Shape.any a.gl))
  · intro a
    exact depths_of_shape (Shape.any a.gl) (InitGraphics32_shape N a (Shape.any a.gl))
  · intro a d
    exact depths_of_shape (Shape.any a.gl) (Zoom32_shape N a d (Shape.any a.gl))
  · intro a dt ha
    have h0 : Shape (ListsReady a.statics) a.gl.matrixMode a.gl.saved a.gl := ⟨ha, rfl, rfl⟩
    exact depths_of_shape h0 (Render32_shape N a dt h0)
  · intro a evs ha
    have h0 : Shape (ListsReady a.statics) a.gl.matrixMode a.gl.saved a.gl := ⟨ha, rfl, rfl⟩
    obtain ⟨m2, h1⟩ := run32_shape_any N evs a h0
    exact depths_of_shape h0 h1

/-- Witness of C14: the sample state after `InitGraphics` is reachable, its three stacks
have depth 1, and a frame leaves the depths as they were; and from the sample fresh state
with one more matrix pushed on the projection stack, depths (2, 1, 1), `CreateShadowMap`
and a frame leave the depths at (2, 1, 1). -/
theorem matrix_stacks_balanced_witness :
    Reachable sampleNumerics sampleStarted
    ∧ sampleStarted.gl.depths = (1, 1, 1)
    ∧ (Render sampleNumerics sampleStarted (1/60)).gl.depths = sampleStarted.gl.depths
    ∧ (glPushMatrix (glMatrixMode sampleFresh.gl .projection)).depths = (2, 1, 1)
    ∧ (CreateShadowMap sampleNumerics
        { sampleFresh with gl := glPushMatrix (glMatrixMode sampleFresh.gl .projection) }
        0).gl.depths = (2, 1, 1)
    ∧ (Render sampleNumerics
        { sampleFresh with gl := glPushMatrix (glMatrixMode sampleFresh.gl .projection) }
        (1/60)).gl.depths = (2, 1, 1) :=
  have h : Reachable sampleNumerics sampleStarted :=
    ⟨sampleStarted, [], ⟨800, 600, _, _, _, _, _, _, 800, 600, rfl⟩, rfl⟩
  have hr : ListsReady sampleFresh.statics
      (glPushMatrix (glMatrixMode sampleFresh.gl .projection)).listNames
      (glPushMatrix (glMatrixMode sampleFresh.gl .projection)).lists :=
    ⟨Or.inl rfl, Or.inl rfl, Or.inl rfl, Or.inl rfl⟩
  have hd : (glPushMatrix (glMatrixMode sampleFresh.gl .projection)).depths = (2, 1, 1) := rfl
  ⟨h, (matrix_stacks_balanced sampleNumerics sampleStarted h).2.2.2.2.2.1,
    (matrix_stacks_balanced sampleNumerics sampleStarted h).2.2.2.2.2.2.2.2.1 (1/60),
    hd,
    ((matrix_stacks_balanced sampleNumerics sampleStarted h).2.2.2.2.2.2.2.2.2.2.2.2.1
      { sampleFresh with gl := glPushMatrix (glMatrixMode sampleFresh.gl .projection) }
      0 hr).1.trans hd,
    ((matrix_stacks_balanced sampleNumerics sampleStarted h).2.2.2.2.2.2.2.2.2.2.2.2.2.1
      { sampleFresh with gl := glPushMatrix (glMatrixMode sampleFresh.gl .projection) }
      (1/60) hr).1.trans hd⟩

end ShadowMap
